import Mathlib

/-!
# Dental clinic front end: list controllers and appointment slots

A shallow embedding of the page controllers of the dental-clinic front end
(`src/frontend/js`) and proofs about them.  Each controller is a record of the
instance fields the methods read and write; each method is a pure function on
that record.  DOM output is returned as data (the rows rendered, the flags of
the buttons) instead of being written to the page.

JavaScript values are embedded as follows.

* strings are `String`; `toLowerCase` follows the Unicode case mappings and
  `includes` is a search for a contiguous run of characters;
* arrays are `List`; `slice(a, b)` with non-negative integer bounds is
  `drop a` followed by `take (b - a)`;
* a `Set` of ids is the list of its elements in insertion order, without
  repetition;
* a `Date` is `Option Int`: the milliseconds since the epoch, or `none` for an
  Invalid Date, whose time value is NaN and which compares `false` with
  everything;
* a `Map`, `localStorage` and an object read by key are the list of their
  entries in insertion order;
* a method that can throw returns `Except String`, the error standing for the
  exception thrown.
-/

namespace JS

/-! ## Lower case

`String.prototype.toLowerCase` follows the Unicode case mappings.  The three
tables below list, by code point, the characters that have a lower-case form of
one character, the characters that are ignored when the neighbours of a capital
sigma are looked at, and the cased characters (Unicode 14). -/

/-- The lower-case forms: an entry `(first, last, step, lower)` says that the
code points `first`, `first + step`, ..., `last` have the lower-case forms
`lower`, `lower + step`, ... -/
def lowerRanges : List (Nat × Nat × Nat × Nat) :=
  [(65, 90, 1, 97), (192, 214, 1, 224), (216, 222, 1, 248), (256, 302, 2, 257),
   (306, 310, 2, 307), (313, 327, 2, 314), (330, 374, 2, 331), (376, 376, 1, 255),
   (377, 381, 2, 378), (385, 385, 1, 595), (386, 388, 2, 387), (390, 390, 1, 596),
   (391, 391, 1, 392), (393, 394, 1, 598), (395, 395, 1, 396), (398, 398, 1, 477),
   (399, 399, 1, 601), (400, 400, 1, 603), (401, 401, 1, 402), (403, 403, 1, 608),
   (404, 404, 1, 611), (406, 406, 1, 617), (407, 407, 1, 616), (408, 408, 1, 409),
   (412, 412, 1, 623), (413, 413, 1, 626), (415, 415, 1, 629), (416, 420, 2, 417),
   (422, 422, 1, 640), (423, 423, 1, 424), (425, 425, 1, 643), (428, 428, 1, 429),
   (430, 430, 1, 648), (431, 431, 1, 432), (433, 434, 1, 650), (435, 437, 2, 436),
   (439, 439, 1, 658), (440, 440, 1, 441), (444, 444, 1, 445), (452, 452, 1, 454),
   (453, 453, 1, 454), (455, 455, 1, 457), (456, 456, 1, 457), (458, 458, 1, 460),
   (459, 475, 2, 460), (478, 494, 2, 479), (497, 497, 1, 499), (498, 500, 2, 499),
   (502, 502, 1, 405), (503, 503, 1, 447), (504, 542, 2, 505), (544, 544, 1, 414),
   (546, 562, 2, 547), (570, 570, 1, 11365), (571, 571, 1, 572), (573, 573, 1, 410),
   (574, 574, 1, 11366), (577, 577, 1, 578), (579, 579, 1, 384), (580, 580, 1, 649),
   (581, 581, 1, 652), (582, 590, 2, 583), (880, 882, 2, 881), (886, 886, 1, 887),
   (895, 895, 1, 1011), (902, 902, 1, 940), (904, 906, 1, 941), (908, 908, 1, 972),
   (910, 911, 1, 973), (913, 929, 1, 945), (931, 939, 1, 963), (975, 975, 1, 983),
   (984, 1006, 2, 985), (1012, 1012, 1, 952), (1015, 1015, 1, 1016), (1017, 1017, 1, 1010),
   (1018, 1018, 1, 1019), (1021, 1023, 1, 891), (1024, 1039, 1, 1104), (1040, 1071, 1, 1072),
   (1120, 1152, 2, 1121), (1162, 1214, 2, 1163), (1216, 1216, 1, 1231), (1217, 1229, 2, 1218),
   (1232, 1326, 2, 1233), (1329, 1366, 1, 1377), (4256, 4293, 1, 11520), (4295, 4295, 1, 11559),
   (4301, 4301, 1, 11565), (5024, 5103, 1, 43888), (5104, 5109, 1, 5112), (7312, 7354, 1, 4304),
   (7357, 7359, 1, 4349), (7680, 7828, 2, 7681), (7838, 7838, 1, 223), (7840, 7934, 2, 7841),
   (7944, 7951, 1, 7936), (7960, 7965, 1, 7952), (7976, 7983, 1, 7968), (7992, 7999, 1, 7984),
   (8008, 8013, 1, 8000), (8025, 8031, 2, 8017), (8040, 8047, 1, 8032), (8072, 8079, 1, 8064),
   (8088, 8095, 1, 8080), (8104, 8111, 1, 8096), (8120, 8121, 1, 8112), (8122, 8123, 1, 8048),
   (8124, 8124, 1, 8115), (8136, 8139, 1, 8050), (8140, 8140, 1, 8131), (8152, 8153, 1, 8144),
   (8154, 8155, 1, 8054), (8168, 8169, 1, 8160), (8170, 8171, 1, 8058), (8172, 8172, 1, 8165),
   (8184, 8185, 1, 8056), (8186, 8187, 1, 8060), (8188, 8188, 1, 8179), (8486, 8486, 1, 969),
   (8490, 8490, 1, 107), (8491, 8491, 1, 229), (8498, 8498, 1, 8526), (8544, 8559, 1, 8560),
   (8579, 8579, 1, 8580), (9398, 9423, 1, 9424), (11264, 11311, 1, 11312),
   (11360, 11360, 1, 11361), (11362, 11362, 1, 619), (11363, 11363, 1, 7549),
   (11364, 11364, 1, 637), (11367, 11371, 2, 11368), (11373, 11373, 1, 593),
   (11374, 11374, 1, 625), (11375, 11375, 1, 592), (11376, 11376, 1, 594),
   (11378, 11378, 1, 11379), (11381, 11381, 1, 11382), (11390, 11391, 1, 575),
   (11392, 11490, 2, 11393), (11499, 11501, 2, 11500), (11506, 11506, 1, 11507),
   (42560, 42604, 2, 42561), (42624, 42650, 2, 42625), (42786, 42798, 2, 42787),
   (42802, 42862, 2, 42803), (42873, 42875, 2, 42874), (42877, 42877, 1, 7545),
   (42878, 42886, 2, 42879), (42891, 42891, 1, 42892), (42893, 42893, 1, 613),
   (42896, 42898, 2, 42897), (42902, 42920, 2, 42903), (42922, 42922, 1, 614),
   (42923, 42923, 1, 604), (42924, 42924, 1, 609), (42925, 42925, 1, 620),
   (42926, 42926, 1, 618), (42928, 42928, 1, 670), (42929, 42929, 1, 647),
   (42930, 42930, 1, 669), (42931, 42931, 1, 43859), (42932, 42946, 2, 42933),
   (42948, 42948, 1, 42900), (42949, 42949, 1, 642), (42950, 42950, 1, 7566),
   (42951, 42953, 2, 42952), (42960, 42960, 1, 42961), (42966, 42968, 2, 42967),
   (42997, 42997, 1, 42998), (65313, 65338, 1, 65345), (66560, 66599, 1, 66600),
   (66736, 66771, 1, 66776), (66928, 66964, 2, 66967), (66929, 66938, 1, 66968),
   (66940, 66954, 1, 66979), (66956, 66962, 1, 66995), (66964, 66965, 1, 67003),
   (68736, 68786, 1, 68800), (71840, 71871, 1, 71872), (93760, 93791, 1, 93792),
   (125184, 125217, 1, 125218)]

/-- The characters with the property `Case_Ignorable`, as ranges of code points. -/
def caseIgnorableRanges : List (Nat × Nat) :=
  [(39, 39), (46, 46), (58, 58), (94, 94), (96, 96), (168, 168), (173, 173), (175, 175),
   (180, 180), (183, 184), (688, 879), (884, 885), (890, 890), (900, 901), (903, 903),
   (1155, 1161), (1369, 1369), (1375, 1375), (1425, 1469), (1471, 1471), (1473, 1474),
   (1476, 1477), (1479, 1479), (1524, 1524), (1536, 1541), (1552, 1562), (1564, 1564),
   (1600, 1600), (1611, 1631), (1648, 1648), (1750, 1757), (1759, 1768), (1770, 1773),
   (1807, 1807), (1809, 1809), (1840, 1866), (1958, 1968), (2027, 2037), (2042, 2042),
   (2045, 2045), (2070, 2093), (2137, 2139), (2184, 2184), (2192, 2193), (2200, 2207),
   (2249, 2306), (2362, 2362), (2364, 2364), (2369, 2376), (2381, 2381), (2385, 2391),
   (2402, 2403), (2417, 2417), (2433, 2433), (2492, 2492), (2497, 2500), (2509, 2509),
   (2530, 2531), (2558, 2558), (2561, 2562), (2620, 2620), (2625, 2626), (2631, 2632),
   (2635, 2637), (2641, 2641), (2672, 2673), (2677, 2677), (2689, 2690), (2748, 2748),
   (2753, 2757), (2759, 2760), (2765, 2765), (2786, 2787), (2810, 2815), (2817, 2817),
   (2876, 2876), (2879, 2879), (2881, 2884), (2893, 2893), (2901, 2902), (2914, 2915),
   (2946, 2946), (3008, 3008), (3021, 3021), (3072, 3072), (3076, 3076), (3132, 3132),
   (3134, 3136), (3142, 3144), (3146, 3149), (3157, 3158), (3170, 3171), (3201, 3201),
   (3260, 3260), (3263, 3263), (3270, 3270), (3276, 3277), (3298, 3299), (3328, 3329),
   (3387, 3388), (3393, 3396), (3405, 3405), (3426, 3427), (3457, 3457), (3530, 3530),
   (3538, 3540), (3542, 3542), (3633, 3633), (3636, 3642), (3654, 3662), (3761, 3761),
   (3764, 3772), (3782, 3782), (3784, 3789), (3864, 3865), (3893, 3893), (3895, 3895),
   (3897, 3897), (3953, 3966), (3968, 3972), (3974, 3975), (3981, 3991), (3993, 4028),
   (4038, 4038), (4141, 4144), (4146, 4151), (4153, 4154), (4157, 4158), (4184, 4185),
   (4190, 4192), (4209, 4212), (4226, 4226), (4229, 4230), (4237, 4237), (4253, 4253),
   (4348, 4348), (4957, 4959), (5906, 5908), (5938, 5939), (5970, 5971), (6002, 6003),
   (6068, 6069), (6071, 6077), (6086, 6086), (6089, 6099), (6103, 6103), (6109, 6109),
   (6155, 6159), (6211, 6211), (6277, 6278), (6313, 6313), (6432, 6434), (6439, 6440),
   (6450, 6450), (6457, 6459), (6679, 6680), (6683, 6683), (6742, 6742), (6744, 6750),
   (6752, 6752), (6754, 6754), (6757, 6764), (6771, 6780), (6783, 6783), (6823, 6823),
   (6832, 6862), (6912, 6915), (6964, 6964), (6966, 6970), (6972, 6972), (6978, 6978),
   (7019, 7027), (7040, 7041), (7074, 7077), (7080, 7081), (7083, 7085), (7142, 7142),
   (7144, 7145), (7149, 7149), (7151, 7153), (7212, 7219), (7222, 7223), (7288, 7293),
   (7376, 7378), (7380, 7392), (7394, 7400), (7405, 7405), (7412, 7412), (7416, 7417),
   (7468, 7530), (7544, 7544), (7579, 7679), (8125, 8125), (8127, 8129), (8141, 8143),
   (8157, 8159), (8173, 8175), (8189, 8190), (8203, 8207), (8216, 8217), (8228, 8228),
   (8231, 8231), (8234, 8238), (8288, 8292), (8294, 8303), (8305, 8305), (8319, 8319),
   (8336, 8348), (8400, 8432), (11388, 11389), (11503, 11505), (11631, 11631), (11647, 11647),
   (11744, 11775), (11823, 11823), (12293, 12293), (12330, 12333), (12337, 12341),
   (12347, 12347), (12441, 12446), (12540, 12542), (40981, 40981), (42232, 42237),
   (42508, 42508), (42607, 42610), (42612, 42621), (42623, 42623), (42652, 42655),
   (42736, 42737), (42752, 42785), (42864, 42864), (42888, 42890), (42994, 42996),
   (43000, 43001), (43010, 43010), (43014, 43014), (43019, 43019), (43045, 43046),
   (43052, 43052), (43204, 43205), (43232, 43249), (43263, 43263), (43302, 43309),
   (43335, 43345), (43392, 43394), (43443, 43443), (43446, 43449), (43452, 43453),
   (43471, 43471), (43493, 43494), (43561, 43566), (43569, 43570), (43573, 43574),
   (43587, 43587), (43596, 43596), (43632, 43632), (43644, 43644), (43696, 43696),
   (43698, 43700), (43703, 43704), (43710, 43711), (43713, 43713), (43741, 43741),
   (43756, 43757), (43763, 43764), (43766, 43766), (43867, 43871), (43881, 43883),
   (44005, 44005), (44008, 44008), (44013, 44013), (64286, 64286), (64434, 64450),
   (65024, 65039), (65043, 65043), (65056, 65071), (65106, 65106), (65109, 65109),
   (65279, 65279), (65287, 65287), (65294, 65294), (65306, 65306), (65342, 65342),
   (65344, 65344), (65392, 65392), (65438, 65439), (65507, 65507), (65529, 65531),
   (66045, 66045), (66272, 66272), (66422, 66426), (67456, 67461), (67463, 67504),
   (67506, 67514), (68097, 68099), (68101, 68102), (68108, 68111), (68152, 68154),
   (68159, 68159), (68325, 68326), (68900, 68903), (69291, 69292), (69446, 69456),
   (69506, 69509), (69633, 69633), (69688, 69702), (69744, 69744), (69747, 69748),
   (69759, 69761), (69811, 69814), (69817, 69818), (69821, 69821), (69826, 69826),
   (69837, 69837), (69888, 69890), (69927, 69931), (69933, 69940), (70003, 70003),
   (70016, 70017), (70070, 70078), (70089, 70092), (70095, 70095), (70191, 70193),
   (70196, 70196), (70198, 70199), (70206, 70206), (70367, 70367), (70371, 70378),
   (70400, 70401), (70459, 70460), (70464, 70464), (70502, 70508), (70512, 70516),
   (70712, 70719), (70722, 70724), (70726, 70726), (70750, 70750), (70835, 70840),
   (70842, 70842), (70847, 70848), (70850, 70851), (71090, 71093), (71100, 71101),
   (71103, 71104), (71132, 71133), (71219, 71226), (71229, 71229), (71231, 71232),
   (71339, 71339), (71341, 71341), (71344, 71349), (71351, 71351), (71453, 71455),
   (71458, 71461), (71463, 71467), (71727, 71735), (71737, 71738), (71995, 71996),
   (71998, 71998), (72003, 72003), (72148, 72151), (72154, 72155), (72160, 72160),
   (72193, 72202), (72243, 72248), (72251, 72254), (72263, 72263), (72273, 72278),
   (72281, 72283), (72330, 72342), (72344, 72345), (72752, 72758), (72760, 72765),
   (72767, 72767), (72850, 72871), (72874, 72880), (72882, 72883), (72885, 72886),
   (73009, 73014), (73018, 73018), (73020, 73021), (73023, 73029), (73031, 73031),
   (73104, 73105), (73109, 73109), (73111, 73111), (73459, 73460), (78896, 78904),
   (92912, 92916), (92976, 92982), (92992, 92995), (94031, 94031), (94095, 94111),
   (94176, 94177), (94179, 94180), (110576, 110579), (110581, 110587), (110589, 110590),
   (113821, 113822), (113824, 113827), (118528, 118573), (118576, 118598), (119143, 119145),
   (119155, 119170), (119173, 119179), (119210, 119213), (119362, 119364), (121344, 121398),
   (121403, 121452), (121461, 121461), (121476, 121476), (121499, 121503), (121505, 121519),
   (122880, 122886), (122888, 122904), (122907, 122913), (122915, 122916), (122918, 122922),
   (123184, 123197), (123566, 123566), (123628, 123631), (125136, 125142), (125252, 125259),
   (127995, 127999), (917505, 917505), (917536, 917631), (917760, 917999)]

/-- The characters with the property `Cased`, as ranges of code points. -/
def casedRanges : List (Nat × Nat) :=
  [(65, 90), (97, 122), (170, 170), (181, 181), (186, 186), (192, 214), (216, 246), (248, 442),
   (444, 447), (452, 659), (661, 696), (704, 705), (736, 740), (837, 837), (880, 883),
   (886, 887), (890, 893), (895, 895), (902, 902), (904, 906), (908, 908), (910, 929),
   (931, 1013), (1015, 1153), (1162, 1327), (1329, 1366), (1376, 1416), (4256, 4293),
   (4295, 4295), (4301, 4301), (4304, 4346), (4349, 4351), (5024, 5109), (5112, 5117),
   (7296, 7304), (7312, 7354), (7357, 7359), (7424, 7615), (7680, 7957), (7960, 7965),
   (7968, 8005), (8008, 8013), (8016, 8023), (8025, 8025), (8027, 8027), (8029, 8029),
   (8031, 8061), (8064, 8116), (8118, 8124), (8126, 8126), (8130, 8132), (8134, 8140),
   (8144, 8147), (8150, 8155), (8160, 8172), (8178, 8180), (8182, 8188), (8305, 8305),
   (8319, 8319), (8336, 8348), (8450, 8450), (8455, 8455), (8458, 8467), (8469, 8469),
   (8473, 8477), (8484, 8484), (8486, 8486), (8488, 8488), (8490, 8493), (8495, 8500),
   (8505, 8505), (8508, 8511), (8517, 8521), (8526, 8526), (8544, 8575), (8579, 8580),
   (9398, 9449), (11264, 11492), (11499, 11502), (11506, 11507), (11520, 11557), (11559, 11559),
   (11565, 11565), (42560, 42605), (42624, 42653), (42786, 42887), (42891, 42894),
   (42896, 42954), (42960, 42961), (42963, 42963), (42965, 42969), (42997, 42998),
   (43000, 43002), (43824, 43866), (43868, 43880), (43888, 43967), (64256, 64262),
   (64275, 64279), (65313, 65338), (65345, 65370), (66560, 66639), (66736, 66771),
   (66776, 66811), (66928, 66938), (66940, 66954), (66956, 66962), (66964, 66965),
   (66967, 66977), (66979, 66993), (66995, 67001), (67003, 67004), (67456, 67456),
   (67459, 67461), (67463, 67504), (67506, 67514), (68736, 68786), (68800, 68850),
   (71840, 71903), (93760, 93823), (119808, 119892), (119894, 119964), (119966, 119967),
   (119970, 119970), (119973, 119974), (119977, 119980), (119982, 119993), (119995, 119995),
   (119997, 120003), (120005, 120069), (120071, 120074), (120077, 120084), (120086, 120092),
   (120094, 120121), (120123, 120126), (120128, 120132), (120134, 120134), (120138, 120144),
   (120146, 120485), (120488, 120512), (120514, 120538), (120540, 120570), (120572, 120596),
   (120598, 120628), (120630, 120654), (120656, 120686), (120688, 120712), (120714, 120744),
   (120746, 120770), (120772, 120779), (122624, 122633), (122635, 122654), (125184, 125251),
   (127280, 127305), (127312, 127337), (127344, 127369)]

/-! ## Strings -/

/-- The lower-case form of code point `n` when it is a single character: the
entry of `lowerRanges` that holds `n`, or `n` itself. -/
def lowerCode (n : Nat) : Nat :=
  match lowerRanges.find? (fun r => r.1 ≤ n && n ≤ r.2.1 && (n - r.1) % r.2.2.1 == 0) with
  | some r => r.2.2.2 + (n - r.1)
  | none => n

/-- Membership of a code point in a list of ranges. -/
def inRanges (ranges : List (Nat × Nat)) (n : Nat) : Bool :=
  ranges.any (fun r => r.1 ≤ n && n ≤ r.2)

/-- Looking from a capital sigma along `chars`, past the characters that are
ignored: is the first other character cased? -/
def meetsCased : List Char → Bool
  | [] => false
  | c :: rest =>
    if inRanges caseIgnorableRanges c.toNat then meetsCased rest
    else inRanges casedRanges c.toNat

/-- The condition `Final_Sigma`: a cased letter comes before the capital sigma
and none comes after it.  `before` holds the characters before it, the nearest
first. -/
def isFinalSigma (before following : List Char) : Bool :=
  meetsCased before && !meetsCased following

/-- The lower-case form of the characters of a string; `before` holds the
characters already passed, the nearest first.  The letters `A` to `Z` are the
only characters below 128 that change; the capital sigma (931) becomes the final
sigma (962) under `Final_Sigma` and the small sigma (963) otherwise; the capital
I with dot (304) becomes `i` and a combining dot (775). -/
def lowerChars (before : List Char) : List Char → List Char
  | [] => []
  | c :: rest =>
    (if c.toNat < 128 then [c.toLower]
     else if c.toNat = 931 then
       [if isFinalSigma before rest then Char.ofNat 962 else Char.ofNat 963]
     else if c.toNat = 304 then [Char.ofNat 105, Char.ofNat 775]
     else [Char.ofNat (lowerCode c.toNat)]) ++ lowerChars (c :: before) rest

/-- The method `String.prototype.toLowerCase`. -/
def toLowerCase (s : String) : String := String.mk (lowerChars [] s.data)

/-- Search for `sub` as a contiguous run starting at some position of `s`. -/
def includesChars (sub : List Char) : List Char → Bool
  | [] => sub.isEmpty
  | c :: cs => sub.isPrefixOf (c :: cs) || includesChars sub cs

/-- The method `String.prototype.includes`. -/
def includes (s sub : String) : Bool := includesChars sub.data s.data

/-- White space and line terminators, the characters `trim` strips. -/
def isWhiteSpace (c : Char) : Bool :=
  let n := c.toNat
  n == 0x09 || n == 0x0A || n == 0x0B || n == 0x0C || n == 0x0D || n == 0x20 ||
  n == 0xA0 || n == 0x1680 || (0x2000 ≤ n && n ≤ 0x200A) || n == 0x2028 ||
  n == 0x2029 || n == 0x202F || n == 0x205F || n == 0x3000 || n == 0xFEFF

/-- The test `s.trim() === ''`. -/
def trimIsEmpty (s : String) : Bool := s.data.all isWhiteSpace

/-- The call `s.padStart(2, '0')`. -/
def padStart2 (s : String) : String :=
  if s.length < 2 then String.mk (List.replicate (2 - s.length) '0') ++ s else s

/-- The operator `a || b` on strings: the empty string is falsy. -/
def orElse (a b : String) : String := if a = "" then b else a

/-! ## Arrays -/

/-- The method `Array.prototype.slice(start, end)` for `0 ≤ start ≤ end`. -/
def slice {α : Type} (xs : List α) (start stop : Nat) : List α :=
  (xs.drop start).take (stop - start)

/-- The value `Math.ceil(n / p)` for non-negative integers `n` and `p > 0`. -/
def ceilDiv (n p : Nat) : Nat := (n + p - 1) / p

/-- The method `Array.prototype.findIndex`; `none` stands for `-1`. -/
def findIndex {α : Type} (p : α → Bool) : List α → Option Nat
  | [] => none
  | x :: xs => if p x then some 0 else (findIndex p xs).map (fun i => i + 1)

/-- The method `Array.prototype.find`; `none` stands for `undefined`. -/
def find {α : Type} (p : α → Bool) : List α → Option α
  | [] => none
  | x :: xs => if p x then some x else find p xs

/-! ## Sets of ids -/

/-- The method `Set.prototype.add`. -/
def setAdd {α : Type} [DecidableEq α] (s : List α) (x : α) : List α :=
  if x ∈ s then s else s ++ [x]

/-- The method `Set.prototype.delete`. -/
def setDelete {α : Type} [DecidableEq α] (s : List α) (x : α) : List α :=
  s.filter (fun y => y != x)

/-! ## Dates -/

/-- Value of a decimal digit. -/
def digitVal (c : Char) : Option Nat :=
  if '0' ≤ c ∧ c ≤ '9' then some (c.toNat - '0'.toNat) else none

/-- Value of a run of decimal digits, most significant first. -/
def digitsVal (cs : List Char) : Option Nat :=
  cs.foldl (fun acc c =>
    match acc, digitVal c with
    | some n, some d => some (10 * n + d)
    | _, _ => none) (some 0)

/-- Leap years of the proleptic Gregorian calendar. -/
def isLeapYear (y : Nat) : Bool := (y % 4 == 0 && y % 100 != 0) || y % 400 == 0

/-- Number of days of month `m` (1 to 12) of year `y`. -/
def daysInMonth (y m : Nat) : Nat :=
  if m = 2 then (if isLeapYear y then 29 else 28)
  else if m = 4 ∨ m = 6 ∨ m = 9 ∨ m = 11 then 30 else 31

/-- Days from 0000-01-01 to the first day of year `y`. -/
def daysBeforeYear (y : Nat) : Nat :=
  365 * y + (y + 3) / 4 - (y + 99) / 100 + (y + 399) / 400

/-- Days from the first day of year `y` to the first day of its month `m`. -/
def daysBeforeMonth (y m : Nat) : Nat :=
  ((List.range (m - 1)).map (fun i => daysInMonth y (i + 1))).sum

/-- Days from 1970-01-01 to the given day. -/
def dayNumber (y m d : Nat) : Int :=
  (daysBeforeYear y + daysBeforeMonth y m + (d - 1) : Nat) - 719528

/-- The day named by the date part `YYYY-MM-DD`, counted from 1970-01-01. -/
def parseDay (y1 y2 y3 y4 m1 m2 d1 d2 : Char) : Option Int :=
  match digitsVal [y1, y2, y3, y4], digitsVal [m1, m2], digitsVal [d1, d2] with
  | some y, some m, some d =>
    if 1 ≤ m ∧ m ≤ 12 ∧ 1 ≤ d ∧ d ≤ daysInMonth y m then some (dayNumber y m d) else none
  | _, _, _ => none

/-- The minute of the day named by the time part `HH:mm`. -/
def parseClock (h1 h2 n1 n2 : Char) : Option Nat :=
  match digitsVal [h1, h2], digitsVal [n1, n2] with
  | some h, some n => if h < 24 ∧ n < 60 then some (h * 60 + n) else none
  | _, _ => none

/-- The time value of `new Date(s)` for a string of the form
`YYYY-MM-DDTHH:mm`, which is what a date input joined by `T` to a time of a
slot list gives.  The local time zone is taken to have a constant offset,
which is left out.  Every other string is an Invalid Date. -/
def newDate (s : String) : Option Int :=
  match s.data with
  | [y1, y2, y3, y4, '-', m1, m2, '-', d1, d2, 'T', h1, h2, ':', n1, n2] =>
    match parseDay y1 y2 y3 y4 m1 m2 d1 d2, parseClock h1 h2 n1 n2 with
    | some day, some minute => some (day * 86400000 + (minute : Int) * 60000)
    | _, _ => none
  | _ => none

/-- The minute of the day named by a slot string `HH:mm`. -/
def clockMinutes (s : String) : Option Nat :=
  match s.data with
  | [h1, h2, ':', n1, n2] => parseClock h1 h2 n1 n2
  | _ => none

/-- The value `new Date(d.getTime() + ms)`. -/
def addMs (d : Option Int) (ms : Int) : Option Int := d.map (fun t => t + ms)

/-- The comparison `a < b` of two dates: `false` when either is invalid. -/
def dateLt (a b : Option Int) : Bool :=
  match a, b with
  | some x, some y => decide (x < y)
  | _, _ => false

end JS

/-! ## Doctor appointments page (`doctor/appointments.js`) -/

/-- The `patient` object carried by an appointment, and an entry of `patients`. -/
structure Patient where
  id : String
  name : String
  email : String
  phone : String
deriving DecidableEq

/-- An appointment record as held in `AppointmentManager.appointments`.  The
three fields that `formatAppointment` adds are `none` on an object that does
not have them. -/
structure Appointment where
  id : String
  patientId : String
  date : String
  time : String
  service : String
  status : String
  duration : Nat
  notes : String
  patient : Option Patient
  patientName : Option String
  patientEmail : Option String
  patientPhone : Option String
deriving DecidableEq

/-- The values read from a form by `createNewAppointment` and `updateAppointment`. -/
structure FormData where
  patientId : String
  date : String
  time : String
  service : String
  duration : Nat
  notes : String
  status : String
deriving DecidableEq

/-- An option element of a time select, as `populateTimeSlots` builds it. -/
structure SlotOption where
  value : String
  textContent : String
  disabled : Bool
  className : String
deriving DecidableEq

/-- The field `currentFilters` of `AppointmentManager`. -/
structure AppointmentFilters where
  status : String
  search : String
deriving DecidableEq

/-- Instance fields of `AppointmentManager`. -/
structure AppointmentManager where
  appointments : List Appointment
  patients : List Patient
  filteredAppointments : List Appointment
  currentPage : Nat
  itemsPerPage : Nat
  totalPages : Nat
  currentFilters : AppointmentFilters
  availableTimeSlots : List String

namespace AppointmentManager

/-- The method `generateTimeSlots`: the outer loop runs over the hours 8 to 18
inclusive, the inner loop over the minutes 0 and 30. -/
def generateTimeSlots : List String :=
  (List.range' 8 11).flatMap (fun hour =>
    [0, 30].map (fun minute =>
      JS.padStart2 (toString hour) ++ ":" ++ JS.padStart2 (toString minute)))

/-- The method `isTimeOverlap`. -/
def isTimeOverlap (start1 end1 start2 end2 : Option Int) : Bool :=
  JS.dateLt start1 end2 && JS.dateLt start2 end1

/-- The filter shared by `validateTimeSlot` and `populateTimeSlots`: same date,
not cancelled, and not the excluded appointment (`null` excludes nothing). -/
def isCandidate (date : String) (excludeAppointmentId : Option String)
    (apt : Appointment) : Bool :=
  apt.date == date && apt.status != "cancelled" && some apt.id != excludeAppointmentId

/-- The method `validateTimeSlot`. -/
def validateTimeSlot (appointments : List Appointment) (date time : String)
    (duration : Nat) (excludeAppointmentId : Option String) : Bool :=
  let slotTime := JS.newDate (date ++ "T" ++ time)
  let slotEnd := JS.addMs slotTime (duration * 60000)
  let conflictingAppointments := appointments.filter (isCandidate date excludeAppointmentId)
  !conflictingAppointments.any (fun apt =>
    let aptTime := JS.newDate (apt.date ++ "T" ++ apt.time)
    let aptEnd := JS.addMs aptTime (60 * 60000)
    isTimeOverlap slotTime slotEnd aptTime aptEnd)

/-- The expression `dateValue || dateSelect.value` of `populateTimeSlots`. -/
def selectedDate (dateValue : Option String) (dateSelectValue : String) : String :=
  match dateValue with
  | some v => JS.orElse v dateSelectValue
  | none => dateSelectValue

/-- The option element of slot `slot` when it is free. -/
def availableOption (slot : String) : SlotOption :=
  { value := slot, textContent := slot ++ " - Available", disabled := false,
    className := "time-slot-available" }

/-- The option element of slot `slot` when it is taken. -/
def bookedOption (slot : String) : SlotOption :=
  { value := slot, textContent := slot ++ " - Booked", disabled := true,
    className := "time-slot-unavailable" }

/-- The method `populateTimeSlots`: the option elements left in the time select.
`dateSelectValue` is the value of the date input that belongs to the select. -/
def populateTimeSlots (self : AppointmentManager) (dateValue : Option String)
    (dateSelectValue : String) (excludeAppointmentId : Option String) : List SlotOption :=
  let selectedDate := selectedDate dateValue dateSelectValue
  if selectedDate = "" then
    [{ value := "", textContent := "Select Date First", disabled := false, className := "" }]
  else
    let existingAppointments :=
      self.appointments.filter (isCandidate selectedDate excludeAppointmentId)
    { value := "", textContent := "Select Time", disabled := false, className := "" } ::
      self.availableTimeSlots.map (fun slot =>
        let slotTime := JS.newDate (selectedDate ++ "T" ++ slot)
        let isAvailable := !existingAppointments.any (fun apt =>
          let aptTime := JS.newDate (apt.date ++ "T" ++ apt.time)
          let slotEnd := JS.addMs slotTime (60 * 60000)
          let aptEnd := JS.addMs aptTime (60 * 60000)
          isTimeOverlap slotTime slotEnd aptTime aptEnd)
        if isAvailable then availableOption slot else bookedOption slot)

/-- The method `formatAppointment`. -/
def formatAppointment (appointment : Appointment) : Appointment :=
  { appointment with
    patientName :=
      some (JS.orElse ((appointment.patient.map (fun p => p.name)).getD "") "Unknown Patient")
    patientEmail :=
      some (JS.orElse ((appointment.patient.map (fun p => p.email)).getD "") "No email")
    patientPhone :=
      some (JS.orElse ((appointment.patient.map (fun p => p.phone)).getD "") "No phone") }

/-- The state change of `updatePagination`: `totalPages` is recomputed. -/
def updatePagination (self : AppointmentManager) : AppointmentManager :=
  { self with totalPages := JS.ceilDiv self.filteredAppointments.length self.itemsPerPage }

/-- The state change of `renderAppointmentsTable`: both branches end in
`updatePagination`. -/
def renderAppointmentsTable (self : AppointmentManager) : AppointmentManager :=
  self.updatePagination

/-- The method `createNewAppointmentAPI`.  The patient is looked up at the call;
then the method waits 1.5 s for its timer, and `during` is what other handlers
do to the manager in that time (`id` when nothing else runs); the appointment
is added to the manager as it is then.  `now` is the value of `Date.now()` at
that moment. -/
def createNewAppointmentAPI (self : AppointmentManager) (formData : FormData)
    (during : AppointmentManager → AppointmentManager) (now : Nat) :
    AppointmentManager × Bool :=
  match JS.find (fun p => p.id == formData.patientId) self.patients with
  | none => (self, false)
  | some patient =>
    let self := during self
    let newAppointment : Appointment :=
      { id := toString now, patientId := formData.patientId, date := formData.date,
        time := formData.time, service := formData.service, status := formData.status,
        duration := formData.duration, notes := formData.notes, patient := some patient,
        patientName := none, patientEmail := none, patientPhone := none }
    let appointments := self.appointments ++ [formatAppointment newAppointment]
    (renderAppointmentsTable
      { self with appointments := appointments, filteredAppointments := appointments }, true)

/-- The method `createNewAppointment`.  `formValid` is the result of
`form.checkValidity()`; of `form` the method reads the patient, date, time,
service and notes, and fixes the duration to 60 and the status to `scheduled`.
The slot is checked at the call, on the manager as it is then; `during` is
passed on to `createNewAppointmentAPI`, which waits before it writes. -/
def createNewAppointment (self : AppointmentManager) (formValid : Bool) (form : FormData)
    (during : AppointmentManager → AppointmentManager) (now : Nat) : AppointmentManager :=
  if !formValid then self
  else
    let formData : FormData := { form with duration := 60, status := "scheduled" }
    if !validateTimeSlot self.appointments formData.date formData.time formData.duration none then
      self
    else (createNewAppointmentAPI self formData during now).1

/-- The object `{...appointment, ...formData, patient: patient}`. -/
def mergeFormData (appointment : Appointment) (formData : FormData) (patient : Patient) :
    Appointment :=
  { appointment with
    patientId := formData.patientId, date := formData.date, time := formData.time,
    service := formData.service, duration := formData.duration, notes := formData.notes,
    status := formData.status, patient := some patient }

/-- The method `updateAppointmentAPI`.  The patient is looked up at the call; the
appointment is looked up and rewritten after the wait of 1.5 s, in the manager
as `during` has left it. -/
def updateAppointmentAPI (self : AppointmentManager) (appointmentId : String)
    (formData : FormData) (during : AppointmentManager → AppointmentManager) :
    AppointmentManager × Bool :=
  match JS.find (fun p => p.id == formData.patientId) self.patients with
  | none => (self, false)
  | some patient =>
    let self := during self
    match JS.findIndex (fun apt => apt.id == appointmentId) self.appointments with
    | none => (self, false)
    | some appointmentIndex =>
      match self.appointments.get? appointmentIndex with
      | none => (self, false)
      | some original =>
        let appointments := self.appointments.set appointmentIndex
          (formatAppointment (mergeFormData original formData patient))
        (renderAppointmentsTable
          { self with appointments := appointments, filteredAppointments := appointments }, true)

/-- The method `updateAppointment`; the duration is fixed to 60.  The slot is
checked at the call; `during` is passed on to `updateAppointmentAPI`. -/
def updateAppointment (self : AppointmentManager) (formValid : Bool) (appointmentId : String)
    (form : FormData) (during : AppointmentManager → AppointmentManager) : AppointmentManager :=
  if !formValid then self
  else
    let formData : FormData := { form with duration := 60 }
    if !validateTimeSlot self.appointments formData.date formData.time formData.duration
        (some appointmentId) then
      self
    else (updateAppointmentAPI self appointmentId formData during).1

/-- The method `rescheduleAppointmentAPI`, which begins with its wait of 1.5 s:
the appointment is looked up and rewritten in the manager as `during` has left
it. -/
def rescheduleAppointmentAPI (self : AppointmentManager) (appointmentId newDate newTime
    reason : String) (during : AppointmentManager → AppointmentManager) :
    AppointmentManager × Bool :=
  let self := during self
  match JS.findIndex (fun apt => apt.id == appointmentId) self.appointments with
  | none => (self, false)
  | some appointmentIndex =>
    match self.appointments.get? appointmentIndex with
    | none => (self, false)
    | some originalAppointment =>
      let appointments := self.appointments.set appointmentIndex
        (formatAppointment
          { originalAppointment with
            date := newDate, time := newTime,
            notes := if reason = "" then originalAppointment.notes
                     else originalAppointment.notes ++ "\n\nRescheduled: " ++ reason })
      (renderAppointmentsTable
        { self with appointments := appointments, filteredAppointments := appointments }, true)

/-- The method `rescheduleAppointment`.  The slot is checked at the call;
`during` is passed on to `rescheduleAppointmentAPI`. -/
def rescheduleAppointment (self : AppointmentManager) (formValid : Bool) (appointmentId newDate
    newTime reason : String) (during : AppointmentManager → AppointmentManager) :
    AppointmentManager :=
  if !formValid then self
  else if !validateTimeSlot self.appointments newDate newTime 60 (some appointmentId) then self
  else (rescheduleAppointmentAPI self appointmentId newDate newTime reason during).1

/-- The method `cancelAppointmentAPI`, which begins with its wait of 1 s: the
appointment is looked up and cancelled in the manager as `during` has left it. -/
def cancelAppointmentAPI (self : AppointmentManager) (appointmentId : String)
    (during : AppointmentManager → AppointmentManager) : AppointmentManager × Bool :=
  let self := during self
  match JS.findIndex (fun apt => apt.id == appointmentId) self.appointments with
  | none => (self, false)
  | some appointmentIndex =>
    match self.appointments.get? appointmentIndex with
    | none => (self, false)
    | some original =>
      let appointments := self.appointments.set appointmentIndex
        { original with status := "cancelled" }
      (renderAppointmentsTable
        { self with appointments := appointments, filteredAppointments := appointments }, true)

end AppointmentManager


/-! ## Pagination controls shared by the admin pages -/

/-- What `updatePagination` writes to the page: the page count it computed,
the `disabled` flag of both buttons and the page-number buttons it appends. -/
structure PaginationView where
  totalPages : Nat
  prevDisabled : Bool
  nextDisabled : Bool
  pageNumbers : List Int
deriving DecidableEq

namespace PaginationView

/-- The loop that appends up to five page-number buttons, written out in both
`AdminDashboard.updatePagination` and `UserManagement.updatePagination`. -/
def numbers (currentPage totalPages : Nat) : List Int :=
  let startPage : Int := max 1 ((currentPage : Int) - 2)
  let endPage : Int := min (totalPages : Int) (startPage + 4)
  let startPage : Int := if endPage - startPage < 4 then max 1 (endPage - 4) else startPage
  (List.range (endPage - startPage + 1).toNat).map (fun k => startPage + (k : Int))

end PaginationView

/-! ## User management page (`admin/user-management.js`) -/

/-- A staff user as returned by `API.getUsers`. -/
structure User where
  id : String
  first_name : String
  last_name : String
  email : String
  phone : Option String
  role : String
  status : String
  last_login : Option String
deriving DecidableEq

/-- The field `filters` of `UserManagement`. -/
structure UserFilters where
  search : String
  role : String
  status : String
deriving DecidableEq

/-- Instance fields of `UserManagement`.  `currentPage` is at least 1: it
starts at 1 and every change of it is guarded. -/
structure UserManagement where
  users : List User
  filteredUsers : List User
  selectedUsers : List String
  currentPage : Nat
  usersPerPage : Nat
  filters : UserFilters
deriving DecidableEq

namespace UserManagement

/-- The callback of the `filter` call in `applyFilters`. -/
def matchesFilters (filters : UserFilters) (user : User) : Bool :=
  let matchesSearch := filters.search == "" ||
    JS.includes (JS.toLowerCase user.first_name) (JS.toLowerCase filters.search) ||
    JS.includes (JS.toLowerCase user.last_name) (JS.toLowerCase filters.search) ||
    JS.includes (JS.toLowerCase user.email) (JS.toLowerCase filters.search)
  let matchesRole := filters.role == "all" || user.role == filters.role
  let matchesStatus := filters.status == "all" || user.status == filters.status
  matchesSearch && matchesRole && matchesStatus

/-- The method `applyFilters`. -/
def applyFilters (self : UserManagement) : UserManagement :=
  { self with
    filteredUsers := self.users.filter (matchesFilters self.filters)
    currentPage := 1 }

/-- The method `getCurrentPageUsers`. -/
def getCurrentPageUsers (self : UserManagement) : List User :=
  let startIndex := (self.currentPage - 1) * self.usersPerPage
  let endIndex := startIndex + self.usersPerPage
  JS.slice self.filteredUsers startIndex endIndex

/-- The method `updatePagination`. -/
def updatePagination (self : UserManagement) : PaginationView :=
  let totalPages := JS.ceilDiv self.filteredUsers.length self.usersPerPage
  { totalPages := totalPages
    prevDisabled := self.currentPage == 1
    nextDisabled := self.currentPage == totalPages || totalPages == 0
    pageNumbers := PaginationView.numbers self.currentPage totalPages }

/-- The method `toggleSelectAll`. -/
def toggleSelectAll (self : UserManagement) (selected : Bool) : UserManagement :=
  let currentUsers := self.getCurrentPageUsers
  if selected then
    { self with selectedUsers := currentUsers.foldl (fun s user => JS.setAdd s user.id) self.selectedUsers }
  else
    { self with selectedUsers := currentUsers.foldl (fun s user => JS.setDelete s user.id) self.selectedUsers }

end UserManagement

/-! ## Admin dashboard (`admin/admin-dashboard.js`) -/

/-- A patient as returned by `API.getRecentPatients`. -/
structure PatientRecord where
  id : String
  first_name : String
  last_name : String
  phone : Option String
  email : String
  last_visit : Option String
  status : String
deriving DecidableEq

/-- Instance fields of `AdminDashboard`.  `currentPage` is at least 1. -/
structure AdminDashboard where
  patients : List PatientRecord
  filteredPatients : List PatientRecord
  currentPage : Nat
  patientsPerPage : Nat
deriving DecidableEq

namespace AdminDashboard

/-- The method `renderPatients`: the patients whose rows are written. -/
def renderPatients (self : AdminDashboard) : List PatientRecord :=
  if self.filteredPatients.length = 0 then []
  else
    let startIndex := (self.currentPage - 1) * self.patientsPerPage
    let endIndex := startIndex + self.patientsPerPage
    JS.slice self.filteredPatients startIndex endIndex

/-- The method `updatePagination`. -/
def updatePagination (self : AdminDashboard) : PaginationView :=
  let totalPages := JS.ceilDiv self.filteredPatients.length self.patientsPerPage
  { totalPages := totalPages
    prevDisabled := self.currentPage == 1
    nextDisabled := self.currentPage == totalPages || totalPages == 0
    pageNumbers := PaginationView.numbers self.currentPage totalPages }

/-- The method `updateRecentPatients`. -/
def updateRecentPatients (self : AdminDashboard) (patients : List PatientRecord) :
    AdminDashboard :=
  { self with patients := patients, filteredPatients := patients, currentPage := 1 }

/-- The callback of the `filter` call in `handlePatientSearch`. -/
def matchesSearch (searchTerm : String) (patient : PatientRecord) : Bool :=
  JS.includes (JS.toLowerCase patient.first_name) searchTerm ||
  JS.includes (JS.toLowerCase patient.last_name) searchTerm ||
  (patient.phone.map (fun phone => JS.includes phone searchTerm)).getD false ||
  JS.includes (JS.toLowerCase patient.email) searchTerm ||
  JS.includes (JS.toLowerCase patient.id) searchTerm

/-- The method `handlePatientSearch`. -/
def handlePatientSearch (self : AdminDashboard) (query : String) : AdminDashboard :=
  if JS.trimIsEmpty query then
    { self with filteredPatients := self.patients, currentPage := 1 }
  else
    let searchTerm := JS.toLowerCase query
    { self with
      filteredPatients := self.patients.filter (matchesSearch searchTerm)
      currentPage := 1 }

end AdminDashboard

/-! ## Generic table (`components/table.js`) -/

/-- Instance fields of `TableComponent` that paging, sorting and selection read;
`pageSize` and `pagination` are the entries of `options`; `sortColumn` is `none`
for `null`, and it and `sortDirection` start as the constructor sets them. -/
structure TableComponent (α : Type) where
  data : List α
  filteredData : List α
  currentPage : Nat
  pageSize : Nat
  pagination : Bool
  selectedRows : List Nat
  sortColumn : Option Nat := none
  sortDirection : String := "asc"

/-- What `renderPagination` writes when there is more than one page. -/
structure TablePagination where
  currentPage : Nat
  totalPages : Nat
  prevDisabled : Bool
  nextDisabled : Bool
deriving DecidableEq

namespace TableComponent

variable {α : Type}

/-- The method `renderTableBody`: the rows written (none for the empty state). -/
def renderTableBody (self : TableComponent α) : List α :=
  let startIndex := (self.currentPage - 1) * self.pageSize
  let endIndex := startIndex + self.pageSize
  JS.slice self.filteredData startIndex endIndex

/-- The constant `totalPages` of `renderPagination`, `nextPage` and `goToPage`. -/
def totalPages (self : TableComponent α) : Nat :=
  JS.ceilDiv self.filteredData.length self.pageSize

/-- The method `renderPagination`: `none` when the element is left empty. -/
def renderPagination (self : TableComponent α) : Option TablePagination :=
  if !self.pagination then none
  else
    let totalPages := self.totalPages
    if totalPages ≤ 1 then none
    else some
      { currentPage := self.currentPage
        totalPages := totalPages
        prevDisabled := self.currentPage == 1
        nextDisabled := self.currentPage == totalPages }

end TableComponent

/-! ## Debounce (`Utils.debounce` of the admin pages) -/

namespace Utils

/-- A pending timer of the event loop: the `later` closure of one call of the
debounced function, which holds the arguments of that call. -/
structure Timer (α : Type) where
  id : Nat
  due : Nat
  args : α
deriving DecidableEq

/-- State of one debounced function on a clock counting milliseconds: the
variable `timeout` of the closure, the timers it has pending, the id the next
`setTimeout` returns, and the invocations of `func` so far with their time. -/
structure Debounce (α : Type) where
  timeout : Option Nat
  timers : List (Timer α)
  nextId : Nat
  invoked : List (Nat × α)
deriving DecidableEq

namespace Debounce

variable {α : Type}

/-- The state after `debounce(func, wait)` returns. -/
def init : Debounce α := { timeout := none, timers := [], nextId := 1, invoked := [] }

/-- The call `clearTimeout(timeout)`; an undefined id clears nothing. -/
def clearTimeout (self : Debounce α) : Debounce α :=
  match self.timeout with
  | none => self
  | some id => { self with timers := self.timers.filter (fun t => t.id != id) }

/-- The function `executedFunction` called with `args` at time `now`:
`clearTimeout(timeout); timeout = setTimeout(later, wait)`. -/
def executedFunction (wait : Nat) (self : Debounce α) (now : Nat) (args : α) : Debounce α :=
  let cleared := self.clearTimeout
  { cleared with
    timeout := some cleared.nextId
    timers := cleared.timers ++ [{ id := cleared.nextId, due := now + wait, args := args }]
    nextId := cleared.nextId + 1 }

/-- The closure `later` of timer `t` run by the event loop when `t` is due:
`clearTimeout(timeout); func(...args)`. -/
def later (self : Debounce α) (t : Timer α) : Debounce α :=
  let removed := { self with timers := self.timers.filter (fun u => u.id != t.id) }
  let cleared := removed.clearTimeout
  { cleared with invoked := cleared.invoked ++ [(t.due, t.args)] }

/-- The pending timer that is due first, if one is due by time `now`. -/
def nextDue (self : Debounce α) (now : Nat) : Option (Timer α) :=
  (self.timers.filter (fun t => t.due ≤ now)).foldl
    (fun best t =>
      match best with
      | none => some t
      | some b => if t.due < b.due then some t else some b) none

/-- The event loop runs timers that are due by time `now`, earliest first, at
most `fuel` of them. -/
def runTimers (now : Nat) : Nat → Debounce α → Debounce α
  | 0, self => self
  | fuel + 1, self =>
    match self.nextDue now with
    | none => self
    | some t => runTimers now fuel (self.later t)

/-- The event loop up to time `now`: no callback of `later` sets a timer, so
one round per pending timer runs all that are due. -/
def advance (self : Debounce α) (now : Nat) : Debounce α :=
  runTimers now self.timers.length self

/-- A run of calls of the debounced function, each with its time, in order of
time; timers due by the time of a call run before it. -/
def calls (wait : Nat) (self : Debounce α) : List (Nat × α) → Debounce α
  | [] => self
  | (now, args) :: rest => calls wait (executedFunction wait (self.advance now) now args) rest

/-- The time by which every pending timer is due. -/
def horizon (self : Debounce α) : Nat := (self.timers.map (fun t => t.due)).foldl max 0

/-- The invocations of `func`, with their times, when the debounced function
is called as listed and then never again. -/
def run (wait : Nat) (events : List (Nat × α)) : List (Nat × α) :=
  let afterCalls := calls wait init events
  (afterCalls.advance afterCalls.horizon).invoked

end Debounce

end Utils

/-! ## Sample data -/

namespace Sample

/-- An appointment of patient 1 with the given id, date, time and status. -/
def appointment (id date time status : String) : Appointment :=
  { id := id, patientId := "1", date := date, time := time, service := "Checkup",
    status := status, duration := 60, notes := "", patient := none,
    patientName := some "John Smith", patientEmail := some "john@example.com",
    patientPhone := some "555-0101" }

/-- The appointments page holding the given appointments, unfiltered. -/
def manager (appointments : List Appointment) : AppointmentManager :=
  { appointments := appointments
    patients := [{ id := "1", name := "John Smith", email := "john@example.com",
                   phone := "555-0101" }]
    filteredAppointments := appointments
    currentPage := 1, itemsPerPage := 10, totalPages := 1
    currentFilters := { status := "all", search := "" }
    availableTimeSlots := AppointmentManager.generateTimeSlots }

/-- One scheduled appointment at 10:00 on 15 January 2024. -/
def oneBooked : AppointmentManager :=
  manager [appointment "7" "2024-01-15" "10:00" "scheduled"]

/-- Two scheduled appointments at 10:00 on consecutive days that share the id `1`. -/
def sharedId : AppointmentManager :=
  manager [appointment "1" "2024-01-15" "10:00" "scheduled",
           appointment "1" "2024-01-16" "10:00" "scheduled"]

/-- A patient of the dashboard. -/
def patient : PatientRecord :=
  { id := "PT-001", first_name := "John", last_name := "Doe", phone := some "+1 (555) 123-4567",
    email := "john.doe@email.com", last_visit := none, status := "active" }

/-- Two patients; the letters `ann` occur in the first name of the first and
in the email of the second. -/
def dashboard : AdminDashboard :=
  { patients :=
      [{ id := "PT-001", first_name := "Ann", last_name := "Lee", phone := some "+1 (555) 123-4567",
         email := "a.lee@email.com", last_visit := none, status := "active" },
       { id := "PT-002", first_name := "Bob", last_name := "Ray", phone := some "+1 (555) 234-5678",
         email := "bob.ray@hannover.example", last_visit := none, status := "active" }]
    filteredPatients := []
    currentPage := 1
    patientsPerPage := 5 }

/-- Two users; the letters `ann` occur in the first name of the first and in
the email of the second. -/
def staff : UserManagement :=
  { users :=
      [{ id := "1", first_name := "Ann", last_name := "Lee", email := "a.lee@dentalclinic.com",
         phone := none, role := "doctor", status := "active", last_login := none },
       { id := "2", first_name := "Bob", last_name := "Ray", email := "bob@hannover.example",
         phone := none, role := "admin", status := "inactive", last_login := none }]
    filteredUsers := []
    selectedUsers := []
    currentPage := 1
    usersPerPage := 10
    filters := { search := "ann", role := "all", status := "all" } }

/-- A user with id `n`. -/
def user (n : Nat) : User :=
  { id := toString n, first_name := "User", last_name := toString n,
    email := "user" ++ toString n ++ "@dentalclinic.com", phone := none, role := "doctor",
    status := "active", last_login := none }

/-- The user page with `n` users, `perPage` of them on a page, showing page `page`. -/
def userPage (n perPage page : Nat) : UserManagement :=
  { users := (List.range n).map user, filteredUsers := (List.range n).map user,
    selectedUsers := [], currentPage := page, usersPerPage := perPage,
    filters := { search := "", role := "all", status := "all" } }

end Sample
/-! ## Specification vocabulary -/

namespace Spec

/-- Appointment `apt` starts less than 60 minutes before or after the instant
named by `date` and `time`. -/
def StartsWithin60 (apt : Appointment) (date time : String) : Prop :=
  ∃ a s : Int, JS.newDate (apt.date ++ "T" ++ apt.time) = some a ∧
    JS.newDate (date ++ "T" ++ time) = some s ∧ |a - s| < 60 * 60000

/-- The intervals `[slot, slot + 60min)` on `date` and `[time, time + 60min)`
of appointment `apt` overlap under the test `start1 < end2 && end1 > start2`. -/
def Overlaps60 (apt : Appointment) (date slot : String) : Prop :=
  ∃ a s : Int, JS.newDate (apt.date ++ "T" ++ apt.time) = some a ∧
    JS.newDate (date ++ "T" ++ slot) = some s ∧
    s < a + 60 * 60000 ∧ s + 60 * 60000 > a

/-- Appointments `a` and `b` are on the same date, neither is cancelled, and
their hours `[time, time + 60min)` overlap. -/
def Conflict (a b : Appointment) : Prop :=
  a.date = b.date ∧ a.status ≠ "cancelled" ∧ b.status ≠ "cancelled" ∧
  ∃ x y : Int, JS.newDate (a.date ++ "T" ++ a.time) = some x ∧
    JS.newDate (b.date ++ "T" ++ b.time) = some y ∧
    x < y + 60 * 60000 ∧ y < x + 60 * 60000

/-- The no-overlap invariant: no two appointments of the list conflict. -/
def NoOverlap (appointments : List Appointment) : Prop :=
  appointments.Pairwise (fun a b => ¬ Conflict a b)

/-- String `q` is a case-insensitive substring of `s` in the sense of the
searches: the lower-case form of `q` occurs in the lower-case form of `s`. -/
def CaseInsensitiveSubstring (q s : String) : Prop :=
  (JS.toLowerCase q).data <:+: (JS.toLowerCase s).data

instance (q s : String) : Decidable (CaseInsensitiveSubstring q s) :=
  inferInstanceAs (Decidable ((JS.toLowerCase q).data <:+: (JS.toLowerCase s).data))

/-- User `u` passes the search box and both dropdowns of the user page. -/
def UserMatches (filters : UserFilters) (u : User) : Prop :=
  (filters.search = "" ∨ CaseInsensitiveSubstring filters.search u.first_name ∨
    CaseInsensitiveSubstring filters.search u.last_name ∨
    CaseInsensitiveSubstring filters.search u.email) ∧
  (filters.role = "all" ∨ u.role = filters.role) ∧
  (filters.status = "all" ∨ u.status = filters.status)

instance (filters : UserFilters) (u : User) : Decidable (UserMatches filters u) :=
  inferInstanceAs (Decidable (_ ∧ _))

/-- Query `q` is a case-insensitive substring of the first or the last name. -/
def NameMatches (q firstName lastName : String) : Prop :=
  CaseInsensitiveSubstring q firstName ∨ CaseInsensitiveSubstring q lastName

instance (q firstName lastName : String) : Decidable (NameMatches q firstName lastName) :=
  inferInstanceAs (Decidable (_ ∨ _))

/-- Query `q` matches patient `p` through a field other than the names: the
lower-cased query occurs in the phone number, or `q` is a case-insensitive
substring of the email or the id. -/
def PatientOtherFieldMatches (q : String) (p : PatientRecord) : Prop :=
  (∃ phone, p.phone = some phone ∧ (JS.toLowerCase q).data <:+: phone.data) ∨
  CaseInsensitiveSubstring q p.email ∨ CaseInsensitiveSubstring q p.id

end Spec


/-! ## Page navigation -/

namespace AdminDashboard

/-- The method `goToPage`. -/
def goToPage (self : AdminDashboard) (page : Nat) : AdminDashboard :=
  { self with currentPage := page }

/-- The method `previousPage`. -/
def previousPage (self : AdminDashboard) : AdminDashboard :=
  if self.currentPage > 1 then self.goToPage (self.currentPage - 1) else self

/-- The method `nextPage`. -/
def nextPage (self : AdminDashboard) : AdminDashboard :=
  let totalPages := JS.ceilDiv self.filteredPatients.length self.patientsPerPage
  if self.currentPage < totalPages then self.goToPage (self.currentPage + 1) else self

/-- What the user can do to the patient list: the two buttons and the search box. -/
inductive Action where
  | nextPage
  | previousPage
  | search (query : String)
deriving DecidableEq

/-- The handler of an action. -/
def step (self : AdminDashboard) : Action → AdminDashboard
  | Action.nextPage => self.nextPage
  | Action.previousPage => self.previousPage
  | Action.search query => self.handlePatientSearch query

/-- The handlers of a sequence of actions, run in order. -/
def run (self : AdminDashboard) (actions : List Action) : AdminDashboard :=
  actions.foldl step self

end AdminDashboard

namespace UserManagement

/-- The method `goToPage`. -/
def goToPage (self : UserManagement) (page : Nat) : UserManagement :=
  { self with currentPage := page }

/-- The method `previousPage`. -/
def previousPage (self : UserManagement) : UserManagement :=
  if self.currentPage > 1 then self.goToPage (self.currentPage - 1) else self

/-- The method `nextPage`. -/
def nextPage (self : UserManagement) : UserManagement :=
  let totalPages := JS.ceilDiv self.filteredUsers.length self.usersPerPage
  if self.currentPage < totalPages then self.goToPage (self.currentPage + 1) else self

/-- What the user can do to the user list: the two buttons, the search box and
the two dropdowns; each of the last three stores its value in `filters` and
calls `applyFilters`. -/
inductive Action where
  | nextPage
  | previousPage
  | search (value : String)
  | role (value : String)
  | status (value : String)
deriving DecidableEq

/-- The handler of an action, as `setupEventListeners` installs it. -/
def step (self : UserManagement) : Action → UserManagement
  | Action.nextPage => self.nextPage
  | Action.previousPage => self.previousPage
  | Action.search value =>
    applyFilters { self with filters := { self.filters with search := value } }
  | Action.role value =>
    applyFilters { self with filters := { self.filters with role := value } }
  | Action.status value =>
    applyFilters { self with filters := { self.filters with status := value } }

/-- The handlers of a sequence of actions, run in order. -/
def run (self : UserManagement) (actions : List Action) : UserManagement :=
  actions.foldl step self

end UserManagement

namespace TableComponent

variable {α : Type}

/-- The method `previousPage`. -/
def previousPage (self : TableComponent α) : TableComponent α :=
  if self.currentPage > 1 then { self with currentPage := self.currentPage - 1 } else self

/-- The method `nextPage`. -/
def nextPage (self : TableComponent α) : TableComponent α :=
  let totalPages := JS.ceilDiv self.filteredData.length self.pageSize
  if self.currentPage < totalPages then { self with currentPage := self.currentPage + 1 }
  else self

/-- The method `handleSearch`; `values row` lists `String(value)` for the
values of `row`, in the order of `Object.values`. -/
def handleSearch (values : α → List String) (self : TableComponent α) (query : String) :
    TableComponent α :=
  if JS.trimIsEmpty query then
    { self with filteredData := self.data, currentPage := 1 }
  else
    { self with
      filteredData := self.data.filter (fun row =>
        (values row).any (fun value =>
          JS.includes (JS.toLowerCase value) (JS.toLowerCase query)))
      currentPage := 1 }

/-- What the user can do to the table: the two buttons and the search box. -/
inductive Action where
  | nextPage
  | previousPage
  | search (query : String)
deriving DecidableEq

/-- The handler of an action. -/
def step (values : α → List String) (self : TableComponent α) : Action → TableComponent α
  | Action.nextPage => self.nextPage
  | Action.previousPage => self.previousPage
  | Action.search query => handleSearch values self query

/-- The handlers of a sequence of actions, run in order. -/
def run (values : α → List String) (self : TableComponent α) (actions : List Action) :
    TableComponent α :=
  actions.foldl (step values) self

end TableComponent

namespace Spec

/-- The page count `ceil(n / p)` of `n` items on pages of `p`. -/
def pageCount (n p : Nat) : Nat := ⌈(n : ℚ) / (p : ℚ)⌉₊

end Spec

namespace Sample

/-- A table of five one-column rows, two on a page, showing page 1. -/
def table : TableComponent String :=
  { data := ["a", "b", "c", "d", "e"], filteredData := ["a", "b", "c", "d", "e"],
    currentPage := 1, pageSize := 2, pagination := true, selectedRows := [] }

/-- Four clicks on Next on the user list. -/
def fourTimesNext : List UserManagement.Action :=
  [UserManagement.Action.nextPage, UserManagement.Action.nextPage,
   UserManagement.Action.nextPage, UserManagement.Action.nextPage]

end Sample

/-! ## Backup page (`admin/backup-system.js`) -/

/-- A backup record.  `created_at` is kept as the time value of
`new Date(backup.created_at)`: milliseconds since the epoch, `none` when the
string is not a date. -/
structure Backup where
  id : String
  name : String
  type : String
  size : String
  status : String
  created_at : Option Int
deriving DecidableEq

/-- Instance fields of `BackupSystem` that the list handlers use. -/
structure BackupSystem where
  backups : List Backup
  filteredBackups : List Backup
  selectedBackups : List String
deriving DecidableEq

namespace BackupSystem

/-- The callback of the `filter` call in `handleBackupSearch`. -/
def matchesSearch (query : String) (backup : Backup) : Bool :=
  JS.includes (JS.toLowerCase backup.name) (JS.toLowerCase query) ||
  JS.includes (JS.toLowerCase backup.type) (JS.toLowerCase query)

/-- The method `handleBackupSearch`. -/
def handleBackupSearch (self : BackupSystem) (query : String) : BackupSystem :=
  { self with filteredBackups := self.backups.filter (matchesSearch query) }

/-- The callback of the `filter` call in `handleBackupFilter`, for a filter other
than `all`; `now` is the time value of `new Date()` and `Date.now()`.  Two dates
have the same `toDateString()` when they fall on the same day, taken here in a
time zone of constant offset zero. -/
def passesFilter (filter : String) (now : Int) (backup : Backup) : Bool :=
  if filter = "manual" then backup.type == "manual"
  else if filter = "auto" then backup.type == "auto"
  else if filter = "today" then
    match backup.created_at with
    | some t => Int.fdiv t 86400000 == Int.fdiv now 86400000
    | none => false
  else if filter = "week" then
    match backup.created_at with
    | some t => decide (now - 7 * 24 * 60 * 60 * 1000 ≤ t)
    | none => false
  else if filter = "month" then
    match backup.created_at with
    | some t => decide (now - 30 * 24 * 60 * 60 * 1000 ≤ t)
    | none => false
  else true

/-- The method `handleBackupFilter`. -/
def handleBackupFilter (self : BackupSystem) (filter : String) (now : Int) : BackupSystem :=
  if filter = "all" then { self with filteredBackups := self.backups }
  else { self with filteredBackups := self.backups.filter (passesFilter filter now) }

end BackupSystem

namespace Spec

/-- Backup `b` matches query `q`: a case-insensitive substring of its name or type. -/
def BackupMatches (q : String) (b : Backup) : Prop :=
  CaseInsensitiveSubstring q b.name ∨ CaseInsensitiveSubstring q b.type

instance (q : String) (b : Backup) : Decidable (BackupMatches q b) :=
  inferInstanceAs (Decidable (_ ∨ _))

/-- Backup `b` satisfies the dropdown value `f` at time `now`. -/
def BackupSatisfies (f : String) (now : Int) (b : Backup) : Prop :=
  f = "all" ∨ BackupSystem.passesFilter f now b = true

instance (f : String) (now : Int) (b : Backup) : Decidable (BackupSatisfies f now b) :=
  inferInstanceAs (Decidable (_ ∨ _))

end Spec

namespace Sample

/-- An automatic backup named `Daily` and a manual one named `Before upgrade`,
both taken on 15 January 2024. -/
def backupPage : BackupSystem :=
  { backups :=
      [{ id := "1", name := "Daily", type := "auto", size := "2.4 GB", status := "completed",
         created_at := some 1705312800000 },
       { id := "2", name := "Before upgrade", type := "manual", size := "2.5 GB",
         status := "completed", created_at := some 1705320000000 }]
    filteredBackups := []
    selectedBackups := [] }

end Sample

/-! ## Maps with string keys -/

namespace JS

/-- The value stored under `key`: `Map.prototype.get`, `localStorage.getItem`
and the property lookup of an object whose entries are listed in order. -/
def mapGet {β : Type} (m : List (String × β)) (key : String) : Option β :=
  match m with
  | [] => none
  | (k, v) :: rest => if k = key then some v else mapGet rest key

/-- Store `value` under `key`: `Map.prototype.set`, `localStorage.setItem` and
the assignment of a property; an existing key keeps its place. -/
def mapSet {β : Type} (m : List (String × β)) (key : String) (value : β) :
    List (String × β) :=
  match m with
  | [] => [(key, value)]
  | (k, v) :: rest => if k = key then (k, value) :: rest else (k, v) :: mapSet rest key value

/-- Remove `key`: `localStorage.removeItem`. -/
def mapDelete {β : Type} (m : List (String × β)) (key : String) : List (String × β) :=
  m.filter (fun entry => entry.1 != key)

/-- The object `{...a, ...b}`. -/
def objectSpread {β : Type} (a b : List (String × β)) : List (String × β) :=
  b.foldl (fun acc entry => mapSet acc entry.1 entry.2) a

end JS

/-! ## Receptionist appointments page (`receptionist/appointments.js`) -/

/-- The `options` argument of `apiCall` and the second argument of `fetch`:
an absent property is `none`. -/
structure RequestOptions where
  method : Option String
  headers : Option (List (String × String))
  body : Option String
deriving DecidableEq

/-- A call of `fetch`. -/
structure FetchRequest where
  url : String
  init : RequestOptions
deriving DecidableEq

/-- What a call of `fetch` followed by `response.json()` comes to: the promise
of `fetch` is rejected, or a response arrives with its `ok` flag, its status and
the outcome of parsing its body. -/
inductive FetchOutcome (δ : Type) where
  | rejected (error : String)
  | responded (ok : Bool) (status : Nat) (json : Except String δ)

/-- An entry of `dataCache`. -/
structure CacheEntry (δ : Type) where
  data : δ
  timestamp : Int

/-- The field `filters` of `appointmentsState`. -/
structure ReceptionFilters where
  status : String
  doctor : String
  date : String
deriving DecidableEq

/-- The field `sort` of `appointmentsState`. -/
structure ReceptionSort where
  field : String
  direction : String
deriving DecidableEq

/-- The fields of `appointmentsState` that paging, loading, selection and the
cache use. -/
structure AppointmentsState (δ : Type) where
  currentPage : Nat
  itemsPerPage : Nat
  totalItems : Nat
  filters : ReceptionFilters
  sort : ReceptionSort
  selectedAppointments : List String
  dataCache : List (String × CacheEntry δ)

/-- What a call of `apiCall` leaves: the value returned or the error thrown, the
state, and the call of `fetch` if one was made. -/
structure ApiCallResult (δ : Type) where
  result : Except String δ
  state : AppointmentsState δ
  request : Option FetchRequest

namespace ReceptionistAppointments

/-- The constant `API_BASE_URL`. -/
def API_BASE_URL : String := "https://api.dentalclinic.com/v1"

/-- The function `getAuthToken`; `userToken` is `localStorage.getItem('userToken')`. -/
def getAuthToken (userToken : Option String) : String :=
  match userToken with
  | some token => JS.orElse token "demo-token"
  | none => "demo-token"

/-- The object `{...base, ...options}` on the properties of a request: a
property present in `options` replaces that of `base`. -/
def spreadOptions (base options : RequestOptions) : RequestOptions :=
  { method := match options.method with
      | some m => some m
      | none => base.method
    headers := match options.headers with
      | some h => some h
      | none => base.headers
    body := match options.body with
      | some b => some b
      | none => base.body }

/-- The second argument of `fetch` in `apiCall`:
`{ headers: { Authorization, Content-Type, ...options.headers }, ...options }`. -/
def fetchInit (userToken : Option String) (options : RequestOptions) : RequestOptions :=
  spreadOptions
    { method := none
      headers := some (JS.objectSpread
        [("Authorization", "Bearer " ++ getAuthToken userToken),
         ("Content-Type", "application/json")]
        (options.headers.getD []))
      body := none }
    options

/-- The test `!options.method || options.method === 'GET'`. -/
def isGet (options : RequestOptions) : Bool :=
  match options.method with
  | none => true
  | some m => m == "" || m == "GET"

/-- The function `apiCall`.  `stringify` is `JSON.stringify` on options,
`userToken` the stored token, `now` the value of `Date.now()` when the cache is
read, `outcome` what the network does if asked, and `later` the value of
`Date.now()` when the response is stored. -/
def apiCall {δ : Type} (stringify : RequestOptions → String) (userToken : Option String)
    (state : AppointmentsState δ) (endpoint : String) (options : RequestOptions) (now : Int)
    (outcome : FetchOutcome δ) (later : Int) : ApiCallResult δ :=
  let url := API_BASE_URL ++ endpoint
  let cacheKey := endpoint ++ "-" ++ stringify options
  let fresh : Option δ :=
    if isGet options then
      match JS.mapGet state.dataCache cacheKey with
      | some cached => if now - cached.timestamp < 30000 then some cached.data else none
      | none => none
    else none
  match fresh with
  | some data => { result := Except.ok data, state := state, request := none }
  | none =>
    let request : FetchRequest := { url := url, init := fetchInit userToken options }
    let failed (error : String) : ApiCallResult δ :=
      match JS.mapGet state.dataCache cacheKey with
      | some cached => { result := Except.ok cached.data, state := state, request := some request }
      | none => { result := Except.error error, state := state, request := some request }
    match outcome with
    | FetchOutcome.rejected error => failed error
    | FetchOutcome.responded false status _ => failed ("API error: " ++ toString status)
    | FetchOutcome.responded true _ (Except.error error) => failed error
    | FetchOutcome.responded true _ (Except.ok data) =>
      let state :=
        if isGet options then
          { state with
            dataCache := JS.mapSet state.dataCache cacheKey { data := data, timestamp := later } }
        else state
      { result := Except.ok data, state := state, request := some request }

/-- The function `toggleSelectAll`; `checked` is the state of the select-all box
and `checkboxes` the values of the row checkboxes in the table. -/
def toggleSelectAll {δ : Type} (state : AppointmentsState δ) (checked : Bool)
    (checkboxes : List String) : AppointmentsState δ :=
  if checked then
    { state with
      selectedAppointments :=
        checkboxes.foldl (fun s value => JS.setAdd s value) state.selectedAppointments }
  else
    { state with selectedAppointments := [] }

/-- The state change of `toggleAppointmentSelection`. -/
def toggleAppointmentSelection {δ : Type} (state : AppointmentsState δ)
    (appointmentId : String) : AppointmentsState δ :=
  if appointmentId ∈ state.selectedAppointments then
    { state with selectedAppointments := JS.setDelete state.selectedAppointments appointmentId }
  else
    { state with selectedAppointments := JS.setAdd state.selectedAppointments appointmentId }

end ReceptionistAppointments

namespace Sample

/-- A stand-in for `JSON.stringify` on options that supply a method at most. -/
def stringify (options : RequestOptions) : String :=
  match options.method with
  | none => "\x7b\x7d"
  | some m => "\x7b\"method\":\"" ++ m ++ "\"\x7d"

/-- The receptionist page with the ids 1, 2 and 99 selected and nothing cached. -/
def reception : AppointmentsState String :=
  { currentPage := 1, itemsPerPage := 10, totalItems := 25,
    filters := { status := "all", doctor := "all", date := "2024-01-15" },
    sort := { field := "appointmentDate", direction := "asc" },
    selectedAppointments := ["1", "2", "99"], dataCache := [] }

/-- The receptionist page with the list of doctors cached at time 1000. -/
def receptionCached : AppointmentsState String :=
  { currentPage := 1, itemsPerPage := 10, totalItems := 25,
    filters := { status := "all", doctor := "all", date := "2024-01-15" },
    sort := { field := "appointmentDate", direction := "asc" },
    selectedAppointments := [],
    dataCache := [("/doctors-\x7b\x7d", { data := "doctors", timestamp := 1000 })] }

/-- Options of a `PUT` that supply a header of their own. -/
def putWithHeaders : RequestOptions :=
  { method := some "PUT", headers := some [("X-Request-Id", "42")], body := some "" }

end Sample

namespace Spec

/-- The request went wrong: the promise of `fetch` was rejected, the status
was not ok, or the body could not be parsed. -/
def RequestFailed {δ : Type} : FetchOutcome δ → Prop
  | FetchOutcome.rejected _ => True
  | FetchOutcome.responded ok _ json => ok = false ∨ ∃ error, json = Except.error error

end Spec

/-! ## Login state (`core/auth.js`) -/

/-- Instance fields of `Auth`. -/
structure Auth where
  tokenKey : String
  userKey : String
deriving DecidableEq

namespace Auth

/-- The constructor of `Auth`. -/
def new : Auth := { tokenKey := "dental_clinic_token", userKey := "dental_clinic_user" }

/-- The method `setToken`, on the entries of `localStorage`. -/
def setToken (self : Auth) (localStorage : List (String × String)) (token : String) :
    List (String × String) :=
  JS.mapSet localStorage self.tokenKey token

/-- The method `getToken`. -/
def getToken (self : Auth) (localStorage : List (String × String)) : Option String :=
  JS.mapGet localStorage self.tokenKey

/-- The method `setCurrentUser`; `stringify` is `JSON.stringify`. -/
def setCurrentUser {υ : Type} (stringify : υ → String) (self : Auth)
    (localStorage : List (String × String)) (user : υ) : List (String × String) :=
  JS.mapSet localStorage self.userKey (stringify user)

/-- The method `getCurrentUser`; `parse` is `JSON.parse`, and `none` is `null`:
a missing or empty entry is not parsed. -/
def getCurrentUser {υ : Type} (parse : String → υ) (self : Auth)
    (localStorage : List (String × String)) : Option υ :=
  match JS.mapGet localStorage self.userKey with
  | none => none
  | some user => if user = "" then none else some (parse user)

/-- The method `isLoggedIn`. -/
def isLoggedIn (self : Auth) (localStorage : List (String × String)) : Bool :=
  self.getToken localStorage != none

/-- The method `logout`. -/
def logout (self : Auth) (localStorage : List (String × String)) : List (String × String) :=
  JS.mapDelete (JS.mapDelete localStorage self.tokenKey) self.userKey

end Auth

namespace Sample

/-- A store with an entry of another script next to a token. -/
def storage : List (String × String) :=
  [("theme", "dark"), ("dental_clinic_token", "abc")]

end Sample

/-! ## Attachments of medical records (`doctor/medical-records.js`) -/

/-- The properties of a `File` that the selection reads. -/
structure FileInfo where
  name : String
  size : Nat
  type : String
deriving DecidableEq

namespace MedicalRecords

/-- The constant `maxSize` of `handleFileSelection`. -/
def maxSize : Nat := 10 * 1024 * 1024

/-- The constant `allowedTypes` of `handleFileSelection`. -/
def allowedTypes : List String :=
  ["application/pdf",
   "image/jpeg",
   "image/jpg",
   "image/png",
   "application/msword",
   "application/vnd.openxmlformats-officedocument.wordprocessingml.document",
   "application/vnd.ms-excel",
   "application/vnd.openxmlformats-officedocument.spreadsheetml.sheet"]

/-- The body of the loop of `handleFileSelection` for one file. -/
def selectFile (selectedFiles : List FileInfo) (file : FileInfo) : List FileInfo :=
  if file.size > maxSize then selectedFiles
  else if !allowedTypes.contains file.type then selectedFiles
  else if !selectedFiles.any (fun f => f.name == file.name && f.size == file.size) then
    selectedFiles ++ [file]
  else selectedFiles

/-- The function `handleFileSelection`, on the variable `selectedFiles`. -/
def handleFileSelection (selectedFiles : List FileInfo) (files : List FileInfo) :
    List FileInfo :=
  files.foldl selectFile selectedFiles

/-- The variable `selectedFiles` after a sequence of calls of
`handleFileSelection`, starting from its initial value `[]`. -/
def selectedAfter (calls : List (List FileInfo)) : List FileInfo :=
  calls.foldl handleFileSelection []

end MedicalRecords

namespace Spec

/-- File `f` passes the size and type checks. -/
def FileAccepted (f : FileInfo) : Prop :=
  f.size ≤ 10 * 1024 * 1024 ∧ f.type ∈ MedicalRecords.allowedTypes

/-- Every file of the list passes the checks and no two have the same name and size. -/
def FilesValid (files : List FileInfo) : Prop :=
  (∀ f ∈ files, FileAccepted f) ∧
  files.Pairwise (fun a b => ¬ (a.name = b.name ∧ a.size = b.size))

end Spec

namespace Sample

/-- A scan of 12 MB, over the size limit. -/
def bigScan : FileInfo := { name := "scan.pdf", size := 12 * 1024 * 1024, type := "application/pdf" }

/-- An X-ray image of 2 MB. -/
def xray : FileInfo := { name := "xray.png", size := 2 * 1024 * 1024, type := "image/png" }

end Sample

/-! ## Loading the doctor appointments -/

namespace JS

/-- The method `Array.prototype.map` with a callback that also takes the index,
from index `start` on. -/
def mapFrom {α β : Type} (f : α → Nat → β) : Nat → List α → List β
  | _, [] => []
  | index, x :: xs => f x index :: mapFrom f (index + 1) xs

/-- The method `Array.prototype.map` with a callback that also takes the index. -/
def mapIndexed {α β : Type} (f : α → Nat → β) (xs : List α) : List β := mapFrom f 0 xs

/-- The call `s.substring(0, n)`, counted in characters. -/
def substring0 (s : String) (n : Nat) : String := String.mk (s.data.take n)

end JS

/-- A post as returned by the placeholder API. -/
structure Post where
  id : Nat
  title : String
  body : String
deriving DecidableEq

/-- What `updatePagination` of the doctor page writes: the two numbers shown and
the `disabled` flag of both buttons. -/
structure AppointmentPagination where
  currentPage : Nat
  totalPages : Nat
  prevDisabled : Bool
  nextDisabled : Bool
deriving DecidableEq

namespace AppointmentManager

/-- The array `statuses` of `loadAppointments`. -/
def statuses : List String := ["scheduled", "confirmed", "completed", "cancelled"]

/-- The callback of `map` in `loadAppointments`.  `dateOf k` is the date string
`toISOString().split('T')[0]` of the day `k` days after today; a missing array
element prints as `undefined`.  The object has no `patientName`,
`patientEmail` and `patientPhone`; its patient has no id, which is left empty. -/
def appointmentOfPost (self : AppointmentManager) (dateOf : Nat → String) (post : Post)
    (index : Nat) : Appointment :=
  { id := toString post.id
    patientId := toString (index + 1)
    date := dateOf (index / 3)
    time := (self.availableTimeSlots.get? (index % self.availableTimeSlots.length)).getD
      "undefined"
    service := JS.substring0 post.title 30 ++ "..."
    status := (statuses.get? (index % statuses.length)).getD "undefined"
    duration := 60
    notes := JS.substring0 post.body 100 ++ "..."
    patient := some
      { id := ""
        name := "Patient " ++ toString post.id
        email := "patient" ++ toString post.id ++ "@example.com"
        phone := "555-010" ++ toString post.id }
    patientName := none, patientEmail := none, patientPhone := none }

/-- The method `loadAppointments` when the API call succeeds with `posts`. -/
def loadAppointments (self : AppointmentManager) (dateOf : Nat → String) (posts : List Post) :
    AppointmentManager :=
  let appointments := JS.mapIndexed (appointmentOfPost self dateOf) posts
  { self with appointments := appointments, filteredAppointments := appointments }

/-- The writes of `updatePagination` to the page. -/
def paginationControls (self : AppointmentManager) : AppointmentPagination :=
  let totalPages := JS.ceilDiv self.filteredAppointments.length self.itemsPerPage
  { currentPage := self.currentPage
    totalPages := totalPages
    prevDisabled := self.currentPage == 1
    nextDisabled := self.currentPage == totalPages }

/-- The method `previousPage`. -/
def previousPage (self : AppointmentManager) : AppointmentManager :=
  if self.currentPage > 1 then
    renderAppointmentsTable { self with currentPage := self.currentPage - 1 }
  else self

/-- The method `nextPage`. -/
def nextPage (self : AppointmentManager) : AppointmentManager :=
  if self.currentPage < self.totalPages then
    renderAppointmentsTable { self with currentPage := self.currentPage + 1 }
  else self

end AppointmentManager

namespace Sample

/-- The date string of the day `k` days after 15 January 2024, for `k` up to 16. -/
def dateOf (k : Nat) : String := "2024-01-" ++ JS.padStart2 (toString (15 + k))

/-- Two posts of the placeholder API. -/
def twoPosts : List Post :=
  [{ id := 1, title := "sunt aut facere", body := "quia et suscipit" },
   { id := 2, title := "qui est esse", body := "est rerum tempore" }]

end Sample

/-! ## Select-all of the generic table -/

namespace TableComponent

variable {α : Type}

/-- The values of the row checkboxes that `renderTableBody` writes in selectable
mode: the absolute index of each row of the page, every row having a first
cell. -/
def rowCheckboxes (self : TableComponent α) : List Nat :=
  let startIndex := (self.currentPage - 1) * self.pageSize
  (List.range self.renderTableBody.length).map (fun rowIndex => startIndex + rowIndex)

/-- The method `toggleSelectAll`, on the table as last rendered. -/
def toggleSelectAll (self : TableComponent α) : TableComponent α :=
  let allCheckboxes := self.rowCheckboxes
  let allSelected := allCheckboxes.length == self.selectedRows.length
  if allSelected then
    { self with selectedRows := [] }
  else
    { self with
      selectedRows := allCheckboxes.foldl (fun s value => JS.setAdd s value) self.selectedRows }

end TableComponent

namespace Sample

/-- Page 2 of the table of five rows with both rows of page 1 selected. -/
def tablePageTwo : TableComponent String :=
  { data := ["a", "b", "c", "d", "e"], filteredData := ["a", "b", "c", "d", "e"],
    currentPage := 2, pageSize := 2, pagination := true, selectedRows := [0, 1] }

end Sample

/-! ## Page numbers of the generic table -/

namespace TableComponent

variable {α : Type}

/-- The method `generatePageNumbers`: the numbers of the buttons it writes, with
`maxVisiblePages = 5`. -/
def generatePageNumbers (self : TableComponent α) (totalPages : Nat) : List Int :=
  let maxVisiblePages : Int := 5
  let startPage : Int := max 1 ((self.currentPage : Int) - maxVisiblePages / 2)
  let endPage : Int := min (totalPages : Int) (startPage + maxVisiblePages - 1)
  let startPage : Int :=
    if endPage - startPage + 1 < maxVisiblePages then max 1 (endPage - maxVisiblePages + 1)
    else startPage
  (List.range (endPage - startPage + 1).toNat).map (fun k => startPage + (k : Int))

end TableComponent

/-! ## Selection and bulk actions of the user list -/

/-- The arguments of a call of `API.bulkUpdateUsers` (`updates` is its `status`
entry) or of `API.bulkDeleteUsers` (`updates` is `none`). -/
structure BulkCall where
  userIds : List String
  updates : Option String
deriving DecidableEq

namespace UserManagement

/-- The method `toggleUserSelection`. -/
def toggleUserSelection (self : UserManagement) (userId : String) (selected : Bool) :
    UserManagement :=
  if selected then { self with selectedUsers := JS.setAdd self.selectedUsers userId }
  else { self with selectedUsers := JS.setDelete self.selectedUsers userId }

/-- The method `loadUsers`; `users` is the field `response.users` of the answer of
`API.getUsers`, `none` when it is missing. -/
def loadUsers (self : UserManagement) (users : Option (List User)) : UserManagement :=
  let users := users.getD []
  { self with users := users, filteredUsers := users }

/-- The method `deleteUser`.  When `API.deleteUser` resolves, the next call
`this.hideDeleteModal()` throws a `TypeError`, the class having no such method
(`hideDeleteModal` is a function of the page); the `catch` reports a failure, as
it does when `API.deleteUser` rejects.  `loadUsers` is not reached and no field
changes. -/
def deleteUser (self : UserManagement) (_userId : String) : UserManagement :=
  self

/-- The method `bulkActivateUsers` when the API resolves: the call it makes, if
any, and the state after the reload. -/
def bulkActivateUsers (self : UserManagement) (users : Option (List User)) :
    UserManagement × Option BulkCall :=
  if self.selectedUsers.length = 0 then (self, none)
  else
    (loadUsers { self with selectedUsers := [] } users,
     some { userIds := self.selectedUsers, updates := some "active" })

/-- The method `bulkDeactivateUsers` when the API resolves. -/
def bulkDeactivateUsers (self : UserManagement) (users : Option (List User)) :
    UserManagement × Option BulkCall :=
  if self.selectedUsers.length = 0 then (self, none)
  else
    (loadUsers { self with selectedUsers := [] } users,
     some { userIds := self.selectedUsers, updates := some "inactive" })

/-- The method `bulkDeleteUsers` when the API resolves; `confirmed` is the answer
to the `confirm` dialog. -/
def bulkDeleteUsers (self : UserManagement) (confirmed : Bool) (users : Option (List User)) :
    UserManagement × Option BulkCall :=
  if self.selectedUsers.length = 0 then (self, none)
  else if !confirmed then (self, none)
  else
    (loadUsers { self with selectedUsers := [] } users,
     some { userIds := self.selectedUsers, updates := none })

end UserManagement

namespace Spec

/-- Every id in `selectedUsers` is the id of a user in `filteredUsers`. -/
def SelectionInView (um : UserManagement) : Prop :=
  ∀ id ∈ um.selectedUsers, ∃ u ∈ um.filteredUsers, u.id = id

instance (um : UserManagement) : Decidable (SelectionInView um) :=
  inferInstanceAs (Decidable (∀ id ∈ um.selectedUsers, ∃ u ∈ um.filteredUsers, u.id = id))

end Spec

namespace Sample

/-- The two users of `staff`, loaded and unfiltered, after the checkbox of the
second one (Bob, an admin) was ticked. -/
def bobTicked : UserManagement :=
  (UserManagement.loadUsers
    { staff with filters := { search := "", role := "all", status := "all" } }
    (some staff.users)).toggleUserSelection "2" true

end Sample

/-! ## Sorting and selection of the generic table -/

namespace JS

/-- One step of `sort`: `a` goes before the first element it does not compare
greater than. -/
def insertSorted {α : Type} (compareFn : α → α → Int) (a : α) : List α → List α
  | [] => [a]
  | b :: rest =>
    if compareFn a b ≤ 0 then a :: b :: rest else b :: insertSorted compareFn a rest

/-- The method `Array.prototype.sort(compareFn)`, which is stable: elements that
compare equal keep their order. -/
def sort {α : Type} (compareFn : α → α → Int) (xs : List α) : List α :=
  xs.foldr (insertSorted compareFn) []

/-- The operator `<` on two cell values, either of which may be `undefined`
(`none`); `lt` is the operator on values that are present. -/
def lessThan {β : Type} (lt : β → β → Bool) : Option β → Option β → Bool
  | some a, some b => lt a b
  | _, _ => false

end JS

namespace TableComponent

variable {α β : Type}

/-- The method `handleSort`; `columnIndex` is the position of the clicked header,
`values row` is `Object.values(row)` and `lt` the operator `<` on cell values. -/
def handleSort (values : α → List β) (lt : β → β → Bool) (self : TableComponent α)
    (columnIndex : Nat) : TableComponent α :=
  let sortDirection :=
    if self.sortColumn == some columnIndex then
      (if self.sortDirection == "asc" then "desc" else "asc")
    else "asc"
  let compareFn := fun (a b : α) =>
    let aValue := (values a).get? columnIndex
    let bValue := (values b).get? columnIndex
    let comparison : Int := 0
    let comparison : Int := if JS.lessThan lt aValue bValue then -1 else comparison
    let comparison : Int := if JS.lessThan lt bValue aValue then 1 else comparison
    if sortDirection == "desc" then -comparison else comparison
  { self with
    sortColumn := some columnIndex
    sortDirection := sortDirection
    filteredData := JS.sort compareFn self.filteredData }

/-- The method `handleRowSelection`; `rowIndex` is the value of the checkbox and
`checked` its state. -/
def handleRowSelection (self : TableComponent α) (rowIndex : Nat) (checked : Bool) :
    TableComponent α :=
  if checked then { self with selectedRows := JS.setAdd self.selectedRows rowIndex }
  else { self with selectedRows := JS.setDelete self.selectedRows rowIndex }

/-- The method `getSelectedRows`; `none` is `undefined`. -/
def getSelectedRows (self : TableComponent α) : List (Option α) :=
  self.selectedRows.map (fun index => self.filteredData.get? index)

end TableComponent

namespace Sample

/-- The only value of a row of `table` is the row itself. -/
def rowValues (row : String) : List String := [row]

/-- The operator `<` on strings, which compares them character by character
(on strings without surrogate pairs, as the rows of `table` are). -/
def stringLt (a b : String) : Bool := decide (a.data < b.data)

end Sample

/-! ## File sizes of the backup page -/

namespace JS

/-- The text of the number `h / 100` for an integer `h` below `10 ^ 23`: at most
two decimals, without trailing zeros. -/
def hundredthsToString (h : Nat) : String :=
  let whole := toString (h / 100)
  let fraction := h % 100
  if fraction = 0 then whole
  else if fraction % 10 = 0 then whole ++ "." ++ toString (fraction / 10)
  else whole ++ "." ++ toString (fraction / 10) ++ toString (fraction % 10)

end JS

namespace BackupSystem

/-- The method `formatFileSize` on a byte count.  `Math.floor(Math.log(bytes) /
Math.log(1024))` is the integer logarithm, `Math.round(x)` is `⌊x + 1/2⌋`, here
`⌊(2 * 100 * bytes + 1024 ^ i) / (2 * 1024 ^ i)⌋`, and `sizes[i]` beyond the
array is `undefined`, which `+` writes out. -/
def formatFileSize (bytes : Nat) : String :=
  if bytes = 0 then "0 B"
  else
    let sizes := ["B", "KB", "MB", "GB"]
    let i := Nat.log 1024 bytes
    let rounded := (2 * (bytes * 100) + 1024 ^ i) / (2 * 1024 ^ i)
    JS.hundredthsToString rounded ++ " " ++ (sizes.get? i).getD "undefined"

end BackupSystem

/-! ## Modals (`components/modal.js`) -/

/-- The `options` argument of `createModal`, the entries that decide how a modal
closes; an absent entry is `none`. -/
structure ModalOptions where
  showCloseButton : Option Bool := none
  closeOnBackdrop : Option Bool := none
  closeOnEscape : Option Bool := none
  backdrop : Option Bool := none
deriving DecidableEq

/-- The same entries of `config`, the options merged over `defaultOptions`. -/
structure ModalConfig where
  showCloseButton : Bool
  closeOnBackdrop : Bool
  closeOnEscape : Bool
  backdrop : Bool
deriving DecidableEq

/-- An entry of the map `modals`. -/
structure Modal where
  id : String
  config : ModalConfig
  isOpen : Bool
deriving DecidableEq

/-- Instance field of `ModalComponent`: the map `modals` in insertion order. -/
structure ModalComponent where
  modals : List (String × Modal)
deriving DecidableEq

namespace ModalComponent

/-- The constant `defaultOptions` of `createModal`. -/
def defaultOptions : ModalConfig :=
  { showCloseButton := true, closeOnBackdrop := true, closeOnEscape := true, backdrop := true }

/-- The method `createModal`. -/
def createModal (self : ModalComponent) (id : String) (options : ModalOptions) :
    ModalComponent :=
  let config : ModalConfig :=
    { showCloseButton := options.showCloseButton.getD defaultOptions.showCloseButton
      closeOnBackdrop := options.closeOnBackdrop.getD defaultOptions.closeOnBackdrop
      closeOnEscape := options.closeOnEscape.getD defaultOptions.closeOnEscape
      backdrop := options.backdrop.getD defaultOptions.backdrop }
  let modal : Modal := { id := id, config := config, isOpen := false }
  { modals := JS.mapSet self.modals id modal }

/-- The method `openModal`. -/
def openModal (self : ModalComponent) (id : String) : ModalComponent :=
  match JS.mapGet self.modals id with
  | none => self
  | some modal =>
    if modal.isOpen then self
    else { modals := JS.mapSet self.modals id { modal with isOpen := true } }

/-- The method `closeModal`. -/
def closeModal (self : ModalComponent) (id : String) : ModalComponent :=
  match JS.mapGet self.modals id with
  | none => self
  | some modal =>
    if !modal.isOpen then self
    else { modals := JS.mapSet self.modals id { modal with isOpen := false } }

/-- The method `closeCurrentModal`. -/
def closeCurrentModal (self : ModalComponent) : ModalComponent :=
  match JS.find (fun modal => modal.isOpen) (self.modals.map (fun entry => entry.2)) with
  | some openModal => self.closeModal openModal.id
  | none => self

/-- The `keydown` listener that `setupEscapeKey` installs on the document. -/
def keydown (self : ModalComponent) (key : String) : ModalComponent :=
  if key = "Escape" then self.closeCurrentModal else self

/-- The first `click` listener that `setupEventListeners` installs on the
document; `onBackdrop` says whether the target has the class `modal-backdrop`. -/
def click (self : ModalComponent) (onBackdrop : Bool) : ModalComponent :=
  if onBackdrop then self.closeCurrentModal else self

/-- The method `loading`; `generatedId` is what `Utils.generateId()` returns.
The result is the component and the id of the new modal. -/
def loading (self : ModalComponent) (generatedId : String) : ModalComponent × String :=
  let modalId := "loading-" ++ generatedId
  let loadingOptions : ModalOptions :=
    { showCloseButton := some false, closeOnBackdrop := some false,
      closeOnEscape := some false, backdrop := some true }
  ((self.createModal modalId loadingOptions).openModal modalId, modalId)

/-- The method `destroyModal`. -/
def destroyModal (self : ModalComponent) (id : String) : ModalComponent :=
  match JS.mapGet self.modals id with
  | some _ => { modals := JS.mapDelete self.modals id }
  | none => self

/-- The method `isModalOpen`. -/
def isModalOpen (self : ModalComponent) (id : String) : Bool :=
  match JS.mapGet self.modals id with
  | some modal => modal.isOpen
  | none => false

end ModalComponent

namespace Sample

/-- A fresh modal component on which `loading()` was called. -/
def loadingShown : ModalComponent × String :=
  ModalComponent.loading { modals := [] } "m1"

end Sample

/-! ## Rows and search of the doctor's appointment table -/

namespace JS

/-- The method `String.prototype.split(separator)` for a separator of one
character, on the characters of the string. -/
def splitChars (separator : Char) : List Char → List (List Char)
  | [] => [[]]
  | c :: rest =>
    if c = separator then [] :: splitChars separator rest
    else
      match splitChars separator rest with
      | [] => [[c]]
      | part :: parts => (c :: part) :: parts

end JS

namespace AppointmentManager

/-- The avatar text `appointment.patientName.split(' ').map(n => n[0]).join('')`
of a row, in which an empty part contributes nothing; reading `split` of a
missing `patientName` throws a `TypeError`. -/
def patientAvatar (appointment : Appointment) : Except String String :=
  match appointment.patientName with
  | none => Except.error "TypeError"
  | some patientName =>
    Except.ok (String.mk ((JS.splitChars ' ' patientName.data).filterMap List.head?))

/-- The avatar texts of the rows that `renderAppointmentsTable` writes, or the
error it throws. -/
def tableAvatars (self : AppointmentManager) : Except String (List String) :=
  if self.filteredAppointments.length = 0 then Except.ok []
  else
    let startIndex := (self.currentPage - 1) * self.itemsPerPage
    let endIndex := startIndex + self.itemsPerPage
    (JS.slice self.filteredAppointments startIndex endIndex).mapM patientAvatar

/-- The callback of the search `filter` in `filterAppointments`; reading
`toLowerCase` of a missing `patientName` throws a `TypeError`. -/
def matchesSearch (searchTerm : String) (apt : Appointment) : Except String Bool :=
  match apt.patientName with
  | none => Except.error "TypeError"
  | some patientName =>
    Except.ok (JS.includes (JS.toLowerCase patientName) searchTerm ||
      JS.includes (JS.toLowerCase apt.service) searchTerm ||
      JS.includes (JS.toLowerCase apt.notes) searchTerm)

/-- The method `filterAppointments`, or the error it throws. -/
def filterAppointments (self : AppointmentManager) : Except String AppointmentManager := do
  let filtered := self.appointments
  let filtered :=
    if self.currentFilters.status != "all" then
      filtered.filter (fun apt => apt.status == self.currentFilters.status)
    else filtered
  let filtered ←
    if self.currentFilters.search != "" then
      let searchTerm := JS.toLowerCase self.currentFilters.search
      filtered.filterM (matchesSearch searchTerm)
    else pure filtered
  let self := { self with filteredAppointments := filtered, currentPage := 1 }
  let _ ← self.tableAvatars
  pure self.renderAppointmentsTable

end AppointmentManager

namespace Sample

/-- The appointments page after `loadAppointments` received `twoPosts`. -/
def loaded : AppointmentManager :=
  AppointmentManager.loadAppointments (manager []) dateOf twoPosts

/-- A form for patient 1 at 14:00 on 15 January 2024. -/
def formAtTwo : FormData :=
  { patientId := "1", date := "2024-01-15", time := "14:00", service := "Checkup",
    duration := 60, notes := "", status := "scheduled" }

/-- A form for patient 1 at 10:00 on 20 January 2024. -/
def form : FormData :=
  { patientId := "1", date := "2024-01-20", time := "10:00", service := "Checkup",
    duration := 60, notes := "", status := "scheduled" }

end Sample

/-! ## Application start and login (`core/app.js`) -/

/-- The user object of a login answer, of which the application reads `role`. -/
structure SessionUser where
  username : String
  role : String
deriving DecidableEq

/-- The answer of `auth/login.php`: `success`, `data.token` and `data.user`. -/
structure LoginResult where
  success : Bool
  token : String
  user : SessionUser
deriving DecidableEq

/-- The field `currentUser` of `DentalClinicApp` (`none` is `null`), the entries
of `localStorage`, and the page last fetched by `loadLoginPage` or
`loadMainApp`. -/
structure DentalClinicApp where
  currentUser : Option SessionUser
  localStorage : List (String × String)
  page : Option String
deriving DecidableEq

namespace DentalClinicApp

/-- The method `loadLoginPage`. -/
def loadLoginPage (self : DentalClinicApp) : DentalClinicApp :=
  { self with page := some "login.html" }

/-- The method `loadMainApp`; reading `role` of a `currentUser` that is `null`
throws a `TypeError`. -/
def loadMainApp (self : DentalClinicApp) : Except String DentalClinicApp :=
  match self.currentUser with
  | none => Except.error "TypeError"
  | some currentUser =>
    let role := currentUser.role
    let dashboardPath := "pages/" ++ role ++ "/dashboard.html"
    Except.ok { self with page := some dashboardPath }

/-- The constructor and the method `init` on a page load with the given
`localStorage`; `parse` is `JSON.parse`. -/
def init (parse : String → SessionUser) (localStorage : List (String × String)) :
    Except String DentalClinicApp :=
  let self : DentalClinicApp := { currentUser := none, localStorage := localStorage, page := none }
  if Auth.new.isLoggedIn self.localStorage then
    loadMainApp { self with currentUser := Auth.new.getCurrentUser parse self.localStorage }
  else
    Except.ok self.loadLoginPage

/-- The method `handleLogin` when the request resolves with `result`. -/
def handleLogin (self : DentalClinicApp) (result : LoginResult) : Except String DentalClinicApp :=
  if result.success then
    loadMainApp
      { self with
        localStorage := Auth.new.setToken self.localStorage result.token
        currentUser := some result.user }
  else Except.ok self

end DentalClinicApp

namespace Sample

/-- A successful login answer for an administrator. -/
def loginResult : LoginResult :=
  { success := true, token := "t0k3n", user := { username := "admin", role := "admin" } }

/-- Stands for `JSON.parse` on the text of a stored user. -/
def parseUser (text : String) : SessionUser := { username := text, role := "admin" }

/-- The entries of `localStorage` after a first page load with an empty store
and a successful login. -/
def storageAfterLogin : List (String × String) :=
  match (DentalClinicApp.init parseUser []) with
  | Except.ok app =>
    (match app.handleLogin loginResult with
     | Except.ok app => app.localStorage
     | Except.error _ => [])
  | Except.error _ => []

end Sample

/-! ## Reloading the receptionist's appointment list -/

/-- What surrounds one call of `apiCall`: the value of `Date.now()` when the
cache is read, what the network does if asked, and the value of `Date.now()`
when the response is stored. -/
structure Exchange (δ : Type) where
  now : Int
  outcome : FetchOutcome δ
  later : Int

/-- The appointments page: its state, the response whose appointments the table
shows (`none` for the error state or nothing yet), the response whose numbers the
statistics show, and the calls of `fetch` made so far. -/
structure AppointmentsPage (δ : Type) where
  state : AppointmentsState δ
  appointments : Option δ
  stats : Option δ
  requests : List FetchRequest

namespace ReceptionistAppointments

variable {δ : Type}

/-- The options `{}` that `apiCall` takes by default. -/
def noOptions : RequestOptions := { method := none, headers := none, body := none }

/-- The text `params.toString()` of `loadAppointments`; `encode` is the
percent-encoding of `URLSearchParams`. -/
def searchParams (encode : String → String) (state : AppointmentsState δ) : String :=
  let params : List (String × String) :=
    [("page", toString state.currentPage), ("limit", toString state.itemsPerPage),
     ("sort", state.sort.field), ("order", state.sort.direction)]
  let params :=
    if state.filters.status != "all" then params ++ [("status", state.filters.status)]
    else params
  let params :=
    if state.filters.doctor != "all" then params ++ [("doctorId", state.filters.doctor)]
    else params
  let params :=
    if state.filters.date != "" then params ++ [("date", state.filters.date)] else params
  String.intercalate "&" (params.map (fun entry => encode entry.1 ++ "=" ++ encode entry.2))

/-- The endpoint that `loadAppointments` calls. -/
def appointmentsEndpoint (encode : String → String) (state : AppointmentsState δ) : String :=
  "/appointments" ++ "?" ++ searchParams encode state

/-- The function `loadAppointments`: the page afterwards and the error it
throws, if any.  `totalOf response` is `response.total || response.data.length`. -/
def loadAppointments (stringify : RequestOptions → String) (encode : String → String)
    (userToken : Option String) (totalOf : δ → Nat) (page : AppointmentsPage δ)
    (exchange : Exchange δ) : AppointmentsPage δ × Option String :=
  let call := apiCall stringify userToken page.state (appointmentsEndpoint encode page.state)
    noOptions exchange.now exchange.outcome exchange.later
  let requests := page.requests ++ call.request.toList
  match call.result with
  | Except.ok response =>
    ({ state := { call.state with totalItems := totalOf response }
       appointments := some response
       stats := page.stats
       requests := requests }, none)
  | Except.error error =>
    ({ state := call.state, appointments := none, stats := page.stats, requests := requests },
     some error)

/-- The function `loadAppointmentsStats`, which logs an error and goes on. -/
def loadAppointmentsStats (stringify : RequestOptions → String) (userToken : Option String)
    (page : AppointmentsPage δ) (exchange : Exchange δ) : AppointmentsPage δ :=
  let call := apiCall stringify userToken page.state "/appointments/stats"
    noOptions exchange.now exchange.outcome exchange.later
  let requests := page.requests ++ call.request.toList
  match call.result with
  | Except.ok stats =>
    { state := call.state, appointments := page.appointments, stats := some stats,
      requests := requests }
  | Except.error _ =>
    { state := call.state, appointments := page.appointments, stats := page.stats,
      requests := requests }

/-- The expression `Promise.all([loadAppointments(), loadAppointmentsStats()])`:
both functions run, on cache keys of their own, and the error of the first is
the error of the whole. -/
def reload (stringify : RequestOptions → String) (encode : String → String)
    (userToken : Option String) (totalOf : δ → Nat) (page : AppointmentsPage δ)
    (list stats : Exchange δ) : AppointmentsPage δ × Option String :=
  let loaded := loadAppointments stringify encode userToken totalOf page list
  (loadAppointmentsStats stringify userToken loaded.1 stats, loaded.2)

/-- The function `saveAppointmentChanges`.  `formValid` is the result of
`form.checkValidity()`, `editingId` the id of `currentEditingAppointment` and
`body` the text `JSON.stringify(appointmentData)`. -/
def saveAppointmentChanges (stringify : RequestOptions → String) (encode : String → String)
    (userToken : Option String) (totalOf : δ → Nat) (page : AppointmentsPage δ)
    (formValid : Bool) (editingId body : String) (put list stats : Exchange δ) :
    AppointmentsPage δ :=
  if !formValid then page
  else
    let call := apiCall stringify userToken page.state ("/appointments" ++ "/" ++ editingId)
      { method := some "PUT", headers := none, body := some body }
      put.now put.outcome put.later
    let page := { page with state := call.state, requests := page.requests ++ call.request.toList }
    match call.result with
    | Except.error _ => page
    | Except.ok _ => (reload stringify encode userToken totalOf page list stats).1

/-- The function `cancelAppointment`; `confirmed` is the answer to the `confirm`
dialog. -/
def cancelAppointment (stringify : RequestOptions → String) (encode : String → String)
    (userToken : Option String) (totalOf : δ → Nat) (page : AppointmentsPage δ)
    (actualAppointmentId : String) (confirmed : Bool) (put list stats : Exchange δ) :
    AppointmentsPage δ :=
  if !confirmed then page
  else
    let call := apiCall stringify userToken page.state
      ("/appointments" ++ "/" ++ actualAppointmentId ++ "/cancel")
      { method := some "PUT", headers := none, body := none }
      put.now put.outcome put.later
    let page := { page with state := call.state, requests := page.requests ++ call.request.toList }
    match call.result with
    | Except.error _ => page
    | Except.ok _ => (reload stringify encode userToken totalOf page list stats).1

end ReceptionistAppointments

namespace Spec

/-- The cached response that `apiCall` returns for a `GET` without asking the
network: the entry under `cacheKey`, if it is less than 30000 ms old at `now`. -/
def freshEntry {δ : Type} (state : AppointmentsState δ) (cacheKey : String) (now : Int) :
    Option δ :=
  match JS.mapGet state.dataCache cacheKey with
  | some cached => if now - cached.timestamp < 30000 then some cached.data else none
  | none => none

end Spec

namespace Sample

/-- The appointments page five seconds after it loaded the list and the
statistics at time 1000: both answers are in the cache and on the screen. -/
def receptionLoaded : AppointmentsPage String :=
  { state :=
      { reception with
        dataCache :=
          [("/appointments?page=1&limit=10&sort=appointmentDate&order=asc&date=2024-01-15-\x7b\x7d",
            { data := "list before", timestamp := 1000 }),
           ("/appointments/stats-\x7b\x7d", { data := "stats before", timestamp := 1000 })] }
    appointments := some "list before"
    stats := some "stats before"
    requests := [] }

/-- The server answers 200 with the given body, at the given time. -/
def answers (time : Int) (body : String) : Exchange String :=
  { now := time, outcome := FetchOutcome.responded true 200 (Except.ok body), later := time + 100 }

end Sample

/-! ## Receptionist dashboard (`receptionist/dashboard.js`) -/

/-- The field of `dashboardState` that `apiCall` uses. -/
structure DashboardState (δ : Type) where
  dataCache : List (String × CacheEntry δ)

/-- What a call of the dashboard's `apiCall` leaves: the value returned or the
error thrown, the state, and the call of `fetch` if one was made. -/
structure DashboardCall (δ : Type) where
  result : Except String δ
  state : DashboardState δ
  request : Option FetchRequest

/-- The dashboard: its state, the notifications last shown, and the calls of
`fetch` made so far. -/
structure DashboardPage (δ : Type) where
  state : DashboardState δ
  notifications : Option δ
  requests : List FetchRequest

namespace ReceptionistDashboard

variable {δ : Type}

/-- The function `apiCall` of the dashboard, with the arguments of
`ReceptionistAppointments.apiCall`: the cache is read and written whatever the
method is. -/
def apiCall (stringify : RequestOptions → String) (userToken : Option String)
    (state : DashboardState δ) (endpoint : String) (options : RequestOptions) (now : Int)
    (outcome : FetchOutcome δ) (later : Int) : DashboardCall δ :=
  let url := ReceptionistAppointments.API_BASE_URL ++ endpoint
  let cacheKey := endpoint ++ "-" ++ stringify options
  let fresh : Option δ :=
    match JS.mapGet state.dataCache cacheKey with
    | some cached => if now - cached.timestamp < 30000 then some cached.data else none
    | none => none
  match fresh with
  | some data => { result := Except.ok data, state := state, request := none }
  | none =>
    let request : FetchRequest :=
      { url := url, init := ReceptionistAppointments.fetchInit userToken options }
    let failed (error : String) : DashboardCall δ :=
      match JS.mapGet state.dataCache cacheKey with
      | some cached => { result := Except.ok cached.data, state := state, request := some request }
      | none => { result := Except.error error, state := state, request := some request }
    match outcome with
    | FetchOutcome.rejected error => failed error
    | FetchOutcome.responded false status _ => failed ("API error: " ++ toString status)
    | FetchOutcome.responded true _ (Except.error error) => failed error
    | FetchOutcome.responded true _ (Except.ok data) =>
      { result := Except.ok data
        state := { dataCache := JS.mapSet state.dataCache cacheKey
                     { data := data, timestamp := later } }
        request := some request }

/-- The function `loadNotifications`: when the call fails it shows an error
state and throws, which `markAllNotificationsRead` does not wait for. -/
def loadNotifications (stringify : RequestOptions → String) (userToken : Option String)
    (page : DashboardPage δ) (exchange : Exchange δ) : DashboardPage δ :=
  let call := apiCall stringify userToken page.state "/notifications"
    ReceptionistAppointments.noOptions exchange.now exchange.outcome exchange.later
  { state := call.state
    notifications := match call.result with
      | Except.ok notifications => some notifications
      | Except.error _ => none
    requests := page.requests ++ call.request.toList }

/-- The function `markAllNotificationsRead`. -/
def markAllNotificationsRead (stringify : RequestOptions → String) (userToken : Option String)
    (page : DashboardPage δ) (post notifications : Exchange δ) : DashboardPage δ :=
  let call := apiCall stringify userToken page.state ("/notifications" ++ "/read-all")
    { method := some "POST", headers := none, body := none } post.now post.outcome post.later
  let page := { page with state := call.state, requests := page.requests ++ call.request.toList }
  match call.result with
  | Except.error _ => page
  | Except.ok _ => loadNotifications stringify userToken page notifications

end ReceptionistDashboard

namespace Sample

/-- The dashboard with nothing cached and nothing sent. -/
def dashboardPage : DashboardPage String :=
  { state := { dataCache := [] }, notifications := none, requests := [] }

end Sample

namespace Sample

/-- The dashboard after a first `markAllNotificationsRead` at time 1000 that the
server accepted. -/
def markedOnce : DashboardPage String :=
  ReceptionistDashboard.markAllNotificationsRead stringify none dashboardPage
    (answers 1000 "done") (answers 1200 "none unread")

end Sample

/-! ## Ignoring case, letter by letter -/

namespace Spec

/-- Every character of `s` is an ASCII character. -/
def IsAscii (s : String) : Prop := ∀ c ∈ s.data, c.toNat < 128

instance (s : String) : Decidable (IsAscii s) :=
  inferInstanceAs (Decidable (∀ c ∈ s.data, c.toNat < 128))

/-- Characters `a` and `b` are the same, or one is a capital letter of `A` to `Z`
(65 to 90) and the other is its small letter, 32 places further on. -/
def SameLetter (a b : Char) : Prop :=
  a = b ∨ (65 ≤ a.toNat ∧ a.toNat ≤ 90 ∧ b.toNat = a.toNat + 32) ∨
    (65 ≤ b.toNat ∧ b.toNat ≤ 90 ∧ a.toNat = b.toNat + 32)

/-- String `q` occurs in `s` when case is ignored: some run of consecutive
characters of `s` spells `q`, letter by letter, up to case. -/
def ContainsIgnoringCase (q s : String) : Prop :=
  ∃ run : List Char, run <:+: s.data ∧ List.Forall₂ SameLetter q.data run

/-- User `u` passes the search box, read as ignoring case letter by letter, and
both dropdowns of the user page. -/
def UserPasses (filters : UserFilters) (u : User) : Prop :=
  (filters.search = "" ∨ ContainsIgnoringCase filters.search u.first_name ∨
    ContainsIgnoringCase filters.search u.last_name ∨
    ContainsIgnoringCase filters.search u.email) ∧
  (filters.role = "all" ∨ u.role = filters.role) ∧
  (filters.status = "all" ∨ u.status = filters.status)

end Spec

namespace Sample

/-- A doctor whose name is written in Greek capitals. -/
def kostas : User :=
  { id := "5", first_name := "ΚΩΣΤΑΣ", last_name := "ΠΑΠΠΑΣ",
    email := "kostas@dentalclinic.com", phone := none, role := "doctor", status := "active",
    last_login := none }

/-- The user page holding `kostas` alone, with the given text in the search box. -/
def searching (search : String) : UserManagement :=
  { users := [kostas], filteredUsers := [kostas], selectedUsers := [], currentPage := 1,
    usersPerPage := 10, filters := { search := search, role := "all", status := "all" } }

end Sample
/-! ## Lemmas on dates -/

namespace JS

theorem isTimeOverlap_hour (s a : Option Int) :
    AppointmentManager.isTimeOverlap s (addMs s ((60 : Nat) * 60000)) a (addMs a (60 * 60000)) = true ↔
      ∃ x y : Int, a = some x ∧ s = some y ∧ |x - y| < 60 * 60000 := by
  cases s <;> cases a <;>
    simp [AppointmentManager.isTimeOverlap, addMs, dateLt, abs_lt]
  constructor <;> intro h <;> constructor <;> omega

theorem newDate_eq_none_of_length (s : String) (h : s.length ≠ 16) : newDate s = none := by
  unfold newDate
  split
  · rename_i heq
    exact absurd (by simp [String.length, heq]) h
  · rfl

theorem newDate_ten_oclock (d : String) (v : Int) (h : newDate (d ++ "T10:00") = some v) :
    newDate (d ++ "T10:30") = some (v + 30 * 60000) ∧
    newDate (d ++ "T11:00") = some (v + 60 * 60000) := by
  have hlen : d.length = 10 := by
    by_contra hne
    rw [newDate_eq_none_of_length] at h
    · exact absurd h (by simp)
    · simp only [String.length_append]
      have : "T10:00".length = 6 := by decide
      omega
  obtain ⟨l⟩ := d
  rcases l with _ | ⟨c1, _ | ⟨c2, _ | ⟨c3, _ | ⟨c4, _ | ⟨c5, _ | ⟨c6, _ | ⟨c7, _ | ⟨c8,
    _ | ⟨c9, _ | ⟨c10, _ | ⟨c11, l⟩⟩⟩⟩⟩⟩⟩⟩⟩⟩⟩ <;>
    simp [String.length] at hlen
  have d0 : "T10:00".data = ['T', '1', '0', ':', '0', '0'] := rfl
  have d1 : "T10:30".data = ['T', '1', '0', ':', '3', '0'] := rfl
  have d2 : "T11:00".data = ['T', '1', '1', ':', '0', '0'] := rfl
  simp only [newDate, String.data_append, d0, d1, d2, List.cons_append, List.nil_append] at h ⊢
  split at h
  · rename_i heq
    simp only [List.cons.injEq] at heq
    obtain ⟨rfl, rfl, rfl, rfl, rfl, rfl, rfl, rfl, rfl, rfl, -, rfl, rfl, -, rfl, rfl, -⟩ := heq
    have e0 : parseClock '1' '0' '0' '0' = some 600 := by decide
    have e1 : parseClock '1' '0' '3' '0' = some 630 := by decide
    have e2 : parseClock '1' '1' '0' '0' = some 660 := by decide
    rw [e0] at h
    simp only [e1, e2]
    cases hd : parseDay c1 c2 c3 c4 c6 c7 c9 c10 with
    | none => simp [hd] at h
    | some day =>
      simp only [hd, Option.some.injEq] at h ⊢
      constructor <;> push_cast <;> omega
  · exact absurd h (by simp)

end JS

namespace AppointmentManager

theorem isCandidate_iff (date : String) (ex : Option String) (apt : Appointment) :
    isCandidate date ex apt = true ↔
      apt.date = date ∧ apt.status ≠ "cancelled" ∧ some apt.id ≠ ex := by
  simp [isCandidate, and_assoc]

theorem validateTimeSlot_iff (appointments : List Appointment) (d t : String)
    (ex : Option String) :
    validateTimeSlot appointments d t 60 ex = true ↔
      ∀ a ∈ appointments, a.date = d → a.status ≠ "cancelled" → some a.id ≠ ex →
        ¬ Spec.StartsWithin60 a d t := by
  unfold validateTimeSlot
  simp only [Bool.not_eq_true', List.any_eq_false, List.mem_filter, isCandidate_iff, and_imp]
  constructor
  · intro h a ha hd hs hx hw
    have := h a ha hd hs hx
    rw [JS.isTimeOverlap_hour] at this
    exact this hw
  · intro h a ha hd hs hx
    rw [JS.isTimeOverlap_hour]
    exact h a ha hd hs hx

/-- C1. `validateTimeSlot(d, t, 60, excludeId)` is true exactly when no
appointment on `d` that is neither cancelled nor excluded starts less than 60
minutes before or after `t`; with a single non-cancelled appointment at 10:00,
a request at 10:30 on its date is rejected and one at 11:00 is accepted. -/
theorem validateTimeSlot_hour_window
    (appointments : List Appointment) (d t : String) (excludeId : Option String)
    (apt : Appointment) (hTime : apt.time = "10:00") (hStatus : apt.status ≠ "cancelled")
    (hDate : (JS.newDate (apt.date ++ "T" ++ apt.time)).isSome = true) :
    (validateTimeSlot appointments d t 60 excludeId = true ↔
      ∀ a ∈ appointments, a.date = d → a.status ≠ "cancelled" → some a.id ≠ excludeId →
        ¬ Spec.StartsWithin60 a d t) ∧
    validateTimeSlot [apt] apt.date "10:30" 60 none = false ∧
    validateTimeSlot [apt] apt.date "11:00" 60 none = true := by
  obtain ⟨v, hv⟩ := Option.isSome_iff_exists.mp hDate
  have hv0 : JS.newDate (apt.date ++ "T10:00") = some v := by
    rw [← hv, hTime, String.append_assoc]; rfl
  obtain ⟨h30, h60⟩ := JS.newDate_ten_oclock apt.date v hv0
  have e30 : JS.newDate (apt.date ++ "T" ++ "10:30") = some (v + 30 * 60000) := by
    rw [← h30, String.append_assoc]; rfl
  have e60 : JS.newDate (apt.date ++ "T" ++ "11:00") = some (v + 60 * 60000) := by
    rw [← h60, String.append_assoc]; rfl
  refine ⟨validateTimeSlot_iff appointments d t excludeId, ?_, ?_⟩
  · rw [← Bool.not_eq_true, validateTimeSlot_iff]
    intro h
    refine h apt (List.mem_singleton.mpr rfl) rfl hStatus (by simp) ⟨v, v + 30 * 60000, hv, e30, ?_⟩
    rw [abs_lt]; constructor <;> omega
  · rw [validateTimeSlot_iff]
    intro a ha _ _ _ hw
    obtain rfl := List.mem_singleton.mp ha
    obtain ⟨x, y, hx, hy, hlt⟩ := hw
    rw [hv] at hx
    rw [e60] at hy
    obtain rfl := Option.some.inj hx
    obtain rfl := Option.some.inj hy
    rw [abs_lt] at hlt
    omega

/-- An appointment at 10:00 on 15 January 2024. -/
theorem validateTimeSlot_hour_window_witness :
    validateTimeSlot Sample.oneBooked.appointments "2024-01-15" "10:30" 60 none = false ∧
    validateTimeSlot Sample.oneBooked.appointments "2024-01-15" "11:00" 60 none = true :=
  (validateTimeSlot_hour_window [] "2024-01-15" "09:00" none
    (Sample.appointment "7" "2024-01-15" "10:00" "scheduled")
    rfl (by decide) (by decide)).2

end AppointmentManager

/-! ## Pagination -/

namespace JS

theorem length_slice {α : Type} (xs : List α) (a b : Nat) :
    (slice xs a b).length = min (b - a) (xs.length - a) := by
  simp [slice]

theorem ceilDiv_bounds (N P : Nat) (hN : 0 < N) (hP : 0 < P) :
    (ceilDiv N P - 1) * P < N ∧ N ≤ ceilDiv N P * P ∧ 1 ≤ ceilDiv N P := by
  unfold ceilDiv
  have h1 : (N + P - 1) / P * P ≤ N + P - 1 := Nat.div_mul_le_self _ _
  have h2 : N + P - 1 < ((N + P - 1) / P + 1) * P := by
    have := @Nat.lt_div_mul_add (N + P - 1) P hP
    rw [add_mul, one_mul]; exact this
  have h3 : 1 ≤ (N + P - 1) / P := by
    rw [Nat.one_le_div_iff hP]; omega
  rw [add_mul, one_mul] at h2
  refine ⟨?_, by omega, h3⟩
  have h4 : ((N + P - 1) / P - 1) * P = (N + P - 1) / P * P - P := by
    rw [Nat.sub_mul, one_mul]
  have h5 : P ≤ (N + P - 1) / P * P := by
    calc P = 1 * P := (one_mul P).symm
      _ ≤ (N + P - 1) / P * P := Nat.mul_le_mul_right P h3
  omega

theorem ceilDiv_eq_ceil (N P : Nat) (hN : 0 < N) (hP : 0 < P) :
    ceilDiv N P = ⌈(N : ℚ) / (P : ℚ)⌉₊ := by
  obtain ⟨h1, h2, h3⟩ := ceilDiv_bounds N P hN hP
  symm
  rw [Nat.ceil_eq_iff (by omega)]
  have hPq : (0 : ℚ) < (P : ℚ) := by exact_mod_cast hP
  constructor
  · rw [lt_div_iff₀ hPq]
    exact_mod_cast h1
  · rw [div_le_iff₀ hPq]
    exact_mod_cast h2

theorem full_page (N P p : Nat) (hP : 0 < P) (h1 : 1 ≤ p) (hp : p < ceilDiv N P) :
    min ((p - 1) * P + P - (p - 1) * P) (N - (p - 1) * P) = P := by
  have hN : 0 < N := by
    by_contra h
    have : N = 0 := by omega
    subst this
    have h0 : ceilDiv 0 P = 0 := by
      unfold ceilDiv
      exact Nat.div_eq_of_lt (by omega)
    rw [h0] at hp
    omega
  obtain ⟨hlt, -, -⟩ := ceilDiv_bounds N P hN hP
  have hmono : p * P ≤ (ceilDiv N P - 1) * P := Nat.mul_le_mul_right P (by omega)
  have he : (p - 1) * P + P = p * P := by
    obtain ⟨q, rfl⟩ : ∃ q, p = q + 1 := ⟨p - 1, by omega⟩
    simp [add_mul]
  rw [he] at *
  have : (p - 1) * P = p * P - P := by rw [Nat.sub_mul, one_mul]
  have hPle : P ≤ p * P := by
    calc P = 1 * P := (one_mul P).symm
      _ ≤ p * P := Nat.mul_le_mul_right P h1
  omega

theorem last_page (N P : Nat) (hN : 0 < N) (hP : 0 < P) :
    min ((ceilDiv N P - 1) * P + P - (ceilDiv N P - 1) * P) (N - (ceilDiv N P - 1) * P) =
      if N % P = 0 then P else N % P := by
  obtain ⟨hlt, hle, h1⟩ := ceilDiv_bounds N P hN hP
  obtain ⟨k, hk⟩ : ∃ k, ceilDiv N P = k + 1 := ⟨ceilDiv N P - 1, by omega⟩
  rw [hk] at hlt hle ⊢
  simp only [Nat.add_sub_cancel, add_mul, one_mul] at hlt hle ⊢
  have hdm := Nat.div_add_mod N P
  split_ifs with hmod
  · -- N = k * P + P
    have hN' : N = P * (N / P) := by omega
    have : N / P = k + 1 := by
      have hle' : N / P ≤ k + 1 := by
        by_contra hc
        have : (k + 2) * P ≤ N / P * P := Nat.mul_le_mul_right P (by omega)
        rw [mul_comm (N / P) P] at this
        have e : (k + 2) * P = k * P + P + P := by ring
        omega
      have hge' : k + 1 ≤ N / P := by
        by_contra hc
        have : N / P * P ≤ k * P := Nat.mul_le_mul_right P (by omega)
        rw [mul_comm (N / P) P] at this
        omega
      omega
    rw [this] at hN'
    have e : P * (k + 1) = k * P + P := by ring
    omega
  · have hmodlt := Nat.mod_lt N hP
    have : N / P = k := by
      have hle' : N / P ≤ k := by
        by_contra hc
        have : (k + 1) * P ≤ N / P * P := Nat.mul_le_mul_right P (by omega)
        rw [mul_comm (N / P) P] at this
        have e : (k + 1) * P = k * P + P := by ring
        omega
      have hge' : k ≤ N / P := by
        by_contra hc
        have : (N / P + 1) * P ≤ k * P := Nat.mul_le_mul_right P (by omega)
        have e : (N / P + 1) * P = P * (N / P) + P := by ring
        omega
      omega
    rw [this] at hdm
    have e : P * k = k * P := by ring
    omega

end JS

/-- C2. With `N > 0` filtered items and page size `P > 0`, the user list, the
admin dashboard and the generic table compute `ceil(N / P)` pages; every page
before the last shows `P` items and the last shows `N mod P` items, or `P`
when `N mod P = 0`.  `renderPagination` of the table, when pagination is on,
writes that page count if it is more than 1 and writes nothing otherwise. -/
theorem page_count_and_page_sizes (N P : Nat) (hN : 0 < N) (hP : 0 < P) :
    (∀ um : UserManagement, um.filteredUsers.length = N → um.usersPerPage = P →
      um.updatePagination.totalPages = ⌈(N : ℚ) / (P : ℚ)⌉₊ ∧
      (∀ p, 1 ≤ p → p < ⌈(N : ℚ) / (P : ℚ)⌉₊ →
        ({ um with currentPage := p } : UserManagement).getCurrentPageUsers.length = P) ∧
      ({ um with currentPage := ⌈(N : ℚ) / (P : ℚ)⌉₊ } : UserManagement).getCurrentPageUsers.length
        = if N % P = 0 then P else N % P) ∧
    (∀ ad : AdminDashboard, ad.filteredPatients.length = N → ad.patientsPerPage = P →
      ad.updatePagination.totalPages = ⌈(N : ℚ) / (P : ℚ)⌉₊ ∧
      (∀ p, 1 ≤ p → p < ⌈(N : ℚ) / (P : ℚ)⌉₊ →
        ({ ad with currentPage := p } : AdminDashboard).renderPatients.length = P) ∧
      ({ ad with currentPage := ⌈(N : ℚ) / (P : ℚ)⌉₊ } : AdminDashboard).renderPatients.length
        = if N % P = 0 then P else N % P) ∧
    (∀ (α : Type) (tc : TableComponent α), tc.filteredData.length = N → tc.pageSize = P →
      tc.totalPages = ⌈(N : ℚ) / (P : ℚ)⌉₊ ∧
      (tc.pagination = true → 1 < ⌈(N : ℚ) / (P : ℚ)⌉₊ →
        tc.renderPagination = some
          { currentPage := tc.currentPage
            totalPages := ⌈(N : ℚ) / (P : ℚ)⌉₊
            prevDisabled := tc.currentPage == 1
            nextDisabled := tc.currentPage == ⌈(N : ℚ) / (P : ℚ)⌉₊ }) ∧
      (⌈(N : ℚ) / (P : ℚ)⌉₊ ≤ 1 → tc.renderPagination = none) ∧
      (∀ v, tc.renderPagination = some v → v.totalPages = ⌈(N : ℚ) / (P : ℚ)⌉₊) ∧
      (∀ p, 1 ≤ p → p < ⌈(N : ℚ) / (P : ℚ)⌉₊ →
        ({ tc with currentPage := p } : TableComponent α).renderTableBody.length = P) ∧
      ({ tc with currentPage := ⌈(N : ℚ) / (P : ℚ)⌉₊ } : TableComponent α).renderTableBody.length
        = if N % P = 0 then P else N % P) := by
  rw [← JS.ceilDiv_eq_ceil N P hN hP]
  refine ⟨?_, ?_, ?_⟩
  · intro um hlen hpp
    refine ⟨by simp [UserManagement.updatePagination, hlen, hpp], ?_, ?_⟩
    · intro p h1 hp
      simp only [UserManagement.getCurrentPageUsers, JS.length_slice, hlen, hpp]
      exact JS.full_page N P p hP h1 hp
    · simp only [UserManagement.getCurrentPageUsers, JS.length_slice, hlen, hpp]
      exact JS.last_page N P hN hP
  · intro ad hlen hpp
    have hne : ¬ N = 0 := by omega
    refine ⟨by simp [AdminDashboard.updatePagination, hlen, hpp], ?_, ?_⟩
    · intro p h1 hp
      simp only [AdminDashboard.renderPatients, hlen, hne, if_false, JS.length_slice, hpp]
      exact JS.full_page N P p hP h1 hp
    · simp only [AdminDashboard.renderPatients, hlen, hne, if_false, JS.length_slice, hpp]
      exact JS.last_page N P hN hP
  · intro α tc hlen hpp
    have htp : tc.totalPages = JS.ceilDiv N P := by
      simp [TableComponent.totalPages, hlen, hpp]
    refine ⟨htp, ?_, ?_, ?_, ?_, ?_⟩
    · intro hpag hmore
      have hnot : ¬ JS.ceilDiv N P ≤ 1 := by omega
      simp [TableComponent.renderPagination, hpag, htp, hnot]
    · intro hle
      unfold TableComponent.renderPagination
      simp only [htp, hle, if_true]
      split_ifs <;> rfl
    · intro v hv
      unfold TableComponent.renderPagination at hv
      simp only [] at hv
      split_ifs at hv
      simp only [Option.some.injEq] at hv
      subst hv
      simp [TableComponent.totalPages, hlen, hpp]
    · intro p h1 hp
      simp only [TableComponent.renderTableBody, JS.length_slice, hlen, hpp]
      exact JS.full_page N P p hP h1 hp
    · simp only [TableComponent.renderTableBody, JS.length_slice, hlen, hpp]
      exact JS.last_page N P hN hP

/-- Seven users on pages of three: three pages, the last with one user. -/
theorem page_count_and_page_sizes_witness :
    (Sample.userPage 7 3 1).updatePagination.totalPages = ⌈((7 : ℕ) : ℚ) / ((3 : ℕ) : ℚ)⌉₊ ∧
    (Sample.userPage 7 3 2).getCurrentPageUsers.length = 3 ∧
    (Sample.userPage 7 3 3).getCurrentPageUsers.length = 1 ∧
    Sample.table.renderPagination
      = some { currentPage := 1, totalPages := 3, prevDisabled := true, nextDisabled := false } ∧
    ({ Sample.table with currentPage := 3 } : TableComponent String).renderTableBody.length
      = 1 := by
  have h := (page_count_and_page_sizes 7 3 (by decide) (by decide)).1
    (Sample.userPage 7 3 1) (by decide) rfl
  have hc : ⌈((7 : ℕ) : ℚ) / ((3 : ℕ) : ℚ)⌉₊ = 3 := by
    rw [Nat.ceil_eq_iff (by decide)]
    norm_num
  have ht := (page_count_and_page_sizes 5 2 (by decide) (by decide)).2.2
    String Sample.table rfl rfl
  have hd : ⌈((5 : ℕ) : ℚ) / ((2 : ℕ) : ℚ)⌉₊ = 3 := by
    rw [Nat.ceil_eq_iff (by decide)]
    norm_num
  refine ⟨h.1, h.2.1 2 (by decide) (by rw [hc]; decide), ?_, ?_, ?_⟩
  · have h3 := h.2.2
    rw [hc] at h3
    exact h3
  · have hr := ht.2.1 rfl (by rw [hd]; decide)
    rw [hd] at hr
    exact hr
  · have hl := ht.2.2.2.2.2
    rw [hd] at hl
    exact hl

/-! ## Time slots offered by the forms -/

namespace AppointmentManager

theorem populateTimeSlots_eq (self : AppointmentManager) (dateValue : Option String)
    (dateSelectValue : String) (excludeId : Option String)
    (hDate : selectedDate dateValue dateSelectValue ≠ "") :
    self.populateTimeSlots dateValue dateSelectValue excludeId =
      { value := "", textContent := "Select Time", disabled := false, className := "" } ::
        self.availableTimeSlots.map (fun slot =>
          if validateTimeSlot self.appointments (selectedDate dateValue dateSelectValue) slot 60
              excludeId then availableOption slot else bookedOption slot) := by
  simp only [populateTimeSlots, hDate, if_false, validateTimeSlot]
  rfl

theorem startsWithin60_iff_overlaps60 (apt : Appointment) (date slot : String) :
    Spec.StartsWithin60 apt date slot ↔ Spec.Overlaps60 apt date slot := by
  unfold Spec.StartsWithin60 Spec.Overlaps60
  constructor
  · rintro ⟨a, s, ha, hs, h⟩
    rw [abs_lt] at h
    exact ⟨a, s, ha, hs, by omega, by omega⟩
  · rintro ⟨a, s, ha, hs, h1, h2⟩
    refine ⟨a, s, ha, hs, ?_⟩
    rw [abs_lt]
    constructor <;> omega

/-- C3. For a selected date, `populateTimeSlots` lists one option per generated
slot, and the option of slot `slot` is the `Available` one exactly when no
appointment on that date that is neither cancelled nor excluded overlaps the
hour starting at `slot`, which is exactly when `validateTimeSlot` accepts the
slot; otherwise it is the `Booked` one. -/
theorem populateTimeSlots_available_iff (self : AppointmentManager)
    (dateValue : Option String) (dateSelectValue : String) (excludeId : Option String)
    (slot : String) (hDate : selectedDate dateValue dateSelectValue ≠ "")
    (hSlot : slot ∈ self.availableTimeSlots) :
    (self.populateTimeSlots dateValue dateSelectValue excludeId).tail.map (fun o => o.value)
      = self.availableTimeSlots ∧
    (availableOption slot ∈ self.populateTimeSlots dateValue dateSelectValue excludeId ↔
      ∀ a ∈ self.appointments, a.date = selectedDate dateValue dateSelectValue →
        a.status ≠ "cancelled" → some a.id ≠ excludeId →
        ¬ Spec.Overlaps60 a (selectedDate dateValue dateSelectValue) slot) ∧
    (availableOption slot ∈ self.populateTimeSlots dateValue dateSelectValue excludeId ↔
      validateTimeSlot self.appointments (selectedDate dateValue dateSelectValue) slot 60
        excludeId = true) ∧
    (bookedOption slot ∈ self.populateTimeSlots dateValue dateSelectValue excludeId ↔
      validateTimeSlot self.appointments (selectedDate dateValue dateSelectValue) slot 60
        excludeId = false) := by
  rw [populateTimeSlots_eq self dateValue dateSelectValue excludeId hDate]
  have hA : availableOption slot ∈
      ({ value := "", textContent := "Select Time", disabled := false, className := "" } ::
        self.availableTimeSlots.map (fun slot =>
          if validateTimeSlot self.appointments (selectedDate dateValue dateSelectValue) slot 60
              excludeId then availableOption slot else bookedOption slot) : List SlotOption) ↔
      validateTimeSlot self.appointments (selectedDate dateValue dateSelectValue) slot 60
        excludeId = true := by
    rw [List.mem_cons, List.mem_map]
    constructor
    · rintro (h | ⟨s, -, hs⟩)
      · have := congrArg (fun o => o.className) h
        simp [availableOption] at this
      · by_cases hv : validateTimeSlot self.appointments
            (selectedDate dateValue dateSelectValue) s 60 excludeId = true
        · rw [if_pos hv] at hs
          have := congrArg (fun o => o.value) hs
          simp only [availableOption] at this
          rw [← this]; exact hv
        · rw [if_neg hv] at hs
          have := congrArg (fun o => o.disabled) hs
          simp [availableOption, bookedOption] at this
    · intro hv
      exact Or.inr ⟨slot, hSlot, by rw [if_pos hv]⟩
  refine ⟨?_, ?_, hA, ?_⟩
  · simp only [List.tail_cons, List.map_map]
    conv_rhs => rw [← List.map_id self.availableTimeSlots]
    apply List.map_congr_left
    intro s _
    simp only [Function.comp]
    split_ifs <;> rfl
  · rw [hA, validateTimeSlot_iff]
    simp only [startsWithin60_iff_overlaps60]
  · rw [List.mem_cons, List.mem_map]
    constructor
    · rintro (h | ⟨s, -, hs⟩)
      · have := congrArg (fun o => o.className) h
        simp [bookedOption] at this
      · by_cases hv : validateTimeSlot self.appointments
            (selectedDate dateValue dateSelectValue) s 60 excludeId = true
        · rw [if_pos hv] at hs
          have := congrArg (fun o => o.disabled) hs
          simp [availableOption, bookedOption] at this
        · rw [if_neg hv] at hs
          have := congrArg (fun o => o.value) hs
          simp only [bookedOption] at this
          rw [← this]; simpa using hv
    · intro hv
      exact Or.inr ⟨slot, hSlot, by rw [if_neg (by simp [hv])]⟩

end AppointmentManager

namespace AppointmentManager

/-- With 10:00 booked on 15 January 2024 the slot 11:00 is offered and 10:30 is not. -/
theorem populateTimeSlots_available_iff_witness :
    availableOption "11:00" ∈ Sample.oneBooked.populateTimeSlots (some "2024-01-15") "" none ∧
    bookedOption "10:30" ∈ Sample.oneBooked.populateTimeSlots (some "2024-01-15") "" none :=
  ⟨(populateTimeSlots_available_iff Sample.oneBooked (some "2024-01-15") "" none "11:00"
      (by decide) (by decide)).2.2.1.mpr (by decide),
   (populateTimeSlots_available_iff Sample.oneBooked (some "2024-01-15") "" none "10:30"
      (by decide) (by decide)).2.2.2.mpr (by decide)⟩

end AppointmentManager

/-! ## The no-overlap invariant under the mutations -/

namespace Spec

theorem Conflict.symm {a b : Appointment} (h : Conflict a b) : Conflict b a := by
  obtain ⟨hd, ha, hb, x, y, hx, hy, h1, h2⟩ := h
  exact ⟨hd.symm, hb, ha, y, x, hy, hx, h2, h1⟩

theorem not_conflict_of_cancelled (a b : Appointment) (h : b.status = "cancelled") :
    ¬ Conflict a b := fun hc => hc.2.2.1 h

theorem NoOverlap.append {l : List Appointment} {x : Appointment} (h : NoOverlap l)
    (hx : ∀ a ∈ l, ¬ Conflict a x) : NoOverlap (l ++ [x]) := by
  unfold NoOverlap at *
  rw [List.pairwise_append]
  refine ⟨h, List.pairwise_singleton _ _, ?_⟩
  intro a ha b hb
  rw [List.mem_singleton] at hb
  subst hb
  exact hx a ha

theorem NoOverlap.set {l : List Appointment} {x : Appointment} (i : Nat) (h : NoOverlap l)
    (hx : ∀ (j : Nat) (hj : j < l.length), j ≠ i → ¬ Conflict l[j] x) :
    NoOverlap (l.set i x) := by
  unfold NoOverlap at *
  rw [List.pairwise_iff_getElem] at h ⊢
  intro a b ha hb hab
  have ha' : a < l.length := by simpa using ha
  have hb' : b < l.length := by simpa using hb
  rw [List.getElem_set, List.getElem_set]
  by_cases hia : i = a
  · have hib : ¬ i = b := by omega
    rw [if_pos hia, if_neg hib]
    exact fun hc => hx b hb' (by omega) hc.symm
  · rw [if_neg hia]
    by_cases hib : i = b
    · rw [if_pos hib]
      exact hx a ha' (by omega)
    · rw [if_neg hib]
      exact h a b ha' hb' hab

end Spec

namespace JS

theorem findIndex_spec {α : Type} (p : α → Bool) (l : List α) (i : Nat)
    (h : findIndex p l = some i) :
    ∃ hi : i < l.length, p l[i] = true ∧
      (l.countP p ≤ 1 → ∀ (j : Nat) (hj : j < l.length), j ≠ i → p l[j] = false) := by
  induction l generalizing i with
  | nil => simp [findIndex] at h
  | cons x xs ih =>
    unfold findIndex at h
    by_cases hp : p x = true
    · rw [if_pos hp] at h
      obtain rfl := Option.some.inj h
      refine ⟨by simp, by simpa using hp, ?_⟩
      intro hc j hj hne
      obtain ⟨k, rfl⟩ : ∃ k, j = k + 1 := ⟨j - 1, by omega⟩
      rw [List.countP_cons_of_pos _ _ hp] at hc
      have h0 : xs.countP p = 0 := by omega
      rw [List.countP_eq_zero] at h0
      have hk : k < xs.length := by simpa using hj
      have := h0 xs[k] (List.getElem_mem hk)
      simpa using this
    · rw [if_neg hp] at h
      cases hf : findIndex p xs with
      | none => rw [hf] at h; simp at h
      | some k =>
        rw [hf] at h
        simp only [Option.map_some'] at h
        obtain rfl := Option.some.inj h
        obtain ⟨hk, hpk, hrest⟩ := ih k hf
        refine ⟨by simpa using hk, by simpa using hpk, ?_⟩
        intro hc j hj hne
        rw [List.countP_cons_of_neg _ _ hp] at hc
        cases j with
        | zero => simpa using hp
        | succ m =>
          have hm : m < xs.length := by simpa using hj
          have := hrest hc m hm (by omega)
          simpa using this

end JS

namespace AppointmentManager

theorem not_conflict_of_validateTimeSlot {l : List Appointment} {d t : String}
    {ex : Option String} (hv : validateTimeSlot l d t 60 ex = true)
    {a : Appointment} (ha : a ∈ l) (hex : some a.id ≠ ex)
    {x : Appointment} (hxd : x.date = d) (hxt : x.time = t) : ¬ Spec.Conflict a x := by
  rintro ⟨hd, hsa, -, u, v, hu, hv', h1, h2⟩
  rw [validateTimeSlot_iff] at hv
  refine hv a ha (hd.trans hxd) hsa hex ⟨u, v, hu, ?_, ?_⟩
  · rw [← hxd, ← hxt]; exact hv'
  · rw [abs_lt]; constructor <;> omega

theorem createNewAppointment_noOverlap (self : AppointmentManager) (formValid : Bool)
    (form : FormData) (during : AppointmentManager → AppointmentManager) (now : Nat)
    (h : Spec.NoOverlap self.appointments)
    (hAlone : (during self).appointments = self.appointments) :
    Spec.NoOverlap (self.createNewAppointment formValid form during now).appointments := by
  unfold createNewAppointment
  cases formValid
  · simpa using h
  · simp only [Bool.not_true, Bool.false_eq_true, if_false]
    cases hv : validateTimeSlot self.appointments form.date form.time 60 none
    · simpa using h
    · simp only [Bool.not_true, Bool.false_eq_true, if_false, createNewAppointmentAPI]
      cases JS.find (fun p => p.id == form.patientId) self.patients with
      | none => exact h
      | some patient =>
        simp only [renderAppointmentsTable, updatePagination, hAlone]
        exact h.append (fun a ha =>
          not_conflict_of_validateTimeSlot hv ha (by simp) rfl rfl)

theorem updateAppointment_noOverlap (self : AppointmentManager) (formValid : Bool)
    (appointmentId : String) (form : FormData)
    (during : AppointmentManager → AppointmentManager)
    (h : Spec.NoOverlap self.appointments)
    (hAlone : (during self).appointments = self.appointments)
    (hId : self.appointments.countP (fun a => a.id == appointmentId) ≤ 1) :
    Spec.NoOverlap (self.updateAppointment formValid appointmentId form during).appointments := by
  unfold updateAppointment
  cases formValid
  · simpa using h
  · simp only [Bool.not_true, Bool.false_eq_true, if_false]
    cases hv : validateTimeSlot self.appointments form.date form.time 60 (some appointmentId)
    · simpa using h
    · simp only [Bool.not_true, Bool.false_eq_true, if_false, updateAppointmentAPI]
      cases hp : JS.find (fun p => p.id == form.patientId) self.patients with
      | none => exact h
      | some patient =>
        simp only [hAlone]
        cases hf : JS.findIndex (fun apt => apt.id == appointmentId) self.appointments with
        | none => simpa only [hf, hAlone] using h
        | some i =>
          obtain ⟨hi, -, huniq⟩ := JS.findIndex_spec _ _ i hf
          cases hg : self.appointments.get? i with
          | none => simpa only [hf, hg, hAlone] using h
          | some original =>
            simp only [hf, hg, renderAppointmentsTable, updatePagination]
            refine h.set i (fun j hj hne => ?_)
            have hjid := huniq hId j hj hne
            exact not_conflict_of_validateTimeSlot hv (List.getElem_mem hj)
              (by simpa using hjid) rfl rfl

theorem rescheduleAppointment_noOverlap (self : AppointmentManager) (formValid : Bool)
    (appointmentId newDate newTime reason : String)
    (during : AppointmentManager → AppointmentManager)
    (h : Spec.NoOverlap self.appointments)
    (hAlone : (during self).appointments = self.appointments)
    (hId : self.appointments.countP (fun a => a.id == appointmentId) ≤ 1) :
    Spec.NoOverlap
      (self.rescheduleAppointment formValid appointmentId newDate newTime reason
        during).appointments := by
  unfold rescheduleAppointment
  cases formValid
  · simpa using h
  · simp only [Bool.not_true, Bool.false_eq_true, if_false]
    cases hv : validateTimeSlot self.appointments newDate newTime 60 (some appointmentId)
    · simpa using h
    · simp only [Bool.not_true, Bool.false_eq_true, if_false, rescheduleAppointmentAPI, hAlone]
      cases hf : JS.findIndex (fun apt => apt.id == appointmentId) self.appointments with
      | none => simpa only [hf, hAlone] using h
      | some i =>
        obtain ⟨hi, -, huniq⟩ := JS.findIndex_spec _ _ i hf
        cases hg : self.appointments.get? i with
        | none => simpa only [hf, hg, hAlone] using h
        | some original =>
          simp only [hf, hg, renderAppointmentsTable, updatePagination]
          refine h.set i (fun j hj hne => ?_)
          have hjid := huniq hId j hj hne
          exact not_conflict_of_validateTimeSlot hv (List.getElem_mem hj)
            (by simpa using hjid) rfl rfl

theorem cancelAppointmentAPI_noOverlap (self : AppointmentManager) (appointmentId : String)
    (during : AppointmentManager → AppointmentManager)
    (h : Spec.NoOverlap (during self).appointments) :
    Spec.NoOverlap (self.cancelAppointmentAPI appointmentId during).1.appointments := by
  unfold cancelAppointmentAPI
  simp only []
  cases hf : JS.findIndex (fun apt => apt.id == appointmentId) (during self).appointments with
  | none => exact h
  | some i =>
    cases hg : (during self).appointments.get? i with
    | none => simpa only [hf, hg] using h
    | some original =>
      simp only [hf, hg, renderAppointmentsTable, updatePagination]
      exact h.set i (fun j hj _ => Spec.not_conflict_of_cancelled _ _ rfl)

end AppointmentManager

namespace AppointmentManager

/-- C4, the sentence as written fails: the only appointment, id `7`, is at 10:00.
A new appointment at 14:00 passes its check; while it waits for its timer, a
reschedule of `7` to 14:00 passes its check on the same list; the new
appointment is written first, then `7` is moved onto its hour. -/
theorem interleaved_mutations_overlap :
    Spec.NoOverlap Sample.oneBooked.appointments ∧
    validateTimeSlot Sample.oneBooked.appointments "2024-01-15" "14:00" 60 none = true ∧
    validateTimeSlot Sample.oneBooked.appointments "2024-01-15" "14:00" 60 (some "7") = true ∧
    (Sample.oneBooked.rescheduleAppointment true "7" "2024-01-15" "14:00" ""
        (fun manager => manager.createNewAppointment true Sample.formAtTwo id
          1705312800000)).appointments.map
      (fun apt => (apt.id, apt.date, apt.time, apt.status))
      = [("7", "2024-01-15", "14:00", "scheduled"),
         ("1705312800000", "2024-01-15", "14:00", "scheduled")] ∧
    ¬ Spec.NoOverlap
      (Sample.oneBooked.rescheduleAppointment true "7" "2024-01-15" "14:00" ""
        (fun manager => manager.createNewAppointment true Sample.formAtTwo id
          1705312800000)).appointments := by
  have e : (Sample.oneBooked.rescheduleAppointment true "7" "2024-01-15" "14:00" ""
        (fun manager => manager.createNewAppointment true Sample.formAtTwo id
          1705312800000)).appointments
      = [formatAppointment (Sample.appointment "7" "2024-01-15" "14:00" "scheduled"),
         formatAppointment
           { id := "1705312800000", patientId := "1", date := "2024-01-15", time := "14:00",
             service := "Checkup", status := "scheduled", duration := 60, notes := "",
             patient := some { id := "1", name := "John Smith", email := "john@example.com",
                               phone := "555-0101" },
             patientName := none, patientEmail := none, patientPhone := none }] := by
    decide
  refine ⟨List.pairwise_singleton _ _, by decide, by decide, by rw [e]; decide, ?_⟩
  rw [e]
  intro hno
  have hpair := (List.pairwise_cons.mp hno).1 _ (List.mem_singleton.mpr rfl)
  exact hpair ⟨rfl, by decide, by decide, 1705327200000, 1705327200000, by decide, by decide,
    by decide, by decide⟩

/-- C4, amended. When nothing else changes the list of appointments between the
check of a mutation and its write, and no other appointment shares the id of
the appointment being edited, `createNewAppointment`, `updateAppointment`,
`rescheduleAppointment` and `cancelAppointmentAPI` keep the no-overlap
invariant, whether they commit or reject. -/
theorem mutations_preserve_noOverlap (self : AppointmentManager) (formValid : Bool)
    (form : FormData) (now : Nat) (appointmentId newDate newTime reason : String)
    (during : AppointmentManager → AppointmentManager)
    (h : Spec.NoOverlap self.appointments)
    (hAlone : (during self).appointments = self.appointments)
    (hId : self.appointments.countP (fun a => a.id == appointmentId) ≤ 1) :
    Spec.NoOverlap (self.createNewAppointment formValid form during now).appointments ∧
    Spec.NoOverlap (self.updateAppointment formValid appointmentId form during).appointments ∧
    Spec.NoOverlap
      (self.rescheduleAppointment formValid appointmentId newDate newTime reason
        during).appointments ∧
    Spec.NoOverlap (self.cancelAppointmentAPI appointmentId during).1.appointments :=
  ⟨createNewAppointment_noOverlap self formValid form during now h hAlone,
   updateAppointment_noOverlap self formValid appointmentId form during h hAlone hId,
   rescheduleAppointment_noOverlap self formValid appointmentId newDate newTime reason during h
     hAlone hId,
   cancelAppointmentAPI_noOverlap self appointmentId during (by rw [hAlone]; exact h)⟩

/-- Rescheduling the only appointment to 14:00, with nothing else running,
commits and keeps the invariant. -/
theorem mutations_preserve_noOverlap_witness :
    (Sample.oneBooked.rescheduleAppointment true "7" "2024-01-15" "14:00" "" id).appointments
      = [Sample.appointment "7" "2024-01-15" "14:00" "scheduled" |> formatAppointment] ∧
    Spec.NoOverlap
      (Sample.oneBooked.rescheduleAppointment true "7" "2024-01-15" "14:00" "" id).appointments :=
  ⟨by decide,
   (mutations_preserve_noOverlap Sample.oneBooked true
      { patientId := "1", date := "2024-01-15", time := "14:00", service := "Checkup",
        duration := 60, notes := "", status := "scheduled" } 0 "7" "2024-01-15" "14:00" "" id
      (List.pairwise_singleton _ _) rfl (by decide)).2.2.1⟩

/-- Why the edited id must occur once: with two appointments of id `1`,
rescheduling id `1` onto the day and time of the second passes
`validateTimeSlot`, which leaves out both, and rewrites the first. -/
theorem reschedule_shared_id_overlaps :
    Spec.NoOverlap Sample.sharedId.appointments ∧
    validateTimeSlot Sample.sharedId.appointments "2024-01-16" "10:00" 60 (some "1") = true ∧
    ¬ Spec.NoOverlap
      (Sample.sharedId.rescheduleAppointment true "1" "2024-01-16" "10:00" "" id).appointments := by
  refine ⟨?_, by decide, ?_⟩
  · have hd : ¬ (Sample.appointment "1" "2024-01-15" "10:00" "scheduled").date =
        (Sample.appointment "1" "2024-01-16" "10:00" "scheduled").date := by decide
    simp only [Spec.NoOverlap, Sample.sharedId, Sample.manager, List.pairwise_cons,
      List.mem_singleton, forall_eq, List.not_mem_nil, List.Pairwise.nil, and_true]
    exact ⟨fun hc => hd hc.1, fun _ h => False.elim h⟩
  · have e : (Sample.sharedId.rescheduleAppointment true "1" "2024-01-16" "10:00" ""
          id).appointments
        = [formatAppointment (Sample.appointment "1" "2024-01-16" "10:00" "scheduled"),
           Sample.appointment "1" "2024-01-16" "10:00" "scheduled"] := by decide
    rw [e]
    intro hno
    have hpair := (List.pairwise_cons.mp hno).1 _ (List.mem_singleton.mpr rfl)
    exact hpair ⟨rfl, by decide, by decide, 1705399200000, 1705399200000, by decide, by decide,
      by decide, by decide⟩

end AppointmentManager

/-! ## Search and filters -/

namespace JS

theorem includesChars_iff (sub s : List Char) : includesChars sub s = true ↔ sub <:+: s := by
  induction s with
  | nil => simp [includesChars, List.isEmpty_iff]
  | cons c cs ih =>
    simp only [includesChars, Bool.or_eq_true, ih, List.isPrefixOf_iff_prefix]
    exact List.infix_cons_iff.symm

theorem includes_iff (s sub : String) : includes s sub = true ↔ sub.data <:+: s.data :=
  includesChars_iff sub.data s.data

theorem includes_toLowerCase_iff (s q : String) :
    includes (toLowerCase s) (toLowerCase q) = true ↔ Spec.CaseInsensitiveSubstring q s :=
  includes_iff _ _

end JS

namespace UserManagement

theorem matchesFilters_iff (filters : UserFilters) (u : User) :
    matchesFilters filters u = true ↔ Spec.UserMatches filters u := by
  simp only [matchesFilters, Spec.UserMatches, Bool.and_eq_true, Bool.or_eq_true, beq_iff_eq,
    JS.includes_toLowerCase_iff, or_assoc, and_assoc]

end UserManagement

namespace AdminDashboard

theorem matchesSearch_iff (query : String) (p : PatientRecord) :
    matchesSearch (JS.toLowerCase query) p = true ↔
      Spec.NameMatches query p.first_name p.last_name ∨ Spec.PatientOtherFieldMatches query p := by
  have hphone : (p.phone.map (fun phone => JS.includes phone (JS.toLowerCase query))).getD false
      = true ↔ ∃ phone, p.phone = some phone ∧ (JS.toLowerCase query).data <:+: phone.data := by
    cases p.phone with
    | none => simp
    | some ph => simp [JS.includes_iff]
  simp only [matchesSearch, Bool.or_eq_true, JS.includes_toLowerCase_iff, hphone,
    Spec.NameMatches, Spec.PatientOtherFieldMatches, or_assoc]

theorem decide_nameMatches (q firstName lastName : String) :
    decide (Spec.NameMatches q firstName lastName) =
      (JS.includes (JS.toLowerCase firstName) (JS.toLowerCase q) ||
        JS.includes (JS.toLowerCase lastName) (JS.toLowerCase q)) := by
  rw [Bool.eq_iff_iff, decide_eq_true_iff, Bool.or_eq_true, JS.includes_toLowerCase_iff,
    JS.includes_toLowerCase_iff]
  rfl

/-- C6 (as stated) fails: `ann` is a substring of the name of one patient (and
of one user) only, yet the search returns two, because the email of the other
contains it. -/
theorem search_unique_name_two_results :
    JS.trimIsEmpty "ann" = false ∧
    (Sample.dashboard.patients.filter
      (fun p => decide (Spec.NameMatches "ann" p.first_name p.last_name))).length = 1 ∧
    (Sample.dashboard.handlePatientSearch "ann").filteredPatients.length = 2 ∧
    (Sample.staff.users.filter
      (fun u => decide (Spec.NameMatches "ann" u.first_name u.last_name))).length = 1 ∧
    Sample.staff.applyFilters.filteredUsers.length = 2 := by
  simp only [decide_nameMatches]
  decide

/-- C6 (as amended). When a non-blank query is a case-insensitive substring of
the first or last name of exactly one patient, and matches no other patient
through the phone, email or id, `handlePatientSearch` leaves exactly one patient;
likewise `applyFilters` with that search and both dropdowns on `all` leaves
exactly one user when the query matches no other user through the email. -/
theorem search_unique_name_one_result (self : AdminDashboard) (um : UserManagement)
    (query : String) (hq : JS.trimIsEmpty query = false)
    (hone : (self.patients.filter
      (fun p => decide (Spec.NameMatches query p.first_name p.last_name))).length = 1)
    (hother : ∀ p ∈ self.patients, Spec.PatientOtherFieldMatches query p →
      Spec.NameMatches query p.first_name p.last_name)
    (hfilters : um.filters = { search := query, role := "all", status := "all" })
    (houe : (um.users.filter
      (fun u => decide (Spec.NameMatches query u.first_name u.last_name))).length = 1)
    (huother : ∀ u ∈ um.users, Spec.CaseInsensitiveSubstring query u.email →
      Spec.NameMatches query u.first_name u.last_name) :
    (self.handlePatientSearch query).filteredPatients.length = 1 ∧
    um.applyFilters.filteredUsers.length = 1 := by
  constructor
  · rw [← hone]
    simp only [handlePatientSearch, hq, Bool.false_eq_true, if_false]
    congr 1
    apply List.filter_congr
    intro p hp
    rw [Bool.eq_iff_iff, matchesSearch_iff, decide_eq_true_iff]
    exact ⟨fun h => h.elim id (hother p hp), Or.inl⟩
  · have hne : query ≠ "" := by
      rintro rfl
      exact absurd hq (by decide)
    rw [← houe]
    simp only [UserManagement.applyFilters]
    congr 1
    apply List.filter_congr
    intro u hu
    rw [Bool.eq_iff_iff, UserManagement.matchesFilters_iff, decide_eq_true_iff, hfilters]
    simp only [Spec.UserMatches, hne, false_or, true_or, and_true]
    constructor
    · rintro (h | h | h)
      · exact Or.inl h
      · exact Or.inr h
      · exact huother u hu h
    · rintro (h | h)
      · exact Or.inl h
      · exact Or.inr (Or.inl h)

/-- The query `lee` finds one patient and one user. -/
theorem search_unique_name_one_result_witness :
    (Sample.dashboard.handlePatientSearch "lee").filteredPatients.length = 1 ∧
    ({ Sample.staff with filters := { search := "lee", role := "all", status := "all" } }
      : UserManagement).applyFilters.filteredUsers.length = 1 :=
  search_unique_name_one_result Sample.dashboard
    { Sample.staff with filters := { search := "lee", role := "all", status := "all" } } "lee"
    (by decide)
    (by simp only [decide_nameMatches]; decide)
    (by
      intro p hp hO
      simp only [Sample.dashboard, List.mem_cons, List.mem_singleton, List.not_mem_nil,
        or_false] at hp
      rcases hp with rfl | rfl
      · exact of_decide_eq_true (by rw [decide_nameMatches]; decide)
      · exact absurd ((matchesSearch_iff "lee" _).mpr (Or.inr hO)) (by decide))
    rfl
    (by simp only [decide_nameMatches]; decide)
    (by
      intro u hu hE
      simp only [Sample.staff, List.mem_cons, List.mem_singleton, List.not_mem_nil,
        or_false] at hu
      rcases hu with rfl | rfl
      · exact of_decide_eq_true (by rw [decide_nameMatches]; decide)
      · exact absurd ((JS.includes_toLowerCase_iff _ _).mpr hE) (by decide))

end AdminDashboard

/-! ## Bulk selection -/

namespace JS

theorem mem_foldl_setAdd {α : Type} (f : α → String) (xs : List α) (s : List String)
    (x : String) :
    x ∈ xs.foldl (fun acc a => setAdd acc (f a)) s ↔ x ∈ s ∨ x ∈ xs.map f := by
  induction xs generalizing s with
  | nil => simp
  | cons a as ih =>
    rw [List.foldl_cons, ih, List.map_cons, List.mem_cons]
    unfold setAdd
    split_ifs with h
    · constructor
      · rintro (h1 | h1)
        · exact Or.inl h1
        · exact Or.inr (Or.inr h1)
      · rintro (h1 | h1 | h1)
        · exact Or.inl h1
        · exact Or.inl (h1 ▸ h)
        · exact Or.inr h1
    · rw [List.mem_append, List.mem_singleton]
      tauto

theorem mem_foldl_setDelete {α : Type} (f : α → String) (xs : List α) (s : List String)
    (x : String) :
    x ∈ xs.foldl (fun acc a => setDelete acc (f a)) s ↔ x ∈ s ∧ x ∉ xs.map f := by
  induction xs generalizing s with
  | nil => simp
  | cons a as ih =>
    rw [List.foldl_cons, ih, List.map_cons, List.mem_cons]
    simp only [setDelete, List.mem_filter, bne_iff_ne, ne_eq]
    tauto

theorem foldl_setAdd_nil {α : Type} (f : α → String) (xs : List α) (s : List String)
    (hs : s.Nodup) (hx : (xs.map f).Nodup) (hdisj : ∀ x ∈ xs.map f, x ∉ s) :
    xs.foldl (fun acc a => setAdd acc (f a)) s = s ++ xs.map f := by
  induction xs generalizing s with
  | nil => simp
  | cons a as ih =>
    rw [List.map_cons, List.nodup_cons] at hx
    have ha : f a ∉ s := hdisj (f a) (by simp)
    rw [List.foldl_cons]
    have hadd : setAdd s (f a) = s ++ [f a] := by simp [setAdd, ha]
    rw [hadd, ih (s ++ [f a])]
    · simp
    · rw [List.nodup_append]
      refine ⟨hs, List.nodup_singleton _, ?_⟩
      intro y hy hy'
      rw [List.mem_singleton] at hy'
      exact ha (hy' ▸ hy)
    · exact hx.2
    · intro y hy
      rw [List.mem_append, List.mem_singleton]
      rintro (h | h)
      · exact hdisj y (by simp [hy]) h
      · exact hx.1 (h ▸ hy)

end JS

namespace UserManagement

/-- C7. `toggleSelectAll(true)` selects the ids of the users on the current page
in addition to the earlier selection, `toggleSelectAll(false)` removes exactly
those ids, ids that are not on the page keep their membership, and from an
empty selection the result is the list of the `K` distinct ids on the page. -/
theorem toggleSelectAll_current_page (self : UserManagement) (id : String)
    (hDistinct : (self.getCurrentPageUsers.map (fun u => u.id)).Nodup) :
    (id ∈ (self.toggleSelectAll true).selectedUsers ↔
      id ∈ self.selectedUsers ∨ id ∈ self.getCurrentPageUsers.map (fun u => u.id)) ∧
    (id ∈ (self.toggleSelectAll false).selectedUsers ↔
      id ∈ self.selectedUsers ∧ id ∉ self.getCurrentPageUsers.map (fun u => u.id)) ∧
    (id ∉ self.getCurrentPageUsers.map (fun u => u.id) →
      (id ∈ (self.toggleSelectAll true).selectedUsers ↔ id ∈ self.selectedUsers) ∧
      (id ∈ (self.toggleSelectAll false).selectedUsers ↔ id ∈ self.selectedUsers)) ∧
    (self.selectedUsers = [] →
      (self.toggleSelectAll true).selectedUsers = self.getCurrentPageUsers.map (fun u => u.id) ∧
      (self.toggleSelectAll true).selectedUsers.length = self.getCurrentPageUsers.length) := by
  have hT : id ∈ (self.toggleSelectAll true).selectedUsers ↔
      id ∈ self.selectedUsers ∨ id ∈ self.getCurrentPageUsers.map (fun u => u.id) := by
    simp only [toggleSelectAll, if_true]
    exact JS.mem_foldl_setAdd _ _ _ _
  have hF : id ∈ (self.toggleSelectAll false).selectedUsers ↔
      id ∈ self.selectedUsers ∧ id ∉ self.getCurrentPageUsers.map (fun u => u.id) := by
    simp only [toggleSelectAll, Bool.false_eq_true, if_false]
    exact JS.mem_foldl_setDelete _ _ _ _
  refine ⟨hT, hF, ?_, ?_⟩
  · intro hout
    rw [hT, hF]
    exact ⟨⟨fun h => h.elim (fun h1 => h1) (fun h2 => absurd h2 hout), Or.inl⟩,
      ⟨fun h => h.1, fun h => ⟨h, hout⟩⟩⟩
  · intro hempty
    have e : (self.toggleSelectAll true).selectedUsers
        = self.getCurrentPageUsers.map (fun u => u.id) := by
      simp only [toggleSelectAll, if_true, hempty]
      rw [JS.foldl_setAdd_nil _ _ [] List.nodup_nil hDistinct (by simp)]
      simp
    exact ⟨e, by rw [e, List.length_map]⟩

/-- Page 2 of seven users, three on a page: select-all selects the ids 3, 4 and 5. -/
theorem toggleSelectAll_current_page_witness :
    ((Sample.userPage 7 3 2).toggleSelectAll true).selectedUsers = ["3", "4", "5"] :=
  ((toggleSelectAll_current_page (Sample.userPage 7 3 2) "3" (by decide)).2.2.2 rfl).1.trans
    (by decide)

end UserManagement

/-! ## Debounce -/

namespace Utils.Debounce

variable {α : Type}

/-- State in the middle of a burst: one timer pending, set by the latest call. -/
theorem advance_pending (k t wait now : Nat) (a : α) (inv : List (Nat × α))
    (h : now < t + wait) :
    advance { timeout := some k, timers := [{ id := k, due := t + wait, args := a }],
              nextId := k + 1, invoked := inv } now
      = { timeout := some k, timers := [{ id := k, due := t + wait, args := a }],
          nextId := k + 1, invoked := inv } := by
  have hn : ¬ t + wait ≤ now := by omega
  simp [advance, runTimers, nextDue, hn]

theorem executedFunction_pending (k t wait now : Nat) (a b : α) (inv : List (Nat × α)) :
    executedFunction wait
      { timeout := some k, timers := [{ id := k, due := t + wait, args := a }],
        nextId := k + 1, invoked := inv } now b
      = { timeout := some (k + 1), timers := [{ id := k + 1, due := now + wait, args := b }],
          nextId := k + 1 + 1, invoked := inv } := by
  simp [executedFunction, clearTimeout]

theorem calls_burst (wait : Nat) (events : List (Nat × α)) (k t : Nat) (a : α)
    (inv : List (Nat × α))
    (h : List.Chain (fun e1 e2 => e1.1 ≤ e2.1 ∧ e2.1 < e1.1 + wait) (t, a) events) :
    ∃ k2, calls wait
      { timeout := some k, timers := [{ id := k, due := t + wait, args := a }],
        nextId := k + 1, invoked := inv } events
      = { timeout := some k2,
          timers := [{ id := k2,
                       due := (((t, a) :: events).getLast (List.cons_ne_nil _ _)).1 + wait,
                       args := (((t, a) :: events).getLast (List.cons_ne_nil _ _)).2 }],
          nextId := k2 + 1, invoked := inv } := by
  induction events generalizing k t a with
  | nil => exact ⟨k, rfl⟩
  | cons e rest ih =>
    obtain ⟨t2, b⟩ := e
    rw [List.chain_cons] at h
    obtain ⟨⟨-, hlt⟩, hrest⟩ := h
    simp only [calls]
    rw [advance_pending k t wait t2 a inv hlt, executedFunction_pending]
    obtain ⟨k2, hk2⟩ := ih (k + 1) t2 b hrest
    refine ⟨k2, ?_⟩
    rw [hk2, List.getLast_cons (List.cons_ne_nil _ _)]

theorem settle_pending (k t wait : Nat) (a : α) :
    (advance { timeout := some k, timers := [{ id := k, due := t + wait, args := a }],
               nextId := k + 1, invoked := ([] : List (Nat × α)) }
      (horizon { timeout := some k, timers := [{ id := k, due := t + wait, args := a }],
                 nextId := k + 1, invoked := ([] : List (Nat × α)) })).invoked
      = [(t + wait, a)] := by
  simp [advance, runTimers, nextDue, horizon, later, clearTimeout]

theorem calls_cons_init (wait t : Nat) (a : α) (rest : List (Nat × α)) :
    calls wait init ((t, a) :: rest)
      = calls wait { timeout := some 1, timers := [{ id := 1, due := t + wait, args := a }],
                     nextId := 1 + 1, invoked := [] } rest := by
  simp [calls, init, advance, runTimers, executedFunction, clearTimeout]

/-- A burst of calls, each less than `wait` after the one before: `func` has not
run when the last call returns, and runs once, `wait` after the last call, with
the arguments of the last call. -/
theorem run_burst (wait t : Nat) (a : α) (rest : List (Nat × α))
    (h : List.Chain (fun e1 e2 => e1.1 ≤ e2.1 ∧ e2.1 < e1.1 + wait) (t, a) rest) :
    (calls wait init ((t, a) :: rest)).invoked = [] ∧
    run wait ((t, a) :: rest)
      = [((((t, a) :: rest).getLast (List.cons_ne_nil _ _)).1 + wait,
          (((t, a) :: rest).getLast (List.cons_ne_nil _ _)).2)] := by
  obtain ⟨k2, hk2⟩ := calls_burst wait rest 1 t a [] h
  unfold run
  simp only []
  rw [calls_cons_init, hk2]
  exact ⟨rfl, settle_pending k2 _ wait _⟩

end Utils.Debounce

namespace Utils

/-- C8. Three calls of a function debounced by 300 ms at times `t1 < t2 < t3`
with `t3 - t1 < 300` and none after: `func` runs once, at `t3 + 300`, with the
arguments of the third call; and in any burst of calls less than `wait` apart
`func` has not run by the time of the last call. -/
theorem debounce_three_calls_one_invocation {α : Type} (t1 t2 t3 : Nat) (a1 a2 a3 : α)
    (wait t : Nat) (a : α) (rest : List (Nat × α))
    (h12 : t1 < t2) (h23 : t2 < t3) (h13 : t3 - t1 < 300)
    (hBurst : List.Chain (fun e1 e2 => e1.1 ≤ e2.1 ∧ e2.1 < e1.1 + wait) (t, a) rest) :
    Debounce.run 300 [(t1, a1), (t2, a2), (t3, a3)] = [(t3 + 300, a3)] ∧
    (Debounce.calls wait Debounce.init ((t, a) :: rest)).invoked = [] := by
  refine ⟨?_, (Debounce.run_burst wait t a rest hBurst).1⟩
  have hchain : List.Chain (fun e1 e2 : Nat × α => e1.1 ≤ e2.1 ∧ e2.1 < e1.1 + 300)
      (t1, a1) [(t2, a2), (t3, a3)] := by
    refine List.Chain.cons ⟨?_, ?_⟩ (List.Chain.cons ⟨?_, ?_⟩ List.Chain.nil)
    all_goals simp only []
    all_goals omega
  exact (Debounce.run_burst 300 t1 a1 _ hchain).2

/-- Keystrokes at 0, 100 and 250 ms: one call at 550 ms with the last value. -/
theorem debounce_three_calls_one_invocation_witness :
    Debounce.run 300 [(0, "c"), (100, "cl"), (250, "cle")] = [(550, "cle")] :=
  (debounce_three_calls_one_invocation 0 100 250 "c" "cl" "cle" 300 0 "c" []
    (by decide) (by decide) (by decide) List.Chain.nil).1

end Utils

/-! ## The slot list -/

namespace AppointmentManager

/-- C9. `generateTimeSlots` returns 22 slots, from `08:00` in steps of 30
minutes; the inner loop also runs in hour 18, so that the last slot is `18:30`,
half an hour after 18:00. -/
theorem generateTimeSlots_last_is_half_past_six :
    generateTimeSlots.head? = some "08:00" ∧
    generateTimeSlots.map JS.clockMinutes
      = (List.range 22).map (fun i => some (8 * 60 + 30 * i)) ∧
    generateTimeSlots.getLast? = some "18:30" ∧
    "18:00" ∈ generateTimeSlots ∧
    JS.clockMinutes "18:30" = some (18 * 60 + 30) := by
  decide

end AppointmentManager

/-! ## Buttons of the admin dashboard -/

namespace AdminDashboard

/-- C10. After a list of five patients is loaded with five patients on a page,
`updatePagination` counts one page, shows the page number 1 only and disables
both buttons; and on any page from 1 to `totalPages` the Next button is
disabled exactly when no page follows the current one. -/
theorem updatePagination_single_page (self : AdminDashboard) (patients : List PatientRecord)
    (ad : AdminDashboard) (hLen : patients.length = 5) (hPer : self.patientsPerPage = 5)
    (hLow : 1 ≤ ad.currentPage) (hHigh : ad.currentPage ≤ ad.updatePagination.totalPages) :
    ((self.updateRecentPatients patients).updatePagination
      = { totalPages := 1, prevDisabled := true, nextDisabled := true, pageNumbers := [1] }) ∧
    (self.updateRecentPatients patients).renderPatients = patients ∧
    (ad.updatePagination.nextDisabled = true ↔
      ¬ ∃ q, ad.currentPage < q ∧ q ≤ ad.updatePagination.totalPages) := by
  refine ⟨?_, ?_, ?_⟩
  · simp only [updateRecentPatients, updatePagination, hLen, hPer]
    decide
  · simp only [updateRecentPatients, renderPatients, hLen, hPer, JS.slice]
    simp [← hLen]
  · simp only [updatePagination] at hHigh ⊢
    simp only [Bool.or_eq_true, beq_iff_eq]
    constructor
    · rintro (h | h)
      · rintro ⟨q, h1, h2⟩; omega
      · omega
    · intro h
      left
      by_contra hne
      exact h ⟨ad.currentPage + 1, by omega, by omega⟩

/-- Five patients loaded on the dashboard of the sample, and its page 1 of 1. -/
theorem updatePagination_single_page_witness :
    ((Sample.dashboard.updateRecentPatients (List.replicate 5 Sample.patient)).updatePagination
      = { totalPages := 1, prevDisabled := true, nextDisabled := true, pageNumbers := [1] }) :=
  (updatePagination_single_page Sample.dashboard (List.replicate 5 Sample.patient)
    (Sample.dashboard.updateRecentPatients (List.replicate 5 Sample.patient))
    (by decide) (by decide) (by decide) (by decide)).1

end AdminDashboard

/-! ## Page navigation -/

namespace JS

theorem ceilDiv_zero (P : Nat) (hP : 0 < P) : ceilDiv 0 P = 0 := by
  unfold ceilDiv
  exact Nat.div_eq_of_lt (by omega)

theorem ceilDiv_eq_ceil_of_pos (N P : Nat) (hP : 0 < P) :
    ceilDiv N P = ⌈(N : ℚ) / (P : ℚ)⌉₊ := by
  rcases Nat.eq_zero_or_pos N with rfl | hN
  · rw [ceilDiv_zero P hP]; simp
  · exact ceilDiv_eq_ceil N P hN hP

end JS

namespace AdminDashboard

theorem admin_step_clamped (self : AdminDashboard) (a : Action)
    (h : 1 ≤ self.currentPage ∧
      self.currentPage ≤ max 1 (JS.ceilDiv self.filteredPatients.length self.patientsPerPage)) :
    1 ≤ (self.step a).currentPage ∧
    (self.step a).currentPage ≤
      max 1 (JS.ceilDiv (self.step a).filteredPatients.length (self.step a).patientsPerPage) ∧
    (self.step a).patientsPerPage = self.patientsPerPage := by
  cases a with
  | nextPage =>
    simp only [step, nextPage, goToPage]
    split_ifs with hlt
    · exact ⟨by simp, by simp only []; omega, rfl⟩
    · exact ⟨h.1, h.2, rfl⟩
  | previousPage =>
    simp only [step, previousPage, goToPage]
    split_ifs with hgt
    · exact ⟨by simp only []; omega, by simp only []; omega, rfl⟩
    · exact ⟨h.1, h.2, rfl⟩
  | search query =>
    simp only [step, handlePatientSearch]
    split_ifs <;> exact ⟨le_refl 1, le_max_left _ _, rfl⟩

theorem admin_run_clamped (self : AdminDashboard) (actions : List Action)
    (h : 1 ≤ self.currentPage ∧
      self.currentPage ≤ max 1 (JS.ceilDiv self.filteredPatients.length self.patientsPerPage)) :
    1 ≤ (self.run actions).currentPage ∧
    (self.run actions).currentPage ≤
      max 1 (JS.ceilDiv (self.run actions).filteredPatients.length
        (self.run actions).patientsPerPage) ∧
    (self.run actions).patientsPerPage = self.patientsPerPage := by
  induction actions generalizing self with
  | nil => exact ⟨h.1, h.2, rfl⟩
  | cons a rest ih =>
    obtain ⟨h1, h2, h3⟩ := admin_step_clamped self a h
    obtain ⟨k1, k2, k3⟩ := ih (self.step a) ⟨h1, h2⟩
    exact ⟨k1, k2, k3.trans h3⟩

end AdminDashboard

namespace UserManagement

theorem user_step_clamped (self : UserManagement) (a : Action)
    (h : 1 ≤ self.currentPage ∧
      self.currentPage ≤ max 1 (JS.ceilDiv self.filteredUsers.length self.usersPerPage)) :
    1 ≤ (self.step a).currentPage ∧
    (self.step a).currentPage ≤
      max 1 (JS.ceilDiv (self.step a).filteredUsers.length (self.step a).usersPerPage) ∧
    (self.step a).usersPerPage = self.usersPerPage := by
  cases a with
  | nextPage =>
    simp only [step, nextPage, goToPage]
    split_ifs with hlt
    · exact ⟨by simp, by simp only []; omega, rfl⟩
    · exact ⟨h.1, h.2, rfl⟩
  | previousPage =>
    simp only [step, previousPage, goToPage]
    split_ifs with hgt
    · exact ⟨by simp only []; omega, by simp only []; omega, rfl⟩
    · exact ⟨h.1, h.2, rfl⟩
  | search value => exact ⟨le_refl 1, le_max_left _ _, rfl⟩
  | role value => exact ⟨le_refl 1, le_max_left _ _, rfl⟩
  | status value => exact ⟨le_refl 1, le_max_left _ _, rfl⟩

theorem user_run_clamped (self : UserManagement) (actions : List Action)
    (h : 1 ≤ self.currentPage ∧
      self.currentPage ≤ max 1 (JS.ceilDiv self.filteredUsers.length self.usersPerPage)) :
    1 ≤ (self.run actions).currentPage ∧
    (self.run actions).currentPage ≤
      max 1 (JS.ceilDiv (self.run actions).filteredUsers.length
        (self.run actions).usersPerPage) ∧
    (self.run actions).usersPerPage = self.usersPerPage := by
  induction actions generalizing self with
  | nil => exact ⟨h.1, h.2, rfl⟩
  | cons a rest ih =>
    obtain ⟨h1, h2, h3⟩ := user_step_clamped self a h
    obtain ⟨k1, k2, k3⟩ := ih (self.step a) ⟨h1, h2⟩
    exact ⟨k1, k2, k3.trans h3⟩

end UserManagement

namespace TableComponent

variable {α : Type}

theorem table_step_clamped (values : α → List String) (self : TableComponent α) (a : Action)
    (h : 1 ≤ self.currentPage ∧
      self.currentPage ≤ max 1 (JS.ceilDiv self.filteredData.length self.pageSize)) :
    1 ≤ (step values self a).currentPage ∧
    (step values self a).currentPage ≤
      max 1 (JS.ceilDiv (step values self a).filteredData.length (step values self a).pageSize) ∧
    (step values self a).pageSize = self.pageSize := by
  cases a with
  | nextPage =>
    simp only [step, nextPage]
    split_ifs with hlt
    · exact ⟨by simp, by simp only []; omega, rfl⟩
    · exact ⟨h.1, h.2, rfl⟩
  | previousPage =>
    simp only [step, previousPage]
    split_ifs with hgt
    · exact ⟨by simp only []; omega, by simp only []; omega, rfl⟩
    · exact ⟨h.1, h.2, rfl⟩
  | search query =>
    simp only [step, handleSearch]
    split_ifs <;> exact ⟨le_refl 1, le_max_left _ _, rfl⟩

theorem table_run_clamped (values : α → List String) (self : TableComponent α)
    (actions : List Action)
    (h : 1 ≤ self.currentPage ∧
      self.currentPage ≤ max 1 (JS.ceilDiv self.filteredData.length self.pageSize)) :
    1 ≤ (run values self actions).currentPage ∧
    (run values self actions).currentPage ≤
      max 1 (JS.ceilDiv (run values self actions).filteredData.length
        (run values self actions).pageSize) ∧
    (run values self actions).pageSize = self.pageSize := by
  induction actions generalizing self with
  | nil => exact ⟨h.1, h.2, rfl⟩
  | cons a rest ih =>
    obtain ⟨h1, h2, h3⟩ := table_step_clamped values self a h
    obtain ⟨k1, k2, k3⟩ := ih (step values self a) ⟨h1, h2⟩
    exact ⟨k1, k2, k3.trans h3⟩

end TableComponent

/-- C11. Starting on page 1, every sequence of Next, Previous and search or
filter actions on the admin dashboard, the user list and the generic table
keeps `1 ≤ currentPage ≤ max(1, totalPages)` with `totalPages = ceil(filtered
length / page size)`; Next on the last page and Previous on page 1 change
nothing. -/
theorem navigation_clamps {α : Type} (ad : AdminDashboard) (um : UserManagement)
    (tc : TableComponent α) (values : α → List String)
    (adActions : List AdminDashboard.Action) (umActions : List UserManagement.Action)
    (tcActions : List TableComponent.Action)
    (hAd : ad.currentPage = 1) (hAdSize : 0 < ad.patientsPerPage)
    (hUm : um.currentPage = 1) (hUmSize : 0 < um.usersPerPage)
    (hTc : tc.currentPage = 1) (hTcSize : 0 < tc.pageSize) :
    (1 ≤ (ad.run adActions).currentPage ∧
      (ad.run adActions).currentPage ≤
        max 1 (Spec.pageCount (ad.run adActions).filteredPatients.length ad.patientsPerPage) ∧
      ((ad.run adActions).currentPage =
          max 1 (Spec.pageCount (ad.run adActions).filteredPatients.length ad.patientsPerPage) →
        (ad.run adActions).nextPage = ad.run adActions) ∧
      ((ad.run adActions).currentPage = 1 →
        (ad.run adActions).previousPage = ad.run adActions)) ∧
    (1 ≤ (um.run umActions).currentPage ∧
      (um.run umActions).currentPage ≤
        max 1 (Spec.pageCount (um.run umActions).filteredUsers.length um.usersPerPage) ∧
      ((um.run umActions).currentPage =
          max 1 (Spec.pageCount (um.run umActions).filteredUsers.length um.usersPerPage) →
        (um.run umActions).nextPage = um.run umActions) ∧
      ((um.run umActions).currentPage = 1 →
        (um.run umActions).previousPage = um.run umActions)) ∧
    (1 ≤ (TableComponent.run values tc tcActions).currentPage ∧
      (TableComponent.run values tc tcActions).currentPage ≤
        max 1 (Spec.pageCount (TableComponent.run values tc tcActions).filteredData.length
          tc.pageSize) ∧
      ((TableComponent.run values tc tcActions).currentPage =
          max 1 (Spec.pageCount (TableComponent.run values tc tcActions).filteredData.length
            tc.pageSize) →
        (TableComponent.run values tc tcActions).nextPage
          = TableComponent.run values tc tcActions) ∧
      ((TableComponent.run values tc tcActions).currentPage = 1 →
        (TableComponent.run values tc tcActions).previousPage
          = TableComponent.run values tc tcActions)) := by
  refine ⟨?_, ?_, ?_⟩
  · obtain ⟨h1, h2, h3⟩ := AdminDashboard.admin_run_clamped ad adActions
      ⟨by omega, by rw [hAd]; exact le_max_left _ _⟩
    rw [h3, JS.ceilDiv_eq_ceil_of_pos _ _ hAdSize] at h2
    refine ⟨h1, h2, ?_, ?_⟩
    · intro hlast
      simp only [AdminDashboard.nextPage, h3, JS.ceilDiv_eq_ceil_of_pos _ _ hAdSize]
      rw [if_neg]
      unfold Spec.pageCount at hlast
      have := le_max_right 1
        ⌈((ad.run adActions).filteredPatients.length : ℚ) / (ad.patientsPerPage : ℚ)⌉₊
      omega
    · intro hfirst
      simp [AdminDashboard.previousPage, hfirst]
  · obtain ⟨h1, h2, h3⟩ := UserManagement.user_run_clamped um umActions
      ⟨by omega, by rw [hUm]; exact le_max_left _ _⟩
    rw [h3, JS.ceilDiv_eq_ceil_of_pos _ _ hUmSize] at h2
    refine ⟨h1, h2, ?_, ?_⟩
    · intro hlast
      simp only [UserManagement.nextPage, h3, JS.ceilDiv_eq_ceil_of_pos _ _ hUmSize]
      rw [if_neg]
      unfold Spec.pageCount at hlast
      have := le_max_right 1
        ⌈((um.run umActions).filteredUsers.length : ℚ) / (um.usersPerPage : ℚ)⌉₊
      omega
    · intro hfirst
      simp [UserManagement.previousPage, hfirst]
  · obtain ⟨h1, h2, h3⟩ := TableComponent.table_run_clamped values tc tcActions
      ⟨by omega, by rw [hTc]; exact le_max_left _ _⟩
    rw [h3, JS.ceilDiv_eq_ceil_of_pos _ _ hTcSize] at h2
    refine ⟨h1, h2, ?_, ?_⟩
    · intro hlast
      simp only [TableComponent.nextPage, h3, JS.ceilDiv_eq_ceil_of_pos _ _ hTcSize]
      rw [if_neg]
      unfold Spec.pageCount at hlast
      have := le_max_right 1
        ⌈((TableComponent.run values tc tcActions).filteredData.length : ℚ) / (tc.pageSize : ℚ)⌉₊
      omega
    · intro hfirst
      simp [TableComponent.previousPage, hfirst]

/-- Seven users, three on a page: four clicks on Next end on page 3 of 3. -/
theorem navigation_clamps_witness :
    ((Sample.userPage 7 3 1).run Sample.fourTimesNext).currentPage = 3 ∧
    ((Sample.userPage 7 3 1).run Sample.fourTimesNext).currentPage ≤
      max 1 (Spec.pageCount
        ((Sample.userPage 7 3 1).run Sample.fourTimesNext).filteredUsers.length 3) :=
  ⟨by decide,
   (navigation_clamps (Sample.dashboard.updateRecentPatients []) (Sample.userPage 7 3 1)
      Sample.table (fun row => [row]) [AdminDashboard.Action.search "ann"] Sample.fourTimesNext
      [TableComponent.Action.nextPage] rfl (by decide) rfl (by decide) rfl (by decide)).2.1.2.1⟩

/-! ## Backup list -/

namespace BackupSystem

theorem backup_matchesSearch_iff (q : String) (b : Backup) :
    matchesSearch q b = true ↔ Spec.BackupMatches q b := by
  simp only [matchesSearch, Bool.or_eq_true, JS.includes_toLowerCase_iff, Spec.BackupMatches]

theorem decide_backupMatches (q : String) (b : Backup) :
    decide (Spec.BackupMatches q b) = matchesSearch q b := by
  rw [Bool.eq_iff_iff, decide_eq_true_iff, backup_matchesSearch_iff]

theorem decide_backupSatisfies (f : String) (now : Int) (b : Backup) :
    decide (Spec.BackupSatisfies f now b) = (f == "all" || passesFilter f now b) := by
  rw [Bool.eq_iff_iff, decide_eq_true_iff, Bool.or_eq_true, beq_iff_eq]
  rfl

/-- C12 (as stated) fails: after the search `daily` and then the filter `manual`
the list holds the manual backup, which does not match `daily`, while no backup
passes both; in the other order it holds the backup `Daily`, which is not manual. -/
theorem search_and_filter_not_combined :
    ((Sample.backupPage.handleBackupSearch "daily").handleBackupFilter "manual"
        1705400000000).filteredBackups.map (fun b => b.name) = ["Before upgrade"] ∧
    ((Sample.backupPage.handleBackupFilter "manual" 1705400000000).handleBackupSearch
        "daily").filteredBackups.map (fun b => b.name) = ["Daily"] ∧
    Sample.backupPage.backups.filter (fun b =>
      decide (Spec.BackupMatches "daily" b ∧ Spec.BackupSatisfies "manual" 1705400000000 b))
      = [] := by
  simp only [Bool.decide_and, decide_backupMatches, decide_backupSatisfies]
  decide

/-- C12 (as amended). The search box and the filter dropdown of the backup page
each filter the full list: after a search followed by a filter the list holds
exactly the backups that satisfy the filter, and after a filter followed by a
search exactly those that match the query. -/
theorem last_of_search_and_filter_wins (self : BackupSystem) (q f : String) (now : Int) :
    ((self.handleBackupSearch q).handleBackupFilter f now).filteredBackups
      = self.backups.filter (fun b => decide (Spec.BackupSatisfies f now b)) ∧
    ((self.handleBackupFilter f now).handleBackupSearch q).filteredBackups
      = self.backups.filter (fun b => decide (Spec.BackupMatches q b)) := by
  constructor
  · simp only [decide_backupSatisfies, handleBackupFilter, handleBackupSearch]
    split_ifs with hall
    · simp [hall]
    · apply List.filter_congr
      intro b _
      simp [hall]
  · simp only [decide_backupMatches, handleBackupSearch, handleBackupFilter]
    split_ifs <;> rfl

end BackupSystem

/-! ## Requests of the receptionist page -/

namespace JS

theorem mapGet_mapSet_self {β : Type} (m : List (String × β)) (key : String) (value : β) :
    mapGet (mapSet m key value) key = some value := by
  induction m with
  | nil => simp [mapSet, mapGet]
  | cons e rest ih =>
    obtain ⟨k, v⟩ := e
    simp only [mapSet]
    split_ifs with h
    · simp [mapGet, h]
    · simp [mapGet, h, ih]

theorem mapGet_mapSet_of_ne {β : Type} (m : List (String × β)) (key other : String)
    (value : β) (h : other ≠ key) :
    mapGet (mapSet m key value) other = mapGet m other := by
  induction m with
  | nil => simp [mapSet, mapGet, Ne.symm h]
  | cons e rest ih =>
    obtain ⟨k, v⟩ := e
    simp only [mapSet]
    split_ifs with hk
    · subst hk
      simp [mapGet, Ne.symm h]
    · simp only [mapGet]
      split_ifs
      · rfl
      · exact ih

theorem mapGet_mapDelete_self {β : Type} (m : List (String × β)) (key : String) :
    mapGet (mapDelete m key) key = none := by
  induction m with
  | nil => rfl
  | cons e rest ih =>
    obtain ⟨k, v⟩ := e
    by_cases hk : k = key
    · simpa [mapDelete, hk] using ih
    · simpa [mapDelete, mapGet, hk] using ih

theorem mapGet_mapDelete_of_ne {β : Type} (m : List (String × β)) (key other : String)
    (h : other ≠ key) :
    mapGet (mapDelete m key) other = mapGet m other := by
  induction m with
  | nil => rfl
  | cons e rest ih =>
    obtain ⟨k, v⟩ := e
    by_cases hk : k = key
    · subst hk
      have hne : ¬ k = other := fun e => h e.symm
      simpa [mapDelete, mapGet, hne] using ih
    · have hf : List.filter (fun entry : String × β => entry.1 != key) ((k, v) :: rest)
          = (k, v) :: List.filter (fun entry : String × β => entry.1 != key) rest := by
        simp [List.filter_cons, hk]
      simp only [mapDelete] at ih ⊢
      rw [hf]
      simp only [mapGet]
      split_ifs
      · rfl
      · exact ih

end JS

namespace ReceptionistAppointments

/-- C13. A request whose options carry a `headers` object of their own is sent
with exactly those headers: the spread of `options` after the `headers`
property replaces the merged object, and no `Authorization` header is left. -/
theorem apiCall_own_headers_replace_authorization :
    (apiCall Sample.stringify (some "secret") Sample.reception "/appointments/7"
        Sample.putWithHeaders 0 (FetchOutcome.responded true 200 (Except.ok "done")) 5).request
      = some { url := "https://api.dentalclinic.com/v1/appointments/7",
               init := { method := some "PUT", headers := some [("X-Request-Id", "42")],
                         body := some "" } } ∧
    ((fetchInit (some "secret") Sample.putWithHeaders).headers.bind
      (fun h => JS.mapGet h "Authorization")) = none ∧
    ((fetchInit (some "secret") { method := some "PUT", headers := none, body := some "" }).headers.bind
      (fun h => JS.mapGet h "Authorization")) = some "Bearer secret" := by
  decide

end ReceptionistAppointments

namespace ReceptionistAppointments

/-- C16. For a GET through `apiCall`: an entry of the cache for the same endpoint
and options that is less than 30000 ms old is returned without a request;
otherwise a request is made, an ok response is returned and cached with the
current time, and after a failed request the cached entry, however old, is
returned if there is one and the error is thrown if there is none. -/
theorem apiCall_cache_contract {δ : Type} (stringify : RequestOptions → String)
    (userToken : Option String) (state : AppointmentsState δ) (endpoint : String)
    (options : RequestOptions) (now later : Int) (outcome : FetchOutcome δ)
    (hGet : isGet options = true) :
    (∀ cached, JS.mapGet state.dataCache (endpoint ++ "-" ++ stringify options) = some cached →
      now - cached.timestamp < 30000 →
      (apiCall stringify userToken state endpoint options now outcome later).result
        = Except.ok cached.data ∧
      (apiCall stringify userToken state endpoint options now outcome later).request = none ∧
      (apiCall stringify userToken state endpoint options now outcome later).state.dataCache
        = state.dataCache) ∧
    ((∀ cached, JS.mapGet state.dataCache (endpoint ++ "-" ++ stringify options) = some cached →
        ¬ now - cached.timestamp < 30000) →
      (apiCall stringify userToken state endpoint options now outcome later).request
        = some { url := API_BASE_URL ++ endpoint, init := fetchInit userToken options } ∧
      (∀ status data, outcome = FetchOutcome.responded true status (Except.ok data) →
        (apiCall stringify userToken state endpoint options now outcome later).result
          = Except.ok data ∧
        (∃ entry, JS.mapGet
            (apiCall stringify userToken state endpoint options now outcome later).state.dataCache
            (endpoint ++ "-" ++ stringify options) = some entry ∧
          entry.data = data ∧ entry.timestamp = later) ∧
        (∀ other, other ≠ endpoint ++ "-" ++ stringify options →
          JS.mapGet
            (apiCall stringify userToken state endpoint options now outcome later).state.dataCache
            other = JS.mapGet state.dataCache other)) ∧
      (Spec.RequestFailed outcome →
        (∀ cached,
          JS.mapGet state.dataCache (endpoint ++ "-" ++ stringify options) = some cached →
          (apiCall stringify userToken state endpoint options now outcome later).result
            = Except.ok cached.data) ∧
        (JS.mapGet state.dataCache (endpoint ++ "-" ++ stringify options) = none →
          ∃ error,
            (apiCall stringify userToken state endpoint options now outcome later).result
              = Except.error error) ∧
        (apiCall stringify userToken state endpoint options now outcome later).state.dataCache
          = state.dataCache)) := by
  constructor
  · intro cached hc hfresh
    simp [apiCall, hGet, hc, hfresh]
  · intro hstale
    have hnone : (if isGet options = true then
        match JS.mapGet state.dataCache (endpoint ++ "-" ++ stringify options) with
        | some cached => if now - cached.timestamp < 30000 then some cached.data else none
        | none => none
      else none) = (none : Option δ) := by
      rw [if_pos hGet]
      cases hc : JS.mapGet state.dataCache (endpoint ++ "-" ++ stringify options) with
      | none => rfl
      | some cached => simp [hstale cached hc]
    refine ⟨?_, ?_, ?_⟩
    · simp only [apiCall, hnone]
      rcases outcome with e | ⟨ok, status, json⟩
      · simp only []
        cases JS.mapGet state.dataCache (endpoint ++ "-" ++ stringify options) <;> rfl
      · cases ok
        · simp only []
          cases JS.mapGet state.dataCache (endpoint ++ "-" ++ stringify options) <;> rfl
        · cases json
          · simp only []
            cases JS.mapGet state.dataCache (endpoint ++ "-" ++ stringify options) <;> rfl
          · rfl
    · intro status data hout
      subst hout
      have e : apiCall stringify userToken state endpoint options now
          (FetchOutcome.responded true status (Except.ok data)) later
          = { result := Except.ok data
              state := { state with
                dataCache := JS.mapSet state.dataCache (endpoint ++ "-" ++ stringify options)
                  { data := data, timestamp := later } }
              request := some { url := API_BASE_URL ++ endpoint,
                                init := fetchInit userToken options } } := by
        simp only [apiCall, hnone]
        rw [if_pos hGet]
      rw [e]
      refine ⟨rfl, ⟨_, JS.mapGet_mapSet_self _ _ _, rfl, rfl⟩, ?_⟩
      intro other hne
      exact JS.mapGet_mapSet_of_ne _ _ _ _ hne
    · intro hfail
      simp only [apiCall, hnone]
      rcases outcome with e | ⟨ok, status, json⟩
      · simp only []
        cases hc : JS.mapGet state.dataCache (endpoint ++ "-" ++ stringify options) with
        | none => exact ⟨fun c h => by simp at h, fun _ => ⟨_, rfl⟩, rfl⟩
        | some c => exact ⟨fun c2 h => by cases h; rfl, fun h => by simp at h, rfl⟩
      · cases ok
        · simp only []
          cases hc : JS.mapGet state.dataCache (endpoint ++ "-" ++ stringify options) with
          | none => exact ⟨fun c h => by simp at h, fun _ => ⟨_, rfl⟩, rfl⟩
          | some c => exact ⟨fun c2 h => by cases h; rfl, fun h => by simp at h, rfl⟩
        · cases json with
          | error e =>
            simp only []
            cases hc : JS.mapGet state.dataCache (endpoint ++ "-" ++ stringify options) with
            | none => exact ⟨fun c h => by simp at h, fun _ => ⟨_, rfl⟩, rfl⟩
            | some c => exact ⟨fun c2 h => by cases h; rfl, fun h => by simp at h, rfl⟩
          | ok d =>
            exfalso
            rcases hfail with h | ⟨e, h⟩
            · exact absurd h (by simp)
            · exact absurd h (by simp)

end ReceptionistAppointments

namespace ReceptionistAppointments

/-- The list of doctors cached at time 1000 is served at time 20000 with no request. -/
theorem apiCall_cache_contract_witness :
    (apiCall Sample.stringify none Sample.receptionCached "/doctors"
        { method := none, headers := none, body := none } 20000
        (FetchOutcome.rejected "offline") 20001).result = Except.ok "doctors" ∧
    (apiCall Sample.stringify none Sample.receptionCached "/doctors"
        { method := none, headers := none, body := none } 20000
        (FetchOutcome.rejected "offline") 20001).request = none :=
  have h := (apiCall_cache_contract Sample.stringify none Sample.receptionCached "/doctors"
    { method := none, headers := none, body := none } 20000 20001
    (FetchOutcome.rejected "offline") rfl).1 { data := "doctors", timestamp := 1000 } rfl
    (by decide)
  ⟨h.1, h.2.1⟩

end ReceptionistAppointments

/-! ## Login state -/

namespace Auth

/-- C14. `setToken`, `setCurrentUser` and `logout` leave every key other than
`dental_clinic_token` and `dental_clinic_user` as it was (`setToken` also leaves
the user entry and `setCurrentUser` the token); `isLoggedIn` is true exactly
when a token is stored; `getToken` after `setToken(t)` gives `t`; after `logout`
the token and the user are `null` and `isLoggedIn` is false. -/
theorem auth_touches_two_keys {υ : Type} (stringify : υ → String) (parse : String → υ)
    (localStorage : List (String × String)) (key token : String) (user : υ)
    (hToken : key ≠ "dental_clinic_token") (hUser : key ≠ "dental_clinic_user") :
    JS.mapGet (Auth.new.setToken localStorage token) key = JS.mapGet localStorage key ∧
    JS.mapGet (Auth.new.setCurrentUser stringify localStorage user) key
      = JS.mapGet localStorage key ∧
    JS.mapGet (Auth.new.logout localStorage) key = JS.mapGet localStorage key ∧
    JS.mapGet (Auth.new.setToken localStorage token) "dental_clinic_user"
      = JS.mapGet localStorage "dental_clinic_user" ∧
    JS.mapGet (Auth.new.setCurrentUser stringify localStorage user) "dental_clinic_token"
      = JS.mapGet localStorage "dental_clinic_token" ∧
    (Auth.new.isLoggedIn localStorage = true ↔
      ∃ stored, JS.mapGet localStorage "dental_clinic_token" = some stored) ∧
    Auth.new.getToken (Auth.new.setToken localStorage token) = some token ∧
    Auth.new.getToken (Auth.new.logout localStorage) = none ∧
    Auth.new.getCurrentUser parse (Auth.new.logout localStorage) = none ∧
    Auth.new.isLoggedIn (Auth.new.logout localStorage) = false := by
  have hlogoutToken : JS.mapGet (Auth.new.logout localStorage) "dental_clinic_token" = none := by
    simp only [logout, Auth.new]
    rw [JS.mapGet_mapDelete_of_ne _ _ _ (by decide), JS.mapGet_mapDelete_self]
  have hlogoutUser : JS.mapGet (Auth.new.logout localStorage) "dental_clinic_user" = none := by
    simp only [logout, Auth.new]
    exact JS.mapGet_mapDelete_self _ _
  refine ⟨?_, ?_, ?_, ?_, ?_, ?_, ?_, ?_, ?_, ?_⟩
  · exact JS.mapGet_mapSet_of_ne _ _ _ _ hToken
  · exact JS.mapGet_mapSet_of_ne _ _ _ _ hUser
  · simp only [logout, Auth.new]
    rw [JS.mapGet_mapDelete_of_ne _ _ _ hUser, JS.mapGet_mapDelete_of_ne _ _ _ hToken]
  · exact JS.mapGet_mapSet_of_ne _ _ _ _ (by decide)
  · exact JS.mapGet_mapSet_of_ne _ _ _ _ (by decide)
  · simp only [isLoggedIn, getToken, Auth.new]
    cases JS.mapGet localStorage "dental_clinic_token" <;> simp
  · exact JS.mapGet_mapSet_self _ _ _
  · exact hlogoutToken
  · simp only [getCurrentUser]
    have : JS.mapGet (Auth.new.logout localStorage) Auth.new.userKey = none := hlogoutUser
    rw [this]
  · simp only [isLoggedIn, getToken]
    have : JS.mapGet (Auth.new.logout localStorage) Auth.new.tokenKey = none := hlogoutToken
    rw [this]
    rfl

end Auth

namespace Auth

/-- Logging out leaves the entry `theme` of another script in place. -/
theorem auth_touches_two_keys_witness :
    JS.mapGet (Auth.new.logout Sample.storage) "theme" = JS.mapGet Sample.storage "theme" ∧
    Auth.new.isLoggedIn (Auth.new.logout Sample.storage) = false :=
  have h := auth_touches_two_keys (fun u : String => u) (fun s => s) Sample.storage "theme"
    "abc" "user" (by decide) (by decide)
  ⟨h.2.2.1, h.2.2.2.2.2.2.2.2.2⟩

end Auth

/-! ## Attachments -/

namespace MedicalRecords

theorem selectFile_valid (selectedFiles : List FileInfo) (file : FileInfo)
    (h : Spec.FilesValid selectedFiles) : Spec.FilesValid (selectFile selectedFiles file) := by
  unfold selectFile
  split_ifs with hsize htype hdup
  · exact h
  · exact h
  · obtain ⟨hall, hpair⟩ := h
    constructor
    · intro f hf
      rw [List.mem_append, List.mem_singleton] at hf
      rcases hf with hf | rfl
      · exact hall f hf
      · refine ⟨by unfold maxSize at hsize; omega, ?_⟩
        simpa using htype
    · rw [List.pairwise_append]
      refine ⟨hpair, List.pairwise_singleton _ _, ?_⟩
      intro a ha b hb
      rw [List.mem_singleton] at hb
      subst hb
      intro hsame
      simp only [Bool.not_eq_true', List.any_eq_false, Bool.and_eq_true, beq_iff_eq] at hdup
      exact hdup a ha hsame
  · exact h

theorem handleFileSelection_valid (selectedFiles files : List FileInfo)
    (h : Spec.FilesValid selectedFiles) :
    Spec.FilesValid (handleFileSelection selectedFiles files) := by
  unfold handleFileSelection
  induction files generalizing selectedFiles with
  | nil => exact h
  | cons f rest ih => exact ih _ (selectFile_valid selectedFiles f h)

theorem selectedAfter_from_valid (start : List FileInfo) (calls : List (List FileInfo))
    (h : Spec.FilesValid start) : Spec.FilesValid (calls.foldl handleFileSelection start) := by
  induction calls generalizing start with
  | nil => exact h
  | cons c rest ih => exact ih _ (handleFileSelection_valid start c h)

/-- C15. After any sequence of calls of `handleFileSelection`, every file in
`selectedFiles` has at most 10 * 1024 * 1024 bytes and an allowed MIME type, no
two have the same name and size, and no file that fails the size or the type
check is in the list. -/
theorem selectedFiles_always_valid (calls : List (List FileInfo)) :
    (∀ f ∈ selectedAfter calls,
      f.size ≤ 10 * 1024 * 1024 ∧ f.type ∈ allowedTypes) ∧
    (selectedAfter calls).Pairwise (fun a b => ¬ (a.name = b.name ∧ a.size = b.size)) ∧
    (∀ f : FileInfo, (10 * 1024 * 1024 < f.size ∨ f.type ∉ allowedTypes) →
      f ∉ selectedAfter calls) := by
  have h : Spec.FilesValid (selectedAfter calls) :=
    selectedAfter_from_valid [] calls ⟨fun f hf => by simp at hf, List.Pairwise.nil⟩
  refine ⟨h.1, h.2, ?_⟩
  intro f hbad hmem
  obtain ⟨hs, ht⟩ := h.1 f hmem
  rcases hbad with hb | hb
  · omega
  · exact hb ht

end MedicalRecords

namespace MedicalRecords

/-- A scan over the size limit is not selected, whatever else is selected. -/
theorem selectedFiles_always_valid_witness :
    Sample.bigScan ∉ selectedAfter [[Sample.bigScan, Sample.xray], [Sample.xray]] :=
  (selectedFiles_always_valid [[Sample.bigScan, Sample.xray], [Sample.xray]]).2.2
    Sample.bigScan (Or.inl (by decide))

end MedicalRecords

/-! ## Appointments as loaded -/

namespace JS

theorem newDate_append_clock (d : String) (h1 h2 n1 n2 : Char) (v : Int)
    (hv : newDate (d ++ String.mk ['T', h1, h2, ':', n1, n2]) = some v) :
    ∃ (day : Int) (minute : Nat), parseClock h1 h2 n1 n2 = some minute ∧
      v = day * 86400000 + (minute : Int) * 60000 ∧
      ∀ (k1 k2 m1 m2 : Char) (later : Nat), parseClock k1 k2 m1 m2 = some later →
        newDate (d ++ String.mk ['T', k1, k2, ':', m1, m2])
          = some (day * 86400000 + (later : Int) * 60000) := by
  have hlen : d.length = 10 := by
    by_contra hne
    rw [newDate_eq_none_of_length] at hv
    · exact absurd hv (by simp)
    · simp only [String.length_append]
      have : (String.mk ['T', h1, h2, ':', n1, n2]).length = 6 := rfl
      omega
  obtain ⟨l⟩ := d
  rcases l with _ | ⟨c1, _ | ⟨c2, _ | ⟨c3, _ | ⟨c4, _ | ⟨c5, _ | ⟨c6, _ | ⟨c7, _ | ⟨c8,
    _ | ⟨c9, _ | ⟨c10, _ | ⟨c11, l⟩⟩⟩⟩⟩⟩⟩⟩⟩⟩⟩ <;>
    simp [String.length] at hlen
  simp only [newDate, String.data_append, List.cons_append, List.nil_append] at hv ⊢
  split at hv
  · rename_i heq
    simp only [List.cons.injEq] at heq
    obtain ⟨rfl, rfl, rfl, rfl, rfl, rfl, rfl, rfl, rfl, rfl, -, rfl, rfl, -, rfl, rfl, -⟩ := heq
    cases hd : parseDay c1 c2 c3 c4 c6 c7 c9 c10 with
    | none => simp [hd] at hv
    | some day =>
      cases hc : parseClock h1 h2 n1 n2 with
      | none => simp [hd, hc] at hv
      | some minute =>
        simp only [hd, hc, Option.some.injEq] at hv
        refine ⟨day, minute, rfl, hv.symm, ?_⟩
        intro k1 k2 m1 m2 later hl
        simp only [hd, hl]
  · exact absurd hv (by simp)

end JS

namespace AppointmentManager

theorem first_two_loaded_conflict (self : AppointmentManager) (dateOf : Nat → String)
    (p0 p1 : Post) (hSlots : self.availableTimeSlots = generateTimeSlots)
    (hToday : (JS.newDate (dateOf 0 ++ "T" ++ "08:00")).isSome = true) :
    Spec.Conflict (appointmentOfPost self dateOf p0 0) (appointmentOfPost self dateOf p1 1) := by
  obtain ⟨v, hv⟩ := Option.isSome_iff_exists.mp hToday
  have hv0 : JS.newDate (dateOf 0 ++ String.mk ['T', '0', '8', ':', '0', '0']) = some v := by
    rw [← hv, String.append_assoc]; rfl
  obtain ⟨day, minute, hmin, hval, hall⟩ := JS.newDate_append_clock _ _ _ _ _ _ hv0
  have hmin0 : JS.parseClock '0' '8' '0' '0' = some 480 := by decide
  have hmin1 : JS.parseClock '0' '8' '3' '0' = some 510 := by decide
  have e0 : JS.newDate (dateOf 0 ++ "T" ++ "08:00") = some (day * 86400000 + (480 : Nat) * 60000) := by
    rw [← hall _ _ _ _ _ hmin0, String.append_assoc]; rfl
  have e1 : JS.newDate (dateOf 0 ++ "T" ++ "08:30") = some (day * 86400000 + (510 : Nat) * 60000) := by
    rw [← hall _ _ _ _ _ hmin1, String.append_assoc]; rfl
  have t0 : (appointmentOfPost self dateOf p0 0).time = "08:00" := by
    simp only [appointmentOfPost, hSlots]; decide
  have t1 : (appointmentOfPost self dateOf p1 1).time = "08:30" := by
    simp only [appointmentOfPost, hSlots]; decide
  have d0 : (appointmentOfPost self dateOf p0 0).date = dateOf 0 := rfl
  have d1 : (appointmentOfPost self dateOf p1 1).date = dateOf 0 := rfl
  have s0 : (appointmentOfPost self dateOf p0 0).status = "scheduled" := by
    simp only [appointmentOfPost]; decide
  have s1 : (appointmentOfPost self dateOf p1 1).status = "confirmed" := by
    simp only [appointmentOfPost]; decide
  refine ⟨by rw [d0, d1], by rw [s0]; decide, by rw [s1]; decide,
    day * 86400000 + ((480 : Nat) : Int) * 60000, day * 86400000 + ((510 : Nat) : Int) * 60000,
    ?_, ?_, ?_, ?_⟩
  · rw [d0, t0]; exact e0
  · rw [d1, t1]; exact e1
  · push_cast; omega
  · push_cast; omega

/-- C17 (as stated) fails: the first two of the appointments made from two posts
are on the same day at 08:00 and 08:30, scheduled and confirmed, and overlap. -/
theorem loaded_appointments_overlap :
    (((Sample.manager []).loadAppointments Sample.dateOf Sample.twoPosts).appointments.map
      (fun a => (a.date, a.time, a.status))
        = [("2024-01-15", "08:00", "scheduled"), ("2024-01-15", "08:30", "confirmed")]) ∧
    ¬ Spec.NoOverlap
      ((Sample.manager []).loadAppointments Sample.dateOf Sample.twoPosts).appointments := by
  refine ⟨by decide, ?_⟩
  intro h
  have hc := first_two_loaded_conflict (Sample.manager []) Sample.dateOf
    { id := 1, title := "sunt aut facere", body := "quia et suscipit" }
    { id := 2, title := "qui est esse", body := "est rerum tempore" } rfl (by decide)
  exact (List.pairwise_cons.mp h).1 _ (List.mem_cons_self _ _) hc

/-- C17 (as amended). When the slot list is the generated one and today is a
valid date, the appointments made by `loadAppointments` keep the no-overlap
invariant exactly when at most one post is loaded: from two posts on, the first
two appointments overlap. -/
theorem loadAppointments_noOverlap_iff (self : AppointmentManager) (dateOf : Nat → String)
    (posts : List Post) (hSlots : self.availableTimeSlots = generateTimeSlots)
    (hToday : (JS.newDate (dateOf 0 ++ "T" ++ "08:00")).isSome = true) :
    Spec.NoOverlap (self.loadAppointments dateOf posts).appointments ↔ posts.length ≤ 1 := by
  constructor
  · intro h
    match posts, h with
    | [], _ => simp
    | [_], _ => simp
    | p0 :: p1 :: rest, h =>
      exfalso
      have hc := first_two_loaded_conflict self dateOf p0 p1 hSlots hToday
      exact (List.pairwise_cons.mp h).1 _ (List.mem_cons_self _ _) hc
  · intro hlen
    match posts, hlen with
    | [], _ => exact List.Pairwise.nil
    | [p], _ => exact List.pairwise_singleton _ _
    | _ :: _ :: _, hlen => simp at hlen

/-- One post loaded into the sample page: the single appointment overlaps nothing. -/
theorem loadAppointments_noOverlap_iff_witness :
    Spec.NoOverlap ((Sample.manager []).loadAppointments Sample.dateOf
      [{ id := 1, title := "sunt aut facere", body := "quia et suscipit" }]).appointments :=
  (loadAppointments_noOverlap_iff (Sample.manager []) Sample.dateOf
    [{ id := 1, title := "sunt aut facere", body := "quia et suscipit" }] rfl
    (by decide)).mpr (by decide)

end AppointmentManager

/-! ## Buttons of the doctor page -/

namespace AppointmentManager

/-- C18. With no appointment to show, `updatePagination` of the doctor page
leaves `Next` enabled: `currentPage` is 1, `totalPages` is 0 and the flag is
`currentPage === totalPages`; the same list on the admin dashboard, whose test
has `|| totalPages === 0`, disables it.  `Previous` is disabled, and `nextPage`
does not move. -/
theorem next_enabled_on_empty_list :
    (Sample.manager []).paginationControls
      = { currentPage := 1, totalPages := 0, prevDisabled := true, nextDisabled := false } ∧
    (Sample.manager []).renderAppointmentsTable.nextPage.currentPage = 1 ∧
    (Sample.dashboard.updateRecentPatients []).updatePagination.nextDisabled = true := by
  decide

end AppointmentManager

/-! ## Select-all of the receptionist page -/

namespace ReceptionistAppointments

/-- C19 (as stated) fails: with the ids 1, 2 and 99 selected and the rows 1 and 2
in the table, unchecking select-all also removes 99, which is not in the table. -/
theorem uncheck_clears_hidden_selection :
    "99" ∈ Sample.reception.selectedAppointments ∧ "99" ∉ ["1", "2"] ∧
    (toggleSelectAll Sample.reception false ["1", "2"]).selectedAppointments = [] := by
  decide

/-- C19 (as amended). Checking select-all adds exactly the ids of the rows in the
table and every other id keeps its membership; unchecking it empties the
selection, rows in the table or not. -/
theorem toggleSelectAll_adds_visible_or_clears {δ : Type} (state : AppointmentsState δ)
    (checkboxes : List String) (id : String) :
    (id ∈ (toggleSelectAll state true checkboxes).selectedAppointments ↔
      id ∈ state.selectedAppointments ∨ id ∈ checkboxes) ∧
    (id ∉ checkboxes →
      (id ∈ (toggleSelectAll state true checkboxes).selectedAppointments ↔
        id ∈ state.selectedAppointments)) ∧
    (toggleSelectAll state false checkboxes).selectedAppointments = [] := by
  have h : id ∈ (toggleSelectAll state true checkboxes).selectedAppointments ↔
      id ∈ state.selectedAppointments ∨ id ∈ checkboxes := by
    simp only [toggleSelectAll, if_true]
    have := JS.mem_foldl_setAdd (fun v : String => v) checkboxes state.selectedAppointments id
    simpa using this
  refine ⟨h, ?_, by simp [toggleSelectAll]⟩
  intro hout
  rw [h]
  exact ⟨fun hh => hh.elim (fun h1 => h1) (fun h2 => absurd h2 hout), Or.inl⟩

end ReceptionistAppointments

/-! ## Select-all of the generic table -/

namespace TableComponent

/-- C20. On page 2 of a table of five rows, two on a page, with the two rows of
page 1 selected, none of the two rows shown is selected, yet `toggleSelectAll`
empties the selection: it compares the number of checkboxes with the size of
the selection, and both are 2. -/
theorem toggleSelectAll_clears_by_count :
    Sample.tablePageTwo.rowCheckboxes = [2, 3] ∧
    Sample.tablePageTwo.selectedRows = [0, 1] ∧
    Sample.tablePageTwo.toggleSelectAll.selectedRows = [] := by
  decide

end TableComponent

/-! ## Pages together -/

namespace JS

theorem flatMap_slices {α : Type} (xs : List α) (P k : Nat) :
    (List.range k).flatMap (fun i => slice xs (i * P) (i * P + P)) = xs.take (k * P) := by
  induction k with
  | zero => simp
  | succ k ih =>
    rw [List.range_succ, List.flatMap_append, ih]
    simp only [List.flatMap_cons, List.flatMap_nil, List.append_nil, slice]
    rw [Nat.add_sub_cancel_left, Nat.succ_mul, List.take_add]

theorem take_pages_eq {α : Type} (xs : List α) (P : Nat) (hP : 0 < P) :
    xs.take (ceilDiv xs.length P * P) = xs := by
  apply List.take_of_length_le
  rcases Nat.eq_zero_or_pos xs.length with h0 | hpos
  · omega
  · exact (ceilDiv_bounds xs.length P hpos hP).2.1

end JS

/-- C30. For a page size `P > 0`, the slices of pages 1 to `ceil(N / P)` computed
by `getCurrentPageUsers` and by `renderTableBody`, put one after the other,
are the filtered list in its order. -/
theorem pages_concatenate_to_list {α : Type} (um : UserManagement) (tc : TableComponent α)
    (hUm : 0 < um.usersPerPage) (hTc : 0 < tc.pageSize) :
    (List.range (Spec.pageCount um.filteredUsers.length um.usersPerPage)).flatMap
        (fun i => ({ um with currentPage := i + 1 } : UserManagement).getCurrentPageUsers)
      = um.filteredUsers ∧
    (List.range (Spec.pageCount tc.filteredData.length tc.pageSize)).flatMap
        (fun i => ({ tc with currentPage := i + 1 } : TableComponent α).renderTableBody)
      = tc.filteredData := by
  unfold Spec.pageCount
  rw [← JS.ceilDiv_eq_ceil_of_pos _ _ hUm, ← JS.ceilDiv_eq_ceil_of_pos _ _ hTc]
  constructor
  · simp only [UserManagement.getCurrentPageUsers, Nat.add_sub_cancel]
    rw [JS.flatMap_slices, JS.take_pages_eq _ _ hUm]
  · simp only [TableComponent.renderTableBody, Nat.add_sub_cancel]
    rw [JS.flatMap_slices, JS.take_pages_eq _ _ hTc]

/-- Seven users on pages of three: pages 1, 2 and 3 together are the seven users. -/
theorem pages_concatenate_to_list_witness :
    (List.range (Spec.pageCount 7 3)).flatMap
        (fun i => ({ Sample.userPage 7 3 1 with currentPage := i + 1 }
          : UserManagement).getCurrentPageUsers)
      = (Sample.userPage 7 3 1).filteredUsers :=
  (pages_concatenate_to_list (Sample.userPage 7 3 1) Sample.table (by decide) (by decide)).1

/-! ## The strip of page numbers -/

namespace PaginationView

theorem numbers_eq (currentPage totalPages : Nat) (h1 : 1 ≤ currentPage)
    (h2 : currentPage ≤ totalPages) :
    ∃ startPage endPage : Int,
      numbers currentPage totalPages
        = (List.range (min 5 totalPages)).map (fun k => startPage + (k : Int)) ∧
      1 ≤ startPage ∧ startPage ≤ currentPage ∧ (currentPage : Int) ≤ endPage ∧
      endPage ≤ totalPages ∧ endPage = startPage + ((min 5 totalPages : Nat) : Int) - 1 := by
  unfold numbers
  simp only []
  refine ⟨if min (totalPages : Int) (max 1 ((currentPage : Int) - 2) + 4)
              - max 1 ((currentPage : Int) - 2) < 4
            then max 1 (min (totalPages : Int) (max 1 ((currentPage : Int) - 2) + 4) - 4)
            else max 1 ((currentPage : Int) - 2),
          min (totalPages : Int) (max 1 ((currentPage : Int) - 2) + 4), ?_, ?_, ?_, ?_, ?_, ?_⟩
  · have key : ∀ x : Int, ∀ n : Nat, x = (n : Int) → x.toNat = n := fun x n h => by
      rw [h]; exact Int.toNat_natCast n
    congr 3
    apply key
    simp only [max_def, min_def]
    split_ifs <;> omega
  all_goals
    simp only [max_def, min_def]
    split_ifs <;> omega

end PaginationView

namespace TableComponent

theorem generatePageNumbers_eq {α : Type} (self : TableComponent α) (totalPages : Nat) :
    self.generatePageNumbers totalPages = PaginationView.numbers self.currentPage totalPages := by
  unfold generatePageNumbers PaginationView.numbers
  simp only []
  have h52 : (5 : Int) / 2 = 2 := by decide
  rw [h52]
  have e1 : ∀ x : Int, x + 5 - 1 = x + 4 := fun x => by omega
  have e2 : ∀ x y : Int, (x - y + 1 < 5) = (x - y < 4) := fun x y => by
    apply propext; constructor <;> intro h <;> omega
  have e3 : ∀ x : Int, x - 5 + 1 = x - 4 := fun x => by omega
  simp only [e1, e2, e3]

end TableComponent

/-- C26. For `1 ≤ currentPage ≤ totalPages` the page-number buttons of the admin
dashboard, the user list and the generic table are the consecutive integers
`startPage..endPage` with `1 ≤ startPage ≤ currentPage ≤ endPage ≤ totalPages`,
`min(5, totalPages)` of them. -/
theorem page_numbers_strip {α : Type} (ad : AdminDashboard) (um : UserManagement)
    (tc : TableComponent α)
    (hAd1 : 1 ≤ ad.currentPage) (hAd2 : ad.currentPage ≤ ad.updatePagination.totalPages)
    (hUm1 : 1 ≤ um.currentPage) (hUm2 : um.currentPage ≤ um.updatePagination.totalPages)
    (hTc1 : 1 ≤ tc.currentPage) (hTc2 : tc.currentPage ≤ tc.totalPages) :
    (∃ startPage endPage : Int,
      ad.updatePagination.pageNumbers
        = (List.range (min 5 ad.updatePagination.totalPages)).map
            (fun k => startPage + (k : Int)) ∧
      1 ≤ startPage ∧ startPage ≤ ad.currentPage ∧ (ad.currentPage : Int) ≤ endPage ∧
      endPage ≤ ad.updatePagination.totalPages ∧
      endPage = startPage + ((min 5 ad.updatePagination.totalPages : Nat) : Int) - 1) ∧
    (∃ startPage endPage : Int,
      um.updatePagination.pageNumbers
        = (List.range (min 5 um.updatePagination.totalPages)).map
            (fun k => startPage + (k : Int)) ∧
      1 ≤ startPage ∧ startPage ≤ um.currentPage ∧ (um.currentPage : Int) ≤ endPage ∧
      endPage ≤ um.updatePagination.totalPages ∧
      endPage = startPage + ((min 5 um.updatePagination.totalPages : Nat) : Int) - 1) ∧
    (∃ startPage endPage : Int,
      tc.generatePageNumbers tc.totalPages
        = (List.range (min 5 tc.totalPages)).map (fun k => startPage + (k : Int)) ∧
      1 ≤ startPage ∧ startPage ≤ tc.currentPage ∧ (tc.currentPage : Int) ≤ endPage ∧
      endPage ≤ tc.totalPages ∧
      endPage = startPage + ((min 5 tc.totalPages : Nat) : Int) - 1) := by
  refine ⟨?_, ?_, ?_⟩
  · exact PaginationView.numbers_eq ad.currentPage _ hAd1 hAd2
  · exact PaginationView.numbers_eq um.currentPage _ hUm1 hUm2
  · rw [TableComponent.generatePageNumbers_eq]
    exact PaginationView.numbers_eq tc.currentPage _ hTc1 hTc2

/-- Seven users, three on a page, page 2 shown: the buttons are 1, 2, 3. -/
theorem page_numbers_strip_witness :
    (Sample.userPage 7 3 2).updatePagination.pageNumbers = [1, 2, 3] ∧
    ∃ startPage endPage : Int,
      (Sample.userPage 7 3 2).updatePagination.pageNumbers
        = (List.range (min 5 (Sample.userPage 7 3 2).updatePagination.totalPages)).map
            (fun k => startPage + (k : Int)) ∧
      1 ≤ startPage ∧ startPage ≤ (Sample.userPage 7 3 2).currentPage ∧
      ((Sample.userPage 7 3 2).currentPage : Int) ≤ endPage ∧
      endPage ≤ (Sample.userPage 7 3 2).updatePagination.totalPages ∧
      endPage = startPage +
        ((min 5 (Sample.userPage 7 3 2).updatePagination.totalPages : Nat) : Int) - 1 :=
  ⟨by decide,
   (page_numbers_strip (Sample.dashboard.handlePatientSearch "") (Sample.userPage 7 3 2)
      Sample.table (by decide) (by decide) (by decide) (by decide) (by decide) (by decide)).2.1⟩

/-! ## Selection of users against the filtered view -/

namespace UserManagement

theorem mem_getCurrentPageUsers (self : UserManagement) (u : User)
    (h : u ∈ self.getCurrentPageUsers) : u ∈ self.filteredUsers := by
  simp only [getCurrentPageUsers, JS.slice] at h
  exact List.mem_of_mem_drop (List.mem_of_mem_take h)

/-- C21, the sentence as written fails: with Bob (an admin) ticked, choosing the
role filter `doctor` leaves Bob's id selected although only Ann is in the
filtered view; the bulk delete then sends Bob's id. -/
theorem selection_outlives_filter :
    Spec.SelectionInView Sample.bobTicked ∧
    ((Sample.bobTicked.step (Action.role "doctor")).filteredUsers.map (fun u => u.id) = ["1"] ∧
      (Sample.bobTicked.step (Action.role "doctor")).selectedUsers = ["2"] ∧
      ¬ Spec.SelectionInView (Sample.bobTicked.step (Action.role "doctor"))) ∧
    ((Sample.bobTicked.step (Action.role "doctor")).bulkDeleteUsers true none).2
      = some { userIds := ["2"], updates := none } := by
  refine ⟨by decide, ⟨by decide, by decide, by decide⟩, by decide⟩

/-- C21, amended. `applyFilters`, `goToPage` and `loadUsers` leave
`selectedUsers` as it is, and `deleteUser` changes nothing at all;
`toggleSelectAll`, `goToPage` and `toggleUserSelection` with the id of a
filtered user (or unticking) keep every selected id inside `filteredUsers` when
it was so before; and each bulk action sends all of `selectedUsers`. -/
theorem selection_kept_by_operations (self : UserManagement) (page : Nat)
    (users : Option (List User)) (userId : String) (selected : Bool) :
    ((applyFilters self).selectedUsers = self.selectedUsers ∧
      (goToPage self page).selectedUsers = self.selectedUsers ∧
      (loadUsers self users).selectedUsers = self.selectedUsers ∧
      deleteUser self userId = self) ∧
    (Spec.SelectionInView self →
      Spec.SelectionInView (toggleSelectAll self selected) ∧
      Spec.SelectionInView (goToPage self page) ∧
      ((selected = true → ∃ u ∈ self.filteredUsers, u.id = userId) →
        Spec.SelectionInView (toggleUserSelection self userId selected))) ∧
    (self.selectedUsers ≠ [] →
      (bulkActivateUsers self users).2
        = some { userIds := self.selectedUsers, updates := some "active" } ∧
      (bulkDeactivateUsers self users).2
        = some { userIds := self.selectedUsers, updates := some "inactive" } ∧
      (bulkDeleteUsers self true users).2
        = some { userIds := self.selectedUsers, updates := none }) := by
  refine ⟨⟨rfl, rfl, rfl, rfl⟩, ?_, ?_⟩
  · intro hInv
    refine ⟨?_, hInv, ?_⟩
    · intro id hid
      cases selected with
      | true =>
        simp only [toggleSelectAll, if_true] at hid ⊢
        rw [JS.mem_foldl_setAdd] at hid
        rcases hid with h | h
        · exact hInv id h
        · rw [List.mem_map] at h
          obtain ⟨u, hu, e⟩ := h
          exact ⟨u, mem_getCurrentPageUsers self u hu, e⟩
      | false =>
        simp only [toggleSelectAll, Bool.false_eq_true, if_false] at hid ⊢
        rw [JS.mem_foldl_setDelete] at hid
        exact hInv id hid.1
    · intro hUser id hid
      cases selected with
      | true =>
        simp only [toggleUserSelection, if_true, JS.setAdd] at hid ⊢
        split_ifs at hid with hmem
        · exact hInv id hid
        · rw [List.mem_append, List.mem_singleton] at hid
          rcases hid with h | h
          · exact hInv id h
          · rw [h]; exact hUser rfl
      | false =>
        simp only [toggleUserSelection, Bool.false_eq_true, if_false, JS.setDelete,
          List.mem_filter] at hid ⊢
        exact hInv id hid.1
  · intro hne
    have hlen : ¬ self.selectedUsers.length = 0 := by
      intro h
      exact hne (List.length_eq_zero.mp h)
    simp [bulkActivateUsers, bulkDeactivateUsers, bulkDeleteUsers, hlen]

/-- With Bob ticked and every user in view, select-all on the page keeps the
selection inside the view, and the bulk activation sends Bob's id. -/
theorem selection_kept_by_operations_witness :
    Spec.SelectionInView (toggleSelectAll Sample.bobTicked true) ∧
    (bulkActivateUsers Sample.bobTicked none).2
      = some { userIds := ["2"], updates := some "active" } :=
  ⟨((selection_kept_by_operations Sample.bobTicked 1 none "1" true).2.1 (by decide)).1,
   ((selection_kept_by_operations Sample.bobTicked 1 none "1" true).2.2 (by decide)).1⟩

end UserManagement

/-! ## Selected rows of the generic table -/

namespace TableComponent

/-- C22, the sentence as written fails: with row 0 (`a`) of the five-row table
selected, a search for `c` makes `getSelectedRows` return `c`, and two clicks
on the column header (ascending, then descending) make it return `e`. -/
theorem getSelectedRows_changes_with_view :
    (Sample.table.handleRowSelection 0 true).getSelectedRows = [some "a"] ∧
    (handleSearch Sample.rowValues (Sample.table.handleRowSelection 0 true) "c").getSelectedRows
      = [some "c"] ∧
    (handleSort Sample.rowValues Sample.stringLt
      (handleSort Sample.rowValues Sample.stringLt
        (Sample.table.handleRowSelection 0 true) 0) 0).getSelectedRows = [some "e"] := by
  refine ⟨by decide, by decide, by decide⟩

theorem handleSearch_selectedRows {α : Type} (values : α → List String)
    (self : TableComponent α) (query : String) :
    (handleSearch values self query).selectedRows = self.selectedRows := by
  unfold handleSearch
  split_ifs <;> rfl

/-- C22, amended. `selectedRows` holds positions: `handleSearch` and `handleSort`
leave it unchanged, `getSelectedRows` returns the records at those positions of
the current `filteredData`, and it returns the same records after either
operation exactly when the record at every selected position is the same. -/
theorem getSelectedRows_by_position {α β : Type} (self : TableComponent α)
    (strings : α → List String) (query : String)
    (values : α → List β) (lt : β → β → Bool) (columnIndex : Nat) :
    (handleSearch strings self query).selectedRows = self.selectedRows ∧
    (handleSort values lt self columnIndex).selectedRows = self.selectedRows ∧
    ((handleSearch strings self query).getSelectedRows = self.getSelectedRows ↔
      ∀ index ∈ self.selectedRows,
        (handleSearch strings self query).filteredData.get? index
          = self.filteredData.get? index) ∧
    ((handleSort values lt self columnIndex).getSelectedRows = self.getSelectedRows ↔
      ∀ index ∈ self.selectedRows,
        (handleSort values lt self columnIndex).filteredData.get? index
          = self.filteredData.get? index) := by
  refine ⟨handleSearch_selectedRows strings self query, rfl, ?_, ?_⟩
  · unfold getSelectedRows
    rw [handleSearch_selectedRows]
    exact List.map_inj_left
  · unfold getSelectedRows
    exact List.map_inj_left

end TableComponent

/-! ## File sizes -/

namespace BackupSystem

theorem log_of_multiple (k i : Nat) (h1 : 1 ≤ k) (h2 : k < 1024) :
    Nat.log 1024 (k * 1024 ^ i) = i := by
  apply Nat.log_eq_of_pow_le_of_lt_pow
  · calc 1024 ^ i = 1 * 1024 ^ i := (Nat.one_mul _).symm
      _ ≤ k * 1024 ^ i := Nat.mul_le_mul_right _ h1
  · rw [pow_succ, Nat.mul_comm (1024 ^ i) 1024]
    exact Nat.mul_lt_mul_of_pos_right h2 (Nat.pow_pos (by decide))

theorem rounded_of_multiple (k i : Nat) :
    (2 * (k * 1024 ^ i * 100) + 1024 ^ i) / (2 * 1024 ^ i) = k * 100 := by
  have hp : 0 < 1024 ^ i := Nat.pow_pos (by decide)
  have e : 2 * (k * 1024 ^ i * 100) + 1024 ^ i = 1024 ^ i + 2 * 1024 ^ i * (k * 100) := by ring
  rw [e, Nat.add_mul_div_left _ _ (by omega)]
  have : 1024 ^ i / (2 * 1024 ^ i) = 0 := Nat.div_eq_of_lt (by omega)
  omega

theorem hundredthsToString_whole (k : Nat) : JS.hundredthsToString (k * 100) = toString k := by
  simp [JS.hundredthsToString]

/-- C25. For `1 ≤ k < 1024`, `formatFileSize(k * 1024^i)` is `k`, a space and the
`i`-th of `B`, `KB`, `MB`, `GB` when `i < 4`, and `formatFileSize(0)` is `0 B`;
but from `1024^4` bytes on the unit is none of the four: the text ends in
`undefined`. -/
theorem formatFileSize_unit_beyond_GB (k i : Nat) (h1 : 1 ≤ k) (h2 : k < 1024) :
    formatFileSize (k * 1024 ^ i)
      = toString k ++ " " ++ (["B", "KB", "MB", "GB"].get? i).getD "undefined" ∧
    formatFileSize 0 = "0 B" ∧
    formatFileSize (k * 1024 ^ 4) = toString k ++ " " ++ "undefined" := by
  have hpos : ∀ j, k * 1024 ^ j ≠ 0 := fun j =>
    Nat.mul_ne_zero (by omega) (Nat.pos_iff_ne_zero.mp (Nat.pow_pos (by decide)))
  have main : ∀ j, formatFileSize (k * 1024 ^ j)
      = toString k ++ " " ++ (["B", "KB", "MB", "GB"].get? j).getD "undefined" := by
    intro j
    unfold formatFileSize
    rw [if_neg (hpos j)]
    simp only [log_of_multiple k j h1 h2, rounded_of_multiple, hundredthsToString_whole]
  exact ⟨main i, rfl, main 4⟩

/-- The first mock backup, 245 MB, and two tebibytes. -/
theorem formatFileSize_unit_beyond_GB_witness :
    formatFileSize 256901120 = "245 MB" ∧ formatFileSize 2199023255552 = "2 undefined" :=
  ⟨(formatFileSize_unit_beyond_GB 245 2 (by decide) (by decide)).1,
   (formatFileSize_unit_beyond_GB 2 4 (by decide) (by decide)).2.2⟩

end BackupSystem

/-! ## Modals -/

namespace ModalComponent

/-- C27. The loading modal is created with `closeOnEscape: false` and
`closeOnBackdrop: false` and is open, yet one press of Escape closes it, and so
does one click on the backdrop. -/
theorem loading_modal_closed_by_escape_and_backdrop :
    isModalOpen Sample.loadingShown.1 Sample.loadingShown.2 = true ∧
    (JS.mapGet Sample.loadingShown.1.modals Sample.loadingShown.2).map
        (fun modal => (modal.config.closeOnEscape, modal.config.closeOnBackdrop))
      = some (false, false) ∧
    isModalOpen (keydown Sample.loadingShown.1 "Escape") Sample.loadingShown.2 = false ∧
    isModalOpen (click Sample.loadingShown.1 true) Sample.loadingShown.2 = false := by
  refine ⟨by decide, by decide, by decide, by decide⟩

end ModalComponent

/-! ## Missing patient names -/

namespace AppointmentManager

/-- C28. The appointments that `loadAppointments` builds have no `patientName`:
on the list loaded from two posts `renderAppointmentsTable` throws, and so does
`filterAppointments` with a non-empty search; an appointment created through
`createNewAppointmentAPI` has the field and its table is rendered. -/
theorem loaded_appointments_lack_patientName :
    Sample.loaded.appointments.map (fun apt => apt.patientName) = [none, none] ∧
    Sample.loaded.tableAvatars = Except.error "TypeError" ∧
    (filterAppointments
      { Sample.loaded with currentFilters := { status := "all", search := "sunt" } }).toBool
      = false ∧
    ((createNewAppointmentAPI (Sample.manager []) Sample.form id 1705312800000).1.appointments.map
      (fun apt => apt.patientName)) = [some "John Smith"] ∧
    (createNewAppointmentAPI (Sample.manager []) Sample.form id 1705312800000).1.tableAvatars
      = Except.ok ["JS"] := by
  refine ⟨by decide, rfl, by decide, by decide, rfl⟩

end AppointmentManager

/-! ## Session after login -/

namespace DentalClinicApp

/-- C29. After a successful `handleLogin` on an empty store the token is stored
and `isLoggedIn()` is true, but no user is stored: `getCurrentUser()` is `null`,
and `init` on the next page load throws in `loadMainApp`. -/
theorem init_after_login_reads_null_user :
    Sample.storageAfterLogin = [("dental_clinic_token", "t0k3n")] ∧
    Auth.new.isLoggedIn Sample.storageAfterLogin = true ∧
    Auth.new.getCurrentUser Sample.parseUser Sample.storageAfterLogin = none ∧
    init Sample.parseUser Sample.storageAfterLogin = Except.error "TypeError" := by
  refine ⟨by decide, by decide, by decide, rfl⟩

end DentalClinicApp

/-! ## Reload after a change -/

namespace ReceptionistAppointments

variable {δ : Type}

theorem apiCall_put_ok (stringify : RequestOptions → String) (userToken : Option String)
    (state : AppointmentsState δ) (endpoint : String) (body : Option String) (now later : Int)
    (status : Nat) (data : δ) :
    apiCall stringify userToken state endpoint
        { method := some "PUT", headers := none, body := body } now
        (FetchOutcome.responded true status (Except.ok data)) later
      = { result := Except.ok data, state := state,
          request := some
            { url := API_BASE_URL ++ endpoint,
              init := fetchInit userToken { method := some "PUT", headers := none, body := body } } } := by
  have hGet : isGet { method := some "PUT", headers := none, body := body } = false := by
    simp [isGet]
  simp only [apiCall, hGet]
  rfl

theorem apiCall_get_fresh (stringify : RequestOptions → String) (userToken : Option String)
    (state : AppointmentsState δ) (endpoint : String) (exchange : Exchange δ) (cached : δ)
    (h : Spec.freshEntry state (endpoint ++ "-" ++ stringify noOptions) exchange.now
      = some cached) :
    apiCall stringify userToken state endpoint noOptions exchange.now exchange.outcome
        exchange.later
      = { result := Except.ok cached, state := state, request := none } := by
  have hGet : isGet noOptions = true := rfl
  unfold Spec.freshEntry at h
  simp only [apiCall, hGet, if_true, h]

theorem apiCall_get_asks (stringify : RequestOptions → String) (userToken : Option String)
    (state : AppointmentsState δ) (endpoint : String) (exchange : Exchange δ)
    (h : Spec.freshEntry state (endpoint ++ "-" ++ stringify noOptions) exchange.now = none) :
    (apiCall stringify userToken state endpoint noOptions exchange.now exchange.outcome
        exchange.later).request
      = some { url := API_BASE_URL ++ endpoint, init := fetchInit userToken noOptions } ∧
    ∀ (status : Nat) (data : δ),
      exchange.outcome = FetchOutcome.responded true status (Except.ok data) →
      (apiCall stringify userToken state endpoint noOptions exchange.now exchange.outcome
        exchange.later).result = Except.ok data := by
  have hGet : isGet noOptions = true := rfl
  unfold Spec.freshEntry at h
  constructor
  · simp only [apiCall, hGet, if_true, h]
    cases hm : JS.mapGet state.dataCache (endpoint ++ "-" ++ stringify noOptions) <;>
      rcases exchange.outcome with _ | ⟨_ | _, _, _ | _⟩ <;> rfl
  · intro status data ho
    simp only [apiCall, hGet, if_true, h, ho]

/-- C23. Five seconds after the page loaded the list and the statistics, a
confirmed cancellation that the server accepts sends the `PUT` and nothing
else: the reload that follows is served from the cache, and the table and the
statistics show the answers from before the cancellation, not the ones the
server would give now. -/
theorem cancel_reload_served_from_cache :
    (cancelAppointment Sample.stringify id none String.length Sample.receptionLoaded "7" true
        (Sample.answers 6000 "ok") (Sample.answers 6200 "list after")
        (Sample.answers 6200 "stats after")).requests.map
      (fun request => (request.init.method, request.url))
      = [(some "PUT", "https://api.dentalclinic.com/v1/appointments/7/cancel")] ∧
    (cancelAppointment Sample.stringify id none String.length Sample.receptionLoaded "7" true
        (Sample.answers 6000 "ok") (Sample.answers 6200 "list after")
        (Sample.answers 6200 "stats after")).appointments = some "list before" ∧
    (cancelAppointment Sample.stringify id none String.length Sample.receptionLoaded "7" true
        (Sample.answers 6000 "ok") (Sample.answers 6200 "list after")
        (Sample.answers 6200 "stats after")).stats = some "stats before" := by
  refine ⟨by decide, by decide, by decide⟩

/-- What the reload after a change does in general.  After a `PUT` that
succeeds, `saveAppointmentChanges` and `cancelAppointment` run `loadAppointments`
and `loadAppointmentsStats`; each of the two sends a `GET` to its endpoint and
shows the answer when it arrives well, unless the cache holds an answer for that
endpoint less than 30 seconds old: then it sends nothing and shows the cached
answer. -/
theorem mutation_reloads_unless_cached (stringify : RequestOptions → String)
    (encode : String → String) (userToken : Option String) (totalOf : δ → Nat)
    (page : AppointmentsPage δ) (appointmentId body : String) (put list stats : Exchange δ)
    (status : Nat) (data : δ)
    (hput : put.outcome = FetchOutcome.responded true status (Except.ok data)) :
    (cancelAppointment stringify encode userToken totalOf page appointmentId true put list stats
      = (reload stringify encode userToken totalOf
          { page with
            requests := page.requests ++
              [{ url := API_BASE_URL ++ ("/appointments" ++ "/" ++ appointmentId ++ "/cancel"),
                 init := fetchInit userToken
                   { method := some "PUT", headers := none, body := none } }] }
          list stats).1) ∧
    (saveAppointmentChanges stringify encode userToken totalOf page true appointmentId body put list stats
      = (reload stringify encode userToken totalOf
          { page with
            requests := page.requests ++
              [{ url := API_BASE_URL ++ ("/appointments" ++ "/" ++ appointmentId),
                 init := fetchInit userToken
                   { method := some "PUT", headers := none, body := some body } }] }
          list stats).1) ∧
    (reload stringify encode userToken totalOf page list stats).1
      = loadAppointmentsStats stringify userToken
          (loadAppointments stringify encode userToken totalOf page list).1 stats ∧
    (∀ cached,
      Spec.freshEntry page.state
          (appointmentsEndpoint encode page.state ++ "-" ++ stringify noOptions) list.now
        = some cached →
      (loadAppointments stringify encode userToken totalOf page list).1.requests
        = page.requests ∧
      (loadAppointments stringify encode userToken totalOf page list).1.appointments
        = some cached) ∧
    (Spec.freshEntry page.state
          (appointmentsEndpoint encode page.state ++ "-" ++ stringify noOptions) list.now
        = none →
      (loadAppointments stringify encode userToken totalOf page list).1.requests
        = page.requests ++
          [{ url := API_BASE_URL ++ appointmentsEndpoint encode page.state,
             init := fetchInit userToken noOptions }] ∧
      ∀ (listStatus : Nat) (response : δ),
        list.outcome = FetchOutcome.responded true listStatus (Except.ok response) →
        (loadAppointments stringify encode userToken totalOf page list).1.appointments
          = some response) ∧
    (∀ cached,
      Spec.freshEntry page.state ("/appointments/stats" ++ "-" ++ stringify noOptions) stats.now
        = some cached →
      (loadAppointmentsStats stringify userToken page stats).requests = page.requests ∧
      (loadAppointmentsStats stringify userToken page stats).stats = some cached) ∧
    (Spec.freshEntry page.state ("/appointments/stats" ++ "-" ++ stringify noOptions) stats.now
        = none →
      (loadAppointmentsStats stringify userToken page stats).requests
        = page.requests ++
          [{ url := API_BASE_URL ++ "/appointments/stats",
             init := fetchInit userToken noOptions }] ∧
      ∀ (statsStatus : Nat) (response : δ),
        stats.outcome = FetchOutcome.responded true statsStatus (Except.ok response) →
        (loadAppointmentsStats stringify userToken page stats).stats = some response) := by
  refine ⟨?_, ?_, rfl, ?_, ?_, ?_, ?_⟩
  · simp only [cancelAppointment, hput, apiCall_put_ok]
    rfl
  · simp only [saveAppointmentChanges, hput, apiCall_put_ok]
    rfl
  · intro cached h
    simp only [loadAppointments, apiCall_get_fresh stringify userToken page.state _ list cached h]
    simp
  · intro h
    have hr := apiCall_get_asks stringify userToken page.state
      (appointmentsEndpoint encode page.state) list h
    constructor
    · unfold loadAppointments
      simp only []
      split <;> simp [hr.1]
    · intro listStatus response ho
      unfold loadAppointments
      simp only [hr.2 listStatus response ho]
  · intro cached h
    simp only [loadAppointmentsStats,
      apiCall_get_fresh stringify userToken page.state _ stats cached h]
    simp
  · intro h
    have hr := apiCall_get_asks stringify userToken page.state "/appointments/stats" stats h
    constructor
    · unfold loadAppointmentsStats
      simp only []
      split <;> simp [hr.1]
    · intro statsStatus response ho
      unfold loadAppointmentsStats
      simp only [hr.2 statsStatus response ho]

/-- On a page with an empty cache `loadAppointments` sends its `GET`, and the
table shows the answer given to it. -/
theorem mutation_reloads_unless_cached_witness :
    (loadAppointments Sample.stringify id none String.length
        { state := Sample.reception, appointments := none, stats := none, requests := [] }
        (Sample.answers 6200 "list after")).1.appointments = some "list after" :=
  ((mutation_reloads_unless_cached Sample.stringify id none String.length
      { state := Sample.reception, appointments := none, stats := none, requests := [] }
      "7" "" (Sample.answers 6000 "ok") (Sample.answers 6200 "list after")
      (Sample.answers 6200 "stats after") 200 "ok" rfl).2.2.2.2.1 rfl).2 200 "list after" rfl

end ReceptionistAppointments

/-! ## Mark all notifications as read -/

namespace ReceptionistDashboard

/-- C24. The first `markAllNotificationsRead` posts to `/notifications/read-all`
and reloads the notifications; a second one four seconds later finds the answer
to the first in the cache and sends nothing at all. -/
theorem second_markAllNotificationsRead_sends_nothing :
    Sample.markedOnce.requests.map (fun request => (request.init.method, request.url))
      = [(some "POST", "https://api.dentalclinic.com/v1/notifications/read-all"),
         (none, "https://api.dentalclinic.com/v1/notifications")] ∧
    (markAllNotificationsRead Sample.stringify none Sample.markedOnce
        (Sample.answers 5000 "done") (Sample.answers 5200 "none unread")).requests
      = Sample.markedOnce.requests := by
  refine ⟨by decide, by decide⟩

end ReceptionistDashboard

/-! ## Search and case -/

namespace JS

theorem toNat_ofNat_of_lt (n : Nat) (h : n < 55296) : (Char.ofNat n).toNat = n := by
  have hv : n.isValidChar := Or.inl h
  unfold Char.ofNat
  rw [dif_pos hv]
  simp only [Char.ofNatAux, Char.toNat]
  show (UInt32.ofNat' n _).toNat = n
  simp [UInt32.ofNat', UInt32.toNat]

theorem char_eq_iff_toNat (a b : Char) : a = b ↔ a.toNat = b.toNat := by
  constructor
  · intro h; rw [h]
  · intro h
    rw [← Char.ofNat_toNat a, ← Char.ofNat_toNat b, h]

theorem toNat_toLower (c : Char) :
    c.toLower.toNat = if 65 ≤ c.toNat ∧ c.toNat ≤ 90 then c.toNat + 32 else c.toNat := by
  unfold Char.toLower
  simp only [ge_iff_le]
  split_ifs with h
  · exact toNat_ofNat_of_lt _ (by omega)
  · rfl

theorem toLower_eq_iff_sameLetter (a b : Char) :
    a.toLower = b.toLower ↔ Spec.SameLetter a b := by
  rw [char_eq_iff_toNat, toNat_toLower, toNat_toLower]
  unfold Spec.SameLetter
  rw [char_eq_iff_toNat a b]
  split_ifs <;> omega

theorem lowerChars_ascii (cs before : List Char) (h : ∀ c ∈ cs, c.toNat < 128) :
    lowerChars before cs = cs.map Char.toLower := by
  induction cs generalizing before with
  | nil => rfl
  | cons c rest ih =>
    have hc : c.toNat < 128 := h c (List.mem_cons_self _ _)
    simp only [lowerChars, hc, if_true, List.map_cons, List.singleton_append]
    rw [ih]
    intro d hd
    exact h d (List.mem_cons_of_mem _ hd)

theorem toLowerCase_ascii (s : String) (h : Spec.IsAscii s) :
    (toLowerCase s).data = s.data.map Char.toLower :=
  lowerChars_ascii s.data [] h

theorem infix_map_iff {α β : Type} (f : α → β) (l : List β) (s : List α) :
    l <:+: s.map f ↔ ∃ run, run <:+: s ∧ l = run.map f := by
  constructor
  · rintro ⟨a, b, h⟩
    obtain ⟨ab, s₂, hs, hab, -⟩ := List.map_eq_append_iff.mp h.symm
    obtain ⟨s₀, s₁, hs', -, h1⟩ := List.map_eq_append_iff.mp hab
    exact ⟨s₁, ⟨s₀, s₂, by rw [hs, hs']⟩, h1.symm⟩
  · rintro ⟨run, hrun, rfl⟩
    exact hrun.map f

theorem map_eq_map_iff_forall₂ {α β : Type} (f : α → β) (l run : List α) :
    l.map f = run.map f ↔ List.Forall₂ (fun a b => f a = f b) l run := by
  rw [← List.forall₂_eq_eq_eq, List.forall₂_map_left_iff, List.forall₂_map_right_iff]

theorem caseInsensitiveSubstring_ascii (q s : String) (hq : Spec.IsAscii q)
    (hs : Spec.IsAscii s) :
    Spec.CaseInsensitiveSubstring q s ↔ Spec.ContainsIgnoringCase q s := by
  unfold Spec.CaseInsensitiveSubstring Spec.ContainsIgnoringCase
  rw [toLowerCase_ascii q hq, toLowerCase_ascii s hs, infix_map_iff]
  constructor
  · rintro ⟨run, hrun, h⟩
    refine ⟨run, hrun, ?_⟩
    rw [map_eq_map_iff_forall₂] at h
    exact h.imp (fun a b hab => (toLower_eq_iff_sameLetter a b).mp hab)
  · rintro ⟨run, hrun, h⟩
    refine ⟨run, hrun, ?_⟩
    rw [map_eq_map_iff_forall₂]
    exact h.imp (fun a b hab => (toLower_eq_iff_sameLetter a b).mpr hab)

theorem forall₂_sameLetter_self (l : List Char) : List.Forall₂ Spec.SameLetter l l := by
  induction l with
  | nil => exact List.Forall₂.nil
  | cons c rest ih => exact List.Forall₂.cons (Or.inl rfl) ih

end JS

namespace UserManagement

set_option maxRecDepth 100000

/-- C5, the sentence as written fails: `ΚΩΣ` is the beginning of the first name
`ΚΩΣΤΑΣ`, yet a search for it finds nobody.  Lower-casing turns the capital
sigma that ends the search text into a final sigma and the one inside the name
into a small sigma.  The same letters typed small find the user. -/
theorem capital_sigma_search_misses :
    Spec.ContainsIgnoringCase "ΚΩΣ" Sample.kostas.first_name ∧
    JS.toLowerCase "ΚΩΣ" = "κως" ∧
    JS.toLowerCase Sample.kostas.first_name = "κωστας" ∧
    (Sample.searching "ΚΩΣ").applyFilters.filteredUsers = [] ∧
    (Sample.searching "κωσ").applyFilters.filteredUsers = [Sample.kostas] := by
  refine ⟨⟨"ΚΩΣ".data, ⟨[], "ΤΑΣ".data, rfl⟩, JS.forall₂_sameLetter_self _⟩,
    by decide, by decide, by decide, by decide⟩

/-- C5, amended. `applyFilters` sets `filteredUsers` to the users, in their
original order, that pass the search (empty, or its lower-case form occurs in
the lower-case form of the first name, last name or email), the role filter
and the status filter at once, resets `currentPage` to 1 and changes nothing
else.  When the search text and the three fields of a user are ASCII, the user
passes the search exactly when the text is empty or occurs in one of the fields
with case ignored letter by letter. -/
theorem applyFilters_filters_by_all_three (self : UserManagement) :
    self.applyFilters.filteredUsers
      = self.users.filter (fun u => decide (Spec.UserMatches self.filters u)) ∧
    self.applyFilters.currentPage = 1 ∧
    self.applyFilters.users = self.users ∧
    self.applyFilters.filters = self.filters ∧
    self.applyFilters.selectedUsers = self.selectedUsers ∧
    self.applyFilters.usersPerPage = self.usersPerPage ∧
    (∀ u : User, Spec.IsAscii self.filters.search → Spec.IsAscii u.first_name →
      Spec.IsAscii u.last_name → Spec.IsAscii u.email →
      (Spec.UserMatches self.filters u ↔ Spec.UserPasses self.filters u) ∧
      (u ∈ self.applyFilters.filteredUsers ↔ u ∈ self.users ∧ Spec.UserPasses self.filters u)) := by
  have hfilter : self.applyFilters.filteredUsers
      = self.users.filter (fun u => decide (Spec.UserMatches self.filters u)) := by
    simp only [applyFilters]
    apply List.filter_congr
    intro u _
    rw [Bool.eq_iff_iff, matchesFilters_iff, decide_eq_true_iff]
  refine ⟨hfilter, rfl, rfl, rfl, rfl, rfl, ?_⟩
  intro u hq hf hl he
  have hiff : Spec.UserMatches self.filters u ↔ Spec.UserPasses self.filters u := by
    unfold Spec.UserMatches Spec.UserPasses
    rw [JS.caseInsensitiveSubstring_ascii _ _ hq hf, JS.caseInsensitiveSubstring_ascii _ _ hq hl,
      JS.caseInsensitiveSubstring_ascii _ _ hq he]
  refine ⟨hiff, ?_⟩
  rw [hfilter, List.mem_filter, decide_eq_true_iff, hiff]

/-- Seven users whose fields are ASCII: the search text `USER3`, in capitals,
finds the user whose email begins with `user3`. -/
theorem applyFilters_filters_by_all_three_witness :
    (applyFilters
      { Sample.userPage 7 3 1 with
        filters := { search := "USER3", role := "all", status := "all" } }).filteredUsers
      = [Sample.user 3] ∧
    Spec.UserPasses { search := "USER3", role := "all", status := "all" } (Sample.user 3) :=
  ⟨(applyFilters_filters_by_all_three
      { Sample.userPage 7 3 1 with
        filters := { search := "USER3", role := "all", status := "all" } }).1.trans
      (by
        apply Eq.trans (List.filter_congr (fun u _ =>
          (Bool.eq_iff_iff.mpr ((matchesFilters_iff _ u).trans decide_eq_true_iff.symm)).symm))
        decide),
   (((applyFilters_filters_by_all_three
      { Sample.userPage 7 3 1 with
        filters := { search := "USER3", role := "all", status := "all" } }).2.2.2.2.2.2
      (Sample.user 3) (by decide) (by decide) (by decide) (by decide)).1).mp
      ((matchesFilters_iff _ _).mp (by decide))⟩

end UserManagement
